import Mathlib

/-!
# ZenFS zone I/O engine and zone allocator (fs/zbd_zenfs.cc)

A shallow embedding of `Zone` and `ZonedBlockDevice` from `fs/zbd_zenfs.cc`.

* Machine integers are natural numbers / integers with the reduction modulo
  `2^w` written out wherever the C++ arithmetic can wrap (`uint64_t` for
  `wp_`, `capacity_`, `max_capacity_`; `uint32_t` for `size` and `left`;
  `int` for the results of `pwrite`, `io_getevents` and `events[0].res`).
* Every call into the device (libzbd, libaio, `pwrite`) is an input of the
  model: the caller of a model function supplies what the device answers, and
  the function returns, next to the status and the new state, the list of
  device calls it issued, in order.
* Zones of a pool are identified by their position in the pool (the C++ code
  holds `Zone *` pointers into `io_zones_`).
* `assert` statements are preconditions of the C++ functions; they are not
  executed by the model and appear as hypotheses of theorems where relevant.
* The two counters `active_io_zones_` and `open_io_zones_` are
  `std::atomic<long>`; they are modelled as integers.
-/

namespace ZenFS

/-! ## Machine arithmetic -/

/-- Number of values of a `uint32_t`. -/
def U32 : Nat := 2 ^ 32

/-- Number of values of a `uint64_t`. -/
def U64 : Nat := 2 ^ 64

/-- The C conversion `(int) n` of an unsigned value (two's complement,
    32 bits). -/
def toInt32 (n : Nat) : Int :=
  if n % U32 < 2 ^ 31 then ((n % U32 : Nat) : Int) else ((n % U32 : Nat) : Int) - (U32 : Int)

/-- The conversion of an `int` to `uint64_t` (sign extension, then reduction
    modulo `2^64`), as in `wp_ += ret`. -/
def intToU64 (r : Int) : Nat := (r % (U64 : Int)).toNat

/-- The conversion of an `int` to `uint32_t`, as in `left -= ret`. -/
def intToU32 (r : Int) : Nat := (r % (U32 : Int)).toNat

/-! ## Environment types that `zbd_zenfs.cc` uses -/

/-- Modelled from the spec: `Env::WriteLifeTimeHint`, declared in
    `rocksdb/env.h`: the six hints in increasing order NotSet, None, Short,
    Medium, Long, Extreme. -/
inductive WriteLifeTimeHint where
  | WLTH_NOT_SET
  | WLTH_NONE
  | WLTH_SHORT
  | WLTH_MEDIUM
  | WLTH_LONG
  | WLTH_EXTREME
  deriving DecidableEq, Repr

/-- Numeric value of a lifetime hint (the C++ enumerator value). -/
def WriteLifeTimeHint.val : WriteLifeTimeHint → Nat
  | .WLTH_NOT_SET => 0
  | .WLTH_NONE => 1
  | .WLTH_SHORT => 2
  | .WLTH_MEDIUM => 3
  | .WLTH_LONG => 4
  | .WLTH_EXTREME => 5

/-- The status codes of `IOStatus` that the zone engine produces. -/
inductive IOStatus where
  | OK
  | NoSpace
  | IOError
  | InvalidArgument
  | NotSupported
  deriving DecidableEq, Repr

/-- Result of `IOStatus::ok()`. -/
def IOStatus.ok : IOStatus → Bool
  | .OK => true
  | _ => false

/-- Modelled from the spec: the zone conditions of a libzbd zone report
    (`struct zbd_zone`, declared in `libzbd/zbd.h`). -/
inductive ZoneCond where
  | Empty
  | ImplicitOpen
  | ExplicitOpen
  | Closed
  | Full
  | ReadOnly
  | Offline
  | NotWp
  deriving DecidableEq, Repr

/-- Modelled from the spec: the zone types of a libzbd zone report. -/
inductive ZoneType where
  | SequentialWriteRequired
  | SequentialWritePreferred
  | Conventional
  deriving DecidableEq, Repr

/-- Modelled from the spec: one entry of the device zone report
    (`struct zbd_zone`): start, length, capacity, write pointer, type and
    condition. -/
structure zbd_zone where
  start : Nat
  len : Nat
  capacity : Nat
  wp : Nat
  type : ZoneType
  cond : ZoneCond
  deriving DecidableEq, Repr

/-- Modelled from the spec: libzbd accessor `zbd_zone_start`. -/
def zbd_zone_start (z : zbd_zone) : Nat := z.start

/-- Modelled from the spec: libzbd accessor `zbd_zone_capacity`. -/
def zbd_zone_capacity (z : zbd_zone) : Nat := z.capacity

/-- Modelled from the spec: libzbd accessor `zbd_zone_wp`. -/
def zbd_zone_wp (z : zbd_zone) : Nat := z.wp

/-- Modelled from the spec: libzbd predicate `zbd_zone_offline`. -/
def zbd_zone_offline (z : zbd_zone) : Bool := z.cond == ZoneCond.Offline

/-- Modelled from the spec: libzbd predicate `zbd_zone_full`. -/
def zbd_zone_full (z : zbd_zone) : Bool := z.cond == ZoneCond.Full

/-- Modelled from the spec: libzbd predicate `zbd_zone_rdonly`. -/
def zbd_zone_rdonly (z : zbd_zone) : Bool := z.cond == ZoneCond.ReadOnly

/-! ## Device calls -/

/-- The calls into the device that the zone engine issues, with the arguments
    that matter (byte counts and offsets). -/
inductive DevCall where
  | pwrite (count : Nat) (offset : Nat)
  | io_getevents
  | io_submit (nbytes : Nat) (offset : Nat)
  | zbd_reset_zones (ofst : Nat) (len : Nat)
  | zbd_report_zones (ofst : Nat) (len : Nat)
  | zbd_finish_zones (ofst : Nat) (len : Nat)
  | zbd_close_zones (ofst : Nat) (len : Nat)
  deriving DecidableEq, Repr

/-- What `io_getevents(ctx, 1, 1, events, &timeout)` answers: its return value
    (`1` when one completion was reaped, `0` on timeout, negative on error) and
    the value of `events[0].res` as read into the `int ret` of `Zone::Sync`. -/
structure AioCompletion where
  ret : Int
  res : Int
  deriving DecidableEq, Repr

/-- What the device answers to `Zone::Reset`: the return value of
    `zbd_reset_zones`, the return value of `zbd_report_zones`, the number of
    zones it reported and the reported zone. -/
structure ResetAnswer where
  reset_ret : Int
  report_ret : Int
  report : Nat
  z : zbd_zone
  deriving DecidableEq, Repr

/-! ## Zone -/

/-- The asynchronous write slot `wr_ctx` of a zone: `inflight` and the fields
    of the prepared `iocb` that `Zone::Sync` reads (`u.c.nbytes`) or that
    identify the request (`u.c.offset`). -/
structure zenfs_aio_ctx where
  inflight : Nat
  nbytes : Nat
  offset : Nat
  deriving DecidableEq, Repr

/-- Mutable state of a `Zone` object. -/
structure Zone where
  start_ : Nat
  capacity_ : Nat
  max_capacity_ : Nat
  wp_ : Nat
  open_for_write_ : Bool
  lifetime_ : WriteLifeTimeHint
  used_capacity_ : Int
  bg_processing_ : Bool
  wr_ctx : zenfs_aio_ctx
  deriving DecidableEq, Repr

/-- Outcome of a zone operation: status, zone state afterwards and the device
    calls issued, in order. -/
structure ZoneResult where
  status : IOStatus
  zone : Zone
  calls : List DevCall
  deriving DecidableEq, Repr

/-- Constructor `Zone::Zone(zbd, z)`. -/
def Zone.mk_from_report (z : zbd_zone) : Zone :=
  { start_ := zbd_zone_start z
    max_capacity_ := zbd_zone_capacity z
    wp_ := zbd_zone_wp z
    open_for_write_ := false
    lifetime_ := WriteLifeTimeHint.WLTH_NOT_SET
    used_capacity_ := 0
    capacity_ :=
      if !(zbd_zone_full z || zbd_zone_offline z || zbd_zone_rdonly z) then
        (zbd_zone_capacity z + U64 - (zbd_zone_wp z + U64 - zbd_zone_start z) % U64) % U64
      else 0
    bg_processing_ := false
    wr_ctx := { inflight := 0, nbytes := 0, offset := 0 } }

/-- Accessor `Zone::IsUsed`. -/
def Zone.IsUsed (z : Zone) : Bool := decide (z.used_capacity_ > 0) || z.open_for_write_

/-- Accessor `Zone::GetCapacityLeft`. -/
def Zone.GetCapacityLeft (z : Zone) : Nat := z.capacity_

/-- Accessor `Zone::IsFull`. -/
def Zone.IsFull (z : Zone) : Bool := decide (z.capacity_ = 0)

/-- Accessor `Zone::IsEmpty`. -/
def Zone.IsEmpty (z : Zone) : Bool := decide (z.wp_ = z.start_)

/-- Method `Zone::Sync`: reap the completion of the asynchronous write in
    flight, if any. -/
def Zone.Sync (z : Zone) (ev : AioCompletion) : ZoneResult :=
  if z.wr_ctx.inflight = 0 then
    { status := IOStatus.OK, zone := z, calls := [] }
  else if ev.ret ≠ 1 then
    { status := IOStatus.IOError, zone := z, calls := [DevCall.io_getevents] }
  else if ev.res ≠ toInt32 z.wr_ctx.nbytes then
    { status := IOStatus.IOError, zone := z, calls := [DevCall.io_getevents] }
  else
    { status := IOStatus.OK
      zone := { z with wr_ctx := { z.wr_ctx with inflight := 0 } }
      calls := [DevCall.io_getevents] }

/-- The loop `while (left) { ret = pwrite(fd, ptr, size, wp_); ... }` of
    `Zone::Append`.  `results` holds what the successive `pwrite` calls
    return; the loop yields `none` when it would call `pwrite` once more than
    there are results. -/
def Zone.AppendLoop (size : Nat) : List Int → Zone → Nat → List DevCall → Option ZoneResult
  | results, z, left, calls =>
    if left = 0 then
      some { status := IOStatus.OK, zone := z, calls := calls }
    else
      match results with
      | [] => none
      | ret :: rest =>
        let calls1 := calls ++ [DevCall.pwrite size z.wp_]
        if ret < 0 then
          some { status := IOStatus.IOError, zone := z, calls := calls1 }
        else
          Zone.AppendLoop size rest
            { z with
              wp_ := (z.wp_ + intToU64 ret) % U64
              capacity_ := (z.capacity_ + U64 - intToU64 ret) % U64 }
            ((left + U32 - intToU32 ret) % U32)
            calls1

/-- Method `Zone::Append(data, size)`.  `ev` is the answer of `io_getevents`
    should `Sync` ask for it, `results` the return values of the successive
    `pwrite` calls. -/
def Zone.Append (z : Zone) (size : Nat) (ev : AioCompletion) (results : List Int) :
    Option ZoneResult :=
  if z.capacity_ < size then
    some { status := IOStatus.NoSpace, zone := z, calls := [] }
  else
    let s := z.Sync ev
    if !s.status.ok then
      some s
    else
      Zone.AppendLoop size results s.zone size s.calls

/-- Method `Zone::Append_async(data, size)`.  `ev` is the answer of
    `io_getevents` should `Sync` ask for it, `submit_ret` the return value of
    `io_submit`.  The subtraction `capacity_ -= size` is reached only with
    `capacity_ >= size` and cannot wrap. -/
def Zone.Append_async (z : Zone) (size : Nat) (ev : AioCompletion) (submit_ret : Int) :
    ZoneResult :=
  let s := z.Sync ev
  if !s.status.ok then
    s
  else if s.zone.capacity_ < size then
    { status := IOStatus.NoSpace, zone := s.zone, calls := s.calls }
  else
    let z1 : Zone :=
      { s.zone with wr_ctx := { s.zone.wr_ctx with nbytes := size, offset := s.zone.wp_ } }
    let calls1 := s.calls ++ [DevCall.io_submit size s.zone.wp_]
    if submit_ret < 0 then
      { status := IOStatus.IOError, zone := z1, calls := calls1 }
    else
      { status := IOStatus.OK
        zone :=
          { z1 with
            wr_ctx := { z1.wr_ctx with inflight := size }
            wp_ := (z1.wp_ + size) % U64
            capacity_ := z1.capacity_ - size }
        calls := calls1 }

/-- Method `Zone::Reset`; `zone_sz` is `zbd_->GetZoneSize()`. -/
def Zone.Reset (z : Zone) (zone_sz : Nat) (a : ResetAnswer) : ZoneResult :=
  if a.reset_ret ≠ 0 then
    { status := IOStatus.IOError, zone := z
      calls := [DevCall.zbd_reset_zones z.start_ zone_sz] }
  else if a.report_ret ≠ 0 ∨ a.report ≠ 1 then
    { status := IOStatus.IOError, zone := z
      calls := [DevCall.zbd_reset_zones z.start_ zone_sz,
                DevCall.zbd_report_zones z.start_ zone_sz] }
  else
    let z1 : Zone :=
      if zbd_zone_offline a.z then
        { z with capacity_ := 0 }
      else
        { z with max_capacity_ := zbd_zone_capacity a.z, capacity_ := zbd_zone_capacity a.z }
    { status := IOStatus.OK
      zone := { z1 with wp_ := z1.start_, lifetime_ := WriteLifeTimeHint.WLTH_NOT_SET }
      calls := [DevCall.zbd_reset_zones z.start_ zone_sz,
                DevCall.zbd_report_zones z.start_ zone_sz] }

/-- Method `Zone::Finish`; `finish_ret` is the return value of
    `zbd_finish_zones`. -/
def Zone.Finish (z : Zone) (zone_sz : Nat) (finish_ret : Int) : ZoneResult :=
  if finish_ret ≠ 0 then
    { status := IOStatus.IOError, zone := z
      calls := [DevCall.zbd_finish_zones z.start_ zone_sz] }
  else
    { status := IOStatus.OK
      zone := { z with capacity_ := 0, wp_ := (z.start_ + zone_sz) % U64 }
      calls := [DevCall.zbd_finish_zones z.start_ zone_sz] }

/-- Method `Zone::Close`; `close_ret` is the return value of
    `zbd_close_zones` should the device be asked. -/
def Zone.Close (z : Zone) (zone_sz : Nat) (close_ret : Int) : ZoneResult :=
  if !(z.IsEmpty || z.IsFull) then
    if close_ret ≠ 0 then
      { status := IOStatus.IOError, zone := z
        calls := [DevCall.zbd_close_zones z.start_ zone_sz] }
    else
      { status := IOStatus.OK
        zone := { z with open_for_write_ := false }
        calls := [DevCall.zbd_close_zones z.start_ zone_sz] }
  else
    { status := IOStatus.OK, zone := { z with open_for_write_ := false }, calls := [] }

/-! ## ZonedBlockDevice -/

/-- A job that `AllocateZone` submits to `data_worker_`: the closure that
    resets, respectively finishes, the io zone at the given position of
    `io_zones_`. -/
inductive BgJob where
  | reset (zone : Nat)
  | finish (zone : Nat)
  deriving DecidableEq, Repr

/-- State of a `ZonedBlockDevice`: geometry, the three zone pools, the quota
    and its two counters, and the queue of jobs handed to `data_worker_` that
    have not run yet.  `max_nr_active_io_zones_` and `max_nr_open_io_zones_`
    are `unsigned int`, `finish_threshold_` is `uint32_t`. -/
structure ZonedBlockDevice where
  block_sz_ : Nat
  zone_sz_ : Nat
  nr_zones_ : Nat
  op_zones_ : List Zone
  snapshot_zones_ : List Zone
  io_zones_ : List Zone
  finish_threshold_ : Nat
  active_io_zones_ : Int
  open_io_zones_ : Int
  max_nr_active_io_zones_ : Nat
  max_nr_open_io_zones_ : Nat
  data_worker_jobs : List BgJob
  deriving DecidableEq, Repr

/-- Method `ZonedBlockDevice::NotifyIOZoneFull`. -/
def ZonedBlockDevice.NotifyIOZoneFull (d : ZonedBlockDevice) : ZonedBlockDevice :=
  { d with active_io_zones_ := d.active_io_zones_ - 1 }

/-- Method `ZonedBlockDevice::NotifyIOZoneClosed`. -/
def ZonedBlockDevice.NotifyIOZoneClosed (d : ZonedBlockDevice) : ZonedBlockDevice :=
  { d with open_io_zones_ := d.open_io_zones_ - 1 }

/-- Outcome of `Zone::CloseWR`: the zone, the device it belongs to and the
    device calls issued. -/
structure CloseWRResult where
  zone : Zone
  zbd : ZonedBlockDevice
  calls : List DevCall
  deriving DecidableEq, Repr

/-- Method `Zone::CloseWR` of a zone of device `zbd`.  `ev` is the answer of
    `io_getevents` should `Sync` ask for it, `close_ret` the return value of
    `zbd_close_zones` should `Close` ask the device. -/
def Zone.CloseWR (z : Zone) (zbd : ZonedBlockDevice) (ev : AioCompletion) (close_ret : Int) :
    CloseWRResult :=
  let s := z.Sync ev
  let c := s.zone.Close zbd.zone_sz_ close_ret
  let zbd1 := if c.status.ok then zbd.NotifyIOZoneClosed else zbd
  let zbd2 := if c.zone.capacity_ = 0 then zbd1.NotifyIOZoneFull else zbd1
  { zone := c.zone, zbd := zbd2, calls := s.calls ++ c.calls }

/-! ## Lifetime distance -/

/-- Constant `LIFETIME_DIFF_NOT_GOOD`. -/
def LIFETIME_DIFF_NOT_GOOD : Nat := 100

/-- Constant `LIFETIME_DIFF_MEH`. -/
def LIFETIME_DIFF_MEH : Nat := 2

/-- Function `GetLifeTimeDiff(zone_lifetime, file_lifetime)`. -/
def GetLifeTimeDiff (zone_lifetime file_lifetime : WriteLifeTimeHint) : Nat :=
  if file_lifetime = WriteLifeTimeHint.WLTH_NOT_SET ∨
      file_lifetime = WriteLifeTimeHint.WLTH_NONE then
    if file_lifetime = zone_lifetime then 0 else LIFETIME_DIFF_NOT_GOOD
  else if zone_lifetime = file_lifetime then LIFETIME_DIFF_MEH
  else if zone_lifetime.val > file_lifetime.val then zone_lifetime.val - file_lifetime.val
  else LIFETIME_DIFF_NOT_GOOD

/-! ## AllocateZone -/

/-- Local variable `reserved_zones` of `AllocateZone`. -/
def reserved_zones : Nat := 1

/-- The bound `max_nr_active_io_zones_ - (is_wal ? 0 : reserved_zones)` that
    `AllocateZone` compares `active` with: an `unsigned int` subtraction,
    converted to `long` for the comparison. -/
def ZonedBlockDevice.activeBound (d : ZonedBlockDevice) (is_wal : Bool) : Int :=
  (((d.max_nr_active_io_zones_ + U32 - (if is_wal then 0 else reserved_zones)) % U32 : Nat) : Int)

/-- Body of the first loop of a pass of `AllocateZone` for the zone at
    position `i`: the zone afterwards and the job submitted for it, if any.
    The compare-exchange on `bg_processing_` succeeds exactly when the flag is
    clear. -/
def reclaimZone (finish_threshold : Nat) (is_wal : Bool) (i : Nat) (z : Zone) :
    Zone × List BgJob :=
  if z.open_for_write_ || z.IsEmpty || (z.IsFull && z.IsUsed) then
    (z, [])
  else if z.bg_processing_ then
    (z, [])
  else
    let z1 : Zone := { z with bg_processing_ := true }
    if !z1.IsUsed then
      ({ z1 with open_for_write_ := true }, [BgJob.reset i])
    else if !is_wal &&
        decide (z1.capacity_ < (z1.max_capacity_ * finish_threshold % U64) / 100) then
      ({ z1 with open_for_write_ := true }, [BgJob.finish i])
    else
      ({ z1 with bg_processing_ := false }, [])

/-- First loop of a pass of `AllocateZone` (reset unused zones, finish used
    zones under the capacity threshold) over the zones from position `i` on. -/
def reclaimLoop (finish_threshold : Nat) (is_wal : Bool) : List Zone → Nat → List Zone × List BgJob
  | [], _ => ([], [])
  | z :: rest, i =>
    let r := reclaimZone finish_threshold is_wal i z
    let rs := reclaimLoop finish_threshold is_wal rest (i + 1)
    (r.1 :: rs.1, r.2 ++ rs.2)

/-- The test of the second loop of a pass of `AllocateZone`: the zone is not
    being processed in the background, is not open for write, holds live data
    and is not full. -/
def Zone.fitCandidate (z : Zone) : Bool :=
  !z.bg_processing_ && (!z.open_for_write_ && decide (z.used_capacity_ > 0) && !z.IsFull)

/-- Second loop of a pass of `AllocateZone` over the zones from position `i`
    on, threading the locals `allocated_zone` and `best_diff`. -/
def bestFitLoop (file_lifetime : WriteLifeTimeHint) :
    List Zone → Nat → Option Nat → Nat → Option Nat × Nat
  | [], _, allocated_zone, best_diff => (allocated_zone, best_diff)
  | z :: rest, i, allocated_zone, best_diff =>
    if z.bg_processing_ then
      bestFitLoop file_lifetime rest (i + 1) allocated_zone best_diff
    else if !z.open_for_write_ && decide (z.used_capacity_ > 0) && !z.IsFull then
      if GetLifeTimeDiff z.lifetime_ file_lifetime ≤ best_diff then
        bestFitLoop file_lifetime rest (i + 1) (some i)
          (GetLifeTimeDiff z.lifetime_ file_lifetime)
      else
        bestFitLoop file_lifetime rest (i + 1) allocated_zone best_diff
    else
      bestFitLoop file_lifetime rest (i + 1) allocated_zone best_diff

/-- Third loop of a pass of `AllocateZone`: position of the first zone, from
    position `i` on, that is not being processed in the background, is not
    open for write and is empty. -/
def emptyLoop : List Zone → Nat → Option Nat
  | [], _ => none
  | z :: rest, i =>
    if z.bg_processing_ then emptyLoop rest (i + 1)
    else if !z.open_for_write_ && z.IsEmpty then some i
    else emptyLoop rest (i + 1)

/-- The locals of `AllocateZone` at the end of a pass of its `do ... while
    (retry)` loop, with the state of the device. -/
structure AllocPass where
  zbd : ZonedBlockDevice
  allocated_zone : Option Nat
  retry : Bool
  new_zone : Nat
  deriving DecidableEq, Repr

/-- Replace the io zone at position `j`. -/
def ZonedBlockDevice.setIOZone (d : ZonedBlockDevice) (j : Nat) (z : Zone) : ZonedBlockDevice :=
  { d with io_zones_ := d.io_zones_.set j z }

/-- The part of a pass of `AllocateZone` after the best-fit attempt ("If we did
    not find a good match, allocate an empty one"), entered with the local
    `allocated_zone` as the best-fit attempt left it. -/
def ZonedBlockDevice.emptyPass (d : ZonedBlockDevice) (file_lifetime : WriteLifeTimeHint)
    (is_wal : Bool) (allocated_zone : Option Nat) : AllocPass :=
  if d.active_io_zones_ < d.activeBound is_wal then
    match emptyLoop d.io_zones_ 0 with
    | some j =>
      match d.io_zones_[j]? with
      | some z =>
        let z1 : Zone := { z with open_for_write_ := true, lifetime_ := file_lifetime }
        let d1 := d.setIOZone j z1
        if d1.active_io_zones_ ≥ d1.activeBound is_wal then
          { zbd := d1.setIOZone j { z1 with open_for_write_ := false }
            allocated_zone := none, retry := true, new_zone := 1 }
        else
          { zbd :=
              { d1 with
                active_io_zones_ := d1.active_io_zones_ + 1
                open_io_zones_ := d1.open_io_zones_ + 1 }
            allocated_zone := some j, retry := false, new_zone := 1 }
      | none => { zbd := d, allocated_zone := allocated_zone, retry := true, new_zone := 0 }
    | none => { zbd := d, allocated_zone := allocated_zone, retry := true, new_zone := 0 }
  else
    { zbd := d, allocated_zone := allocated_zone, retry := true, new_zone := 0 }

/-- The device after the first loop of a pass of `AllocateZone`. -/
def ZonedBlockDevice.reclaimPass (d : ZonedBlockDevice) (is_wal : Bool) : ZonedBlockDevice :=
  { d with
    io_zones_ := (reclaimLoop d.finish_threshold_ is_wal d.io_zones_ 0).1
    data_worker_jobs :=
      d.data_worker_jobs ++ (reclaimLoop d.finish_threshold_ is_wal d.io_zones_ 0).2 }

/-- The best-fit attempt of a pass of `AllocateZone` and what follows it, on
    the device as the first loop left it.  The compare-exchange on
    `open_for_write_` succeeds exactly when the flag is clear. -/
def ZonedBlockDevice.bestFitPass (d : ZonedBlockDevice) (file_lifetime : WriteLifeTimeHint)
    (is_wal : Bool) (allocated_zone : Option Nat) : AllocPass :=
  let fit := bestFitLoop file_lifetime d.io_zones_ 0 allocated_zone LIFETIME_DIFF_NOT_GOOD
  match fit.1 with
  | some j =>
    if fit.2 < LIFETIME_DIFF_NOT_GOOD then
      match d.io_zones_[j]? with
      | some z =>
        if !z.open_for_write_ then
          { zbd :=
              { d.setIOZone j { z with open_for_write_ := true } with
                open_io_zones_ := d.open_io_zones_ + 1 }
            allocated_zone := some j, retry := false, new_zone := 0 }
        else
          d.emptyPass file_lifetime is_wal none
      | none => d.emptyPass file_lifetime is_wal none
    else
      d.emptyPass file_lifetime is_wal (some j)
  | none => d.emptyPass file_lifetime is_wal none

/-- One pass of the `do ... while (retry)` loop of `AllocateZone`, entered
    with the local `allocated_zone` as the previous pass left it (`none`, the
    null pointer, in the first pass). -/
def ZonedBlockDevice.AllocateZonePass (d : ZonedBlockDevice)
    (file_lifetime : WriteLifeTimeHint) (is_wal : Bool) (allocated_zone : Option Nat) :
    AllocPass :=
  (d.reclaimPass is_wal).bestFitPass file_lifetime is_wal allocated_zone

/-- The `do ... while (retry)` loop of `AllocateZone`, for at most `fuel`
    passes: the device afterwards and the zone returned, or `none` when the
    loop is still retrying after `fuel` passes. -/
def ZonedBlockDevice.AllocateZoneLoop (file_lifetime : WriteLifeTimeHint) (is_wal : Bool) :
    Nat → ZonedBlockDevice → Option Nat → Option (ZonedBlockDevice × Option Nat)
  | 0, _, _ => none
  | fuel + 1, d, allocated_zone =>
    let p := d.AllocateZonePass file_lifetime is_wal allocated_zone
    if p.retry then
      ZonedBlockDevice.AllocateZoneLoop file_lifetime is_wal fuel p.zbd p.allocated_zone
    else
      some (p.zbd, p.allocated_zone)

/-- Method `ZonedBlockDevice::AllocateZone(file_lifetime, is_wal)`, given
    `fuel` passes. -/
def ZonedBlockDevice.AllocateZone (d : ZonedBlockDevice) (file_lifetime : WriteLifeTimeHint)
    (is_wal : Bool) (fuel : Nat) : Option (ZonedBlockDevice × Option Nat) :=
  ZonedBlockDevice.AllocateZoneLoop file_lifetime is_wal fuel d none

/-! ## Background jobs, ResetUnusedIOZones and operations on a zone of the io pool -/

/-- What the device answers while a job of `data_worker_` runs: the answer to
    `Zone::Reset` (for a reset job) and the return value of `zbd_finish_zones`
    (for a finish job). -/
structure JobAnswer where
  reset : ResetAnswer
  finish_ret : Int
  deriving DecidableEq, Repr

/-- The zone a background job works on. -/
def BgJob.zone : BgJob → Nat
  | .reset j => j
  | .finish j => j

/-- The closure that `AllocateZone` submits for an unused zone `j`:
    `active = !IsFull(); Reset(); if (active) active_io_zones_--;
    open_for_write_ = false; bg_processing_ = false`.  A failing `Reset` is
    only logged. -/
def ZonedBlockDevice.runResetJob (d : ZonedBlockDevice) (j : Nat) (a : ResetAnswer) :
    ZonedBlockDevice :=
  match d.io_zones_[j]? with
  | none => d
  | some z =>
    let active := !z.IsFull
    let r := z.Reset d.zone_sz_ a
    let d1 : ZonedBlockDevice :=
      if active then { d with active_io_zones_ := d.active_io_zones_ - 1 } else d
    d1.setIOZone j { r.zone with open_for_write_ := false, bg_processing_ := false }

/-- The closure that `AllocateZone` submits for a used zone `j` under the
    finish threshold: `Finish(); active_io_zones_--; open_for_write_ = false;
    bg_processing_ = false`.  A failing `Finish` is only logged. -/
def ZonedBlockDevice.runFinishJob (d : ZonedBlockDevice) (j : Nat) (finish_ret : Int) :
    ZonedBlockDevice :=
  match d.io_zones_[j]? with
  | none => d
  | some z =>
    let r := z.Finish d.zone_sz_ finish_ret
    let d1 : ZonedBlockDevice := { d with active_io_zones_ := d.active_io_zones_ - 1 }
    d1.setIOZone j { r.zone with open_for_write_ := false, bg_processing_ := false }

/-- One turn of `BackgroundWorker::ProcessJobs` for `data_worker_` (also what
    the destructor does for each job left): take the job at the front of the
    queue and run it. -/
def ZonedBlockDevice.runJob (d : ZonedBlockDevice) (a : JobAnswer) : ZonedBlockDevice :=
  match d.data_worker_jobs with
  | [] => d
  | BgJob.reset j :: rest =>
    ZonedBlockDevice.runResetJob { d with data_worker_jobs := rest } j a.reset
  | BgJob.finish j :: rest =>
    ZonedBlockDevice.runFinishJob { d with data_worker_jobs := rest } j a.finish_ret

/-- The loop of `ZonedBlockDevice::ResetUnusedIOZones` over the zones from
    position `i` on, threading `active_io_zones_`; `answers i` is what the
    device answers to the `Reset` of the zone at position `i`.  Yields the
    zones afterwards, the counter afterwards and the device calls issued. -/
def resetUnusedLoop (zone_sz : Nat) (answers : Nat → ResetAnswer) :
    List Zone → Nat → Int → List Zone × Int × List DevCall
  | [], _, active => ([], active, [])
  | z :: rest, i, active =>
    if !z.IsUsed && !z.IsEmpty then
      let active1 := if !z.IsFull then active - 1 else active
      let r := z.Reset zone_sz (answers i)
      let rs := resetUnusedLoop zone_sz answers rest (i + 1) active1
      (r.zone :: rs.1, rs.2.1, r.calls ++ rs.2.2)
    else
      let rs := resetUnusedLoop zone_sz answers rest (i + 1) active
      (z :: rs.1, rs.2.1, rs.2.2)

/-- Method `ZonedBlockDevice::ResetUnusedIOZones`: the device afterwards and
    the device calls issued. -/
def ZonedBlockDevice.ResetUnusedIOZones (d : ZonedBlockDevice) (answers : Nat → ResetAnswer) :
    ZonedBlockDevice × List DevCall :=
  let r := resetUnusedLoop d.zone_sz_ answers d.io_zones_ 0 d.active_io_zones_
  ({ d with io_zones_ := r.1, active_io_zones_ := r.2.1 }, r.2.2)

/-- `Zone::CloseWR` called on the io zone at position `j`. -/
def ZonedBlockDevice.CloseWRAt (d : ZonedBlockDevice) (j : Nat) (ev : AioCompletion)
    (close_ret : Int) : ZonedBlockDevice :=
  match d.io_zones_[j]? with
  | none => d
  | some z => ((z.CloseWR d ev close_ret).zbd).setIOZone j (z.CloseWR d ev close_ret).zone

/-- `Zone::Append` called on the io zone at position `j`; nothing happens in
    the model when the `pwrite` results run out before the loop ends. -/
def ZonedBlockDevice.AppendAt (d : ZonedBlockDevice) (j : Nat) (size : Nat)
    (ev : AioCompletion) (results : List Int) : ZonedBlockDevice :=
  match d.io_zones_[j]? with
  | none => d
  | some z =>
    match z.Append size ev results with
    | none => d
    | some r => d.setIOZone j r.zone

/-- `Zone::Append_async` called on the io zone at position `j`. -/
def ZonedBlockDevice.AppendAsyncAt (d : ZonedBlockDevice) (j : Nat) (size : Nat)
    (ev : AioCompletion) (submit_ret : Int) : ZonedBlockDevice :=
  match d.io_zones_[j]? with
  | none => d
  | some z => d.setIOZone j (z.Append_async size ev submit_ret).zone

/-- `Zone::Sync` called on the io zone at position `j`. -/
def ZonedBlockDevice.SyncAt (d : ZonedBlockDevice) (j : Nat) (ev : AioCompletion) :
    ZonedBlockDevice :=
  match d.io_zones_[j]? with
  | none => d
  | some z => d.setIOZone j (z.Sync ev).zone

/-- The layer above declares `used` bytes live in the io zone at position `j`
    (an assignment to `used_capacity_`). -/
def ZonedBlockDevice.setUsedCapacity (d : ZonedBlockDevice) (j : Nat) (used : Int) :
    ZonedBlockDevice :=
  match d.io_zones_[j]? with
  | none => d
  | some z => d.setIOZone j { z with used_capacity_ := used }

/-! ## Runs of a device with its clients -/

/-- A device together with the zones its clients hold: the io zones that
    `AllocateZone` returned and that have not been given back with `CloseWR`
    since, latest first. -/
structure Sys where
  zbd : ZonedBlockDevice
  held : List Nat

/-- The operations that move a device: one pass of the retry loop of an
    `AllocateZone` call, the zone operations of a client on a zone it holds,
    `ResetUnusedIOZones`, one job of `data_worker_`, and a live-data update by
    the layer above. -/
inductive Op where
  | allocPass (file_lifetime : WriteLifeTimeHint) (is_wal : Bool) (allocated_zone : Option Nat)
  | append (j : Nat) (size : Nat) (ev : AioCompletion) (results : List Int)
  | appendAsync (j : Nat) (size : Nat) (ev : AioCompletion) (submit_ret : Int)
  | sync (j : Nat) (ev : AioCompletion)
  | closeWR (j : Nat) (ev : AioCompletion) (close_ret : Int)
  | resetUnused (answers : Nat → ResetAnswer)
  | runJob (a : JobAnswer)
  | liveData (j : Nat) (used : Int)

/-- Effect of one operation.  A pass of `AllocateZone` that ends the retry
    loop hands its zone to the caller; the zone operations are those of a
    client on a zone it holds (they do nothing on a zone that is not held);
    `CloseWR` gives the zone back. -/
def Sys.step (s : Sys) : Op → Sys
  | .allocPass fl wal az =>
    let p := s.zbd.AllocateZonePass fl wal az
    { zbd := p.zbd
      held :=
        if p.retry then s.held
        else
          match p.allocated_zone with
          | some j => j :: s.held
          | none => s.held }
  | .append j size ev results =>
    if j ∈ s.held then { s with zbd := s.zbd.AppendAt j size ev results } else s
  | .appendAsync j size ev submit_ret =>
    if j ∈ s.held then { s with zbd := s.zbd.AppendAsyncAt j size ev submit_ret } else s
  | .sync j ev =>
    if j ∈ s.held then { s with zbd := s.zbd.SyncAt j ev } else s
  | .closeWR j ev close_ret =>
    if j ∈ s.held then
      { zbd := s.zbd.CloseWRAt j ev close_ret, held := s.held.erase j }
    else s
  | .resetUnused answers => { s with zbd := (s.zbd.ResetUnusedIOZones answers).1 }
  | .runJob a => { s with zbd := s.zbd.runJob a }
  | .liveData j used => { s with zbd := s.zbd.setUsedCapacity j used }

/-- Effect of a sequence of operations, first to last. -/
def Sys.run (s : Sys) : List Op → Sys
  | [] => s
  | op :: ops => (s.step op).run ops

/-- The states a device with its clients can reach from `s0`. -/
def Reachable (s0 s : Sys) : Prop := ∃ ops : List Op, s0.run ops = s

/-- Constant `ZENFS_OP_LOG_ZONES`. -/
def ZENFS_OP_LOG_ZONES : Nat := 2

/-- Constant `ZENFS_SNAPSHOT_ZONES`. -/
def ZENFS_SNAPSHOT_ZONES : Nat := 2

/-- Constant `ZENFS_MIN_ZONES`. -/
def ZENFS_MIN_ZONES : Nat := 32

/-- Modelled from the spec: the device models of libzbd (`enum zbd_dev_model`,
    declared in `libzbd/zbd.h`). -/
inductive zbd_dev_model where
  | ZBD_DM_HOST_MANAGED
  | ZBD_DM_HOST_AWARE
  | ZBD_DM_NOT_ZONED
  deriving DecidableEq, Repr

/-- Modelled from the spec: the fields of `struct zbd_info` (declared in
    `libzbd/zbd.h`) that `Open` reads; the two limits are `unsigned int`. -/
structure zbd_info where
  model : zbd_dev_model
  nr_zones : Nat
  pblock_size : Nat
  zone_size : Nat
  max_nr_open_zones : Nat
  max_nr_active_zones : Nat
  deriving DecidableEq, Repr

/-- Modelled from the spec: libzbd predicate `zbd_zone_imp_open`. -/
def zbd_zone_imp_open (z : zbd_zone) : Bool := z.cond == ZoneCond.ImplicitOpen

/-- Modelled from the spec: libzbd predicate `zbd_zone_exp_open`. -/
def zbd_zone_exp_open (z : zbd_zone) : Bool := z.cond == ZoneCond.ExplicitOpen

/-- Modelled from the spec: libzbd predicate `zbd_zone_closed`. -/
def zbd_zone_closed (z : zbd_zone) : Bool := z.cond == ZoneCond.Closed

/-- The test `zbd_zone_type(z) == ZBD_ZONE_TYPE_SWR`. -/
def zbd_zone_swr (z : zbd_zone) : Bool := z.type == ZoneType.SequentialWriteRequired

/-- What the system answers during `ZonedBlockDevice::Open`: the three file
    descriptors of `zbd_open`, the device information, whether the scheduler
    file could be opened and whether its first line contains `[mq-deadline]`,
    the return value of `zbd_list_zones` with the zones it reported, and the
    return value of `zbd_close_zones` for the zone at a position of the
    report. -/
structure OpenAnswer where
  read_f : Int
  read_direct_f : Int
  write_f : Int
  info : zbd_info
  scheduler_is_open : Bool
  scheduler_mq_deadline : Bool
  list_ret : Int
  zone_rep : List zbd_zone
  close_ret : Nat → Int

/-- Method `ZonedBlockDevice::CheckScheduler`. -/
def CheckScheduler (is_open mq_deadline : Bool) : IOStatus :=
  if !is_open then IOStatus.InvalidArgument
  else if !mq_deadline then IOStatus.InvalidArgument
  else IOStatus.OK

/-- The loops `while (m < LIMIT && i < reported_zones)` of `Open` that fill
    `op_zones_` and `snapshot_zones_`, over the report entries from position
    `i` on: the entries pushed, with their positions, and the number of
    entries consumed. -/
def metaZonesLoop (limit : Nat) : List zbd_zone → Nat → Nat → List (Nat × zbd_zone) × Nat
  | [], _, _ => ([], 0)
  | z :: rest, i, m =>
    if m < limit then
      if zbd_zone_swr z then
        if !zbd_zone_offline z then
          ((i, z) :: (metaZonesLoop limit rest (i + 1) (m + 1)).1,
            (metaZonesLoop limit rest (i + 1) (m + 1)).2 + 1)
        else
          ((metaZonesLoop limit rest (i + 1) (m + 1)).1,
            (metaZonesLoop limit rest (i + 1) (m + 1)).2 + 1)
      else
        ((metaZonesLoop limit rest (i + 1) m).1, (metaZonesLoop limit rest (i + 1) m).2 + 1)
    else
      ([], 0)

/-- The zone object that the last loop of `Open` pushes to `io_zones_` for
    the report entry `z` at position `i`: a new `Zone`, on which `Close` is
    called when the entry is implicitly or explicitly open and the device is
    not opened read-only. -/
def openIOZone (readonly : Bool) (zone_sz : Nat) (close_ret : Nat → Int) (i : Nat)
    (z : zbd_zone) : Zone :=
  if (zbd_zone_imp_open z || zbd_zone_exp_open z || zbd_zone_closed z) &&
      (zbd_zone_imp_open z || zbd_zone_exp_open z) && !readonly then
    ((Zone.mk_from_report z).Close zone_sz (close_ret i)).zone
  else
    Zone.mk_from_report z

/-- The last loop of `Open` (`for (; i < reported_zones; i++)`) over the
    report entries from position `i` on: the entries pushed to `io_zones_`,
    with their positions, and the number of them counted in
    `active_io_zones_`. -/
def ioZonesLoop : List zbd_zone → Nat → List (Nat × zbd_zone) × Int
  | [], _ => ([], 0)
  | z :: rest, i =>
    if zbd_zone_swr z then
      if !zbd_zone_offline z then
        ((i, z) :: (ioZonesLoop rest (i + 1)).1,
          (if zbd_zone_imp_open z || zbd_zone_exp_open z || zbd_zone_closed z then 1 else 0)
            + (ioZonesLoop rest (i + 1)).2)
      else
        ioZonesLoop rest (i + 1)
    else
      ioZonesLoop rest (i + 1)

/-- Outcome of a successful `Open`: the device, and for each pool the
    positions in the zone report of the entries its zones were made from. -/
structure OpenResult where
  zbd : ZonedBlockDevice
  op_pos : List Nat
  snapshot_pos : List Nat
  io_pos : List Nat
  deriving DecidableEq, Repr

/-- Method `ZonedBlockDevice::Open(readonly)`; `finish_threshold` is the value
    of the member `finish_threshold_`, which `Open` does not touch. -/
def ZonedBlockDevice.Open (a : OpenAnswer) (readonly : Bool) (finish_threshold : Nat) :
    Except IOStatus OpenResult :=
  if a.read_f < 0 then Except.error IOStatus.InvalidArgument
  else if a.read_direct_f < 0 then Except.error IOStatus.InvalidArgument
  else if !readonly && decide (a.write_f < 0) then Except.error IOStatus.InvalidArgument
  else if a.info.model ≠ zbd_dev_model.ZBD_DM_HOST_MANAGED then
    Except.error IOStatus.NotSupported
  else if a.info.nr_zones < ZENFS_MIN_ZONES then Except.error IOStatus.NotSupported
  else if CheckScheduler a.scheduler_is_open a.scheduler_mq_deadline ≠ IOStatus.OK then
    Except.error (CheckScheduler a.scheduler_is_open a.scheduler_mq_deadline)
  else if a.list_ret ≠ 0 ∨ a.zone_rep.length ≠ a.info.nr_zones then
    Except.error IOStatus.IOError
  else
    let op := metaZonesLoop ZENFS_OP_LOG_ZONES a.zone_rep 0 0
    let snap := metaZonesLoop ZENFS_SNAPSHOT_ZONES (a.zone_rep.drop op.2) op.2 0
    let io := ioZonesLoop (a.zone_rep.drop (op.2 + snap.2)) (op.2 + snap.2)
    Except.ok
      { zbd :=
          { block_sz_ := a.info.pblock_size
            zone_sz_ := a.info.zone_size
            nr_zones_ := a.info.nr_zones
            max_nr_active_io_zones_ := (a.info.max_nr_active_zones + U32 - 3) % U32
            max_nr_open_io_zones_ := (a.info.max_nr_active_zones + U32 - 3) % U32
            op_zones_ := op.1.map (fun e => Zone.mk_from_report e.2)
            snapshot_zones_ := snap.1.map (fun e => Zone.mk_from_report e.2)
            io_zones_ :=
              io.1.map (fun e => openIOZone readonly a.info.zone_size a.close_ret e.1 e.2)
            finish_threshold_ := finish_threshold
            active_io_zones_ := io.2
            open_io_zones_ := 0
            data_worker_jobs := [] }
        op_pos := op.1.map (fun e => e.1)
        snapshot_pos := snap.1.map (fun e => e.1)
        io_pos := io.1.map (fun e => e.1) }

/-! ## JSON encoding -/

/-- The text `operator<<` writes for an unsigned integer. -/
def showNat (n : Nat) : String := toString n

/-- The text `operator<<` writes for a `long`. -/
def showInt (n : Int) : String := toString n

/-- Method `Zone::EncodeJson`. -/
def Zone.EncodeJson (z : Zone) : String :=
  "\x7b" ++ "\"start\":" ++ showNat z.start_ ++ ","
    ++ "\"capacity\":" ++ showNat z.capacity_ ++ ","
    ++ "\"max_capacity\":" ++ showNat z.max_capacity_ ++ ","
    ++ "\"wp\":" ++ showNat z.wp_ ++ ","
    ++ "\"lifetime\":" ++ showNat z.lifetime_.val ++ ","
    ++ "\"used_capacity\":" ++ showInt z.used_capacity_
    ++ "\x7d"

/-- The loop of `ZonedBlockDevice::EncodeJsonZone`, threading
    `first_element`. -/
def EncodeJsonZoneLoop : List Zone → Bool → String
  | [], _ => ""
  | zone :: rest, first_element =>
    (if first_element then "" else ",") ++ zone.EncodeJson ++ EncodeJsonZoneLoop rest false

/-- Method `ZonedBlockDevice::EncodeJsonZone`. -/
def EncodeJsonZone (zones : List Zone) : String :=
  "[" ++ EncodeJsonZoneLoop zones true ++ "]"

/-- Method `ZonedBlockDevice::EncodeJson`. -/
def ZonedBlockDevice.EncodeJson (d : ZonedBlockDevice) : String :=
  "\x7b" ++ "\"meta\":" ++ EncodeJsonZone d.op_zones_
    ++ "\"meta snapshot\":" ++ EncodeJsonZone d.snapshot_zones_
    ++ ",\"io\":" ++ EncodeJsonZone d.io_zones_
    ++ "\x7d"

/-! ## Concrete zones and devices used to exercise the model -/

/-- A zone of capacity `cap` at offset `start`, empty, with nothing in
    flight. -/
def emptyZone (start cap : Nat) : Zone :=
  { start_ := start, capacity_ := cap, max_capacity_ := cap, wp_ := start
    open_for_write_ := false, lifetime_ := WriteLifeTimeHint.WLTH_NOT_SET
    used_capacity_ := 0, bg_processing_ := false
    wr_ctx := { inflight := 0, nbytes := 0, offset := 0 } }

/-- A 64 MiB zone at offset 0, held open for write, empty. -/
def heldZone : Zone := { emptyZone 0 67108864 with open_for_write_ := true }

/-- An 8 GiB zone at offset 0, held open for write, empty. -/
def heldBigZone : Zone := { emptyZone 0 8589934592 with open_for_write_ := true }

/-- A 64 MiB zone at offset 0, held open for write, written to the end. -/
def heldFullZone : Zone :=
  { emptyZone 0 67108864 with open_for_write_ := true, capacity_ := 0, wp_ := 67108864 }

/-- A 64 MiB zone at offset 0, held open for write, with 16 KiB written
    asynchronously and not yet reaped. -/
def heldAsyncZone : Zone :=
  { emptyZone 0 67108864 with
    open_for_write_ := true, capacity_ := 67092480, wp_ := 16384
    wr_ctx := { inflight := 16384, nbytes := 16384, offset := 0 } }

/-- A device with no zones, 64 MiB zone size, 4 KiB blocks and room for 11
    active io zones, of which `active` are active and `opened` open. -/
def deviceWith (io : List Zone) (active opened : Int) : ZonedBlockDevice :=
  { block_sz_ := 4096, zone_sz_ := 67108864, nr_zones_ := 64
    op_zones_ := [], snapshot_zones_ := [], io_zones_ := io
    finish_threshold_ := 0, active_io_zones_ := active, open_io_zones_ := opened
    max_nr_active_io_zones_ := 11, max_nr_open_io_zones_ := 11
    data_worker_jobs := [] }

/-- A partially written 64 MiB zone at offset `start` holding live data, with
    the given lifetime hint, not open for write. -/
def liveZone (start : Nat) (lifetime : WriteLifeTimeHint) : Zone :=
  { emptyZone start 67108864 with
    capacity_ := 67104768, wp_ := start + 4096
    lifetime_ := lifetime, used_capacity_ := 4096 }

/-- A device whose io pool is two zones of lifetime Short, both partially
    written, holding live data and not open for write; 2 io zones active, none
    open. -/
def deviceShortShort : ZonedBlockDevice :=
  deviceWith [liveZone 0 WriteLifeTimeHint.WLTH_SHORT,
    liveZone 67108864 WriteLifeTimeHint.WLTH_SHORT] 2 0

/-- A sequential-write-required entry of a zone report: zone number `i` of a
    device with 64 MiB zones, in condition `c`, nothing written. -/
def swrEntry (i : Nat) (c : ZoneCond) : zbd_zone :=
  { start := i * 67108864, len := 67108864, capacity := 67108864, wp := i * 67108864
    type := ZoneType.SequentialWriteRequired, cond := c }

/-- What a host-managed device with 32 zones of 64 MiB answers to `Open`: at
    most `max_open` open and `max_active` active zones, scheduler
    `mq-deadline`, and the zone report `rep`. -/
def openAnswer (max_open max_active : Nat) (rep : List zbd_zone) : OpenAnswer :=
  { read_f := 3, read_direct_f := 4, write_f := 5
    info :=
      { model := zbd_dev_model.ZBD_DM_HOST_MANAGED, nr_zones := 32, pblock_size := 4096
        zone_size := 67108864, max_nr_open_zones := max_open
        max_nr_active_zones := max_active }
    scheduler_is_open := true, scheduler_mq_deadline := true
    list_ret := 0, zone_rep := rep, close_ret := fun _ => 0 }

/-- A report of 32 empty sequential-write-required zones. -/
def reportAllEmpty : List zbd_zone :=
  (List.range 32).map (fun i => swrEntry i ZoneCond.Empty)

/-- A report of 32 sequential-write-required zones, the first Offline, the
    others empty. -/
def reportFirstOffline : List zbd_zone :=
  swrEntry 0 ZoneCond.Offline :: (List.range 31).map (fun i => swrEntry (i + 1) ZoneCond.Empty)

/-- The test `!z->IsUsed() && !z->IsEmpty()` of `ResetUnusedIOZones`. -/
def Zone.resetUnusedTarget (z : Zone) : Bool := !z.IsUsed && !z.IsEmpty

/-- A 64 MiB zone at offset 0, held open for write, with 4 KiB written and no
    live data declared yet. -/
def heldWrittenZone : Zone :=
  { emptyZone 0 67108864 with open_for_write_ := true, capacity_ := 67104768, wp_ := 4096 }

/-- The device answers every reset and report with success, reporting an
    empty zone of 64 MiB capacity. -/
def resetOk : ResetAnswer :=
  { reset_ret := 0, report_ret := 0, report := 1, z := swrEntry 0 ZoneCond.Empty }

/-- The sequential-write-required entries of a zone report from position `i`
    on, each with its position, in report order. -/
def swrEntriesFrom (zs : List zbd_zone) (i : Nat) : List (Nat × zbd_zone) :=
  (zs.enumFrom i).filter (fun e => zbd_zone_swr e.2)

/-- The sequential-write-required entries of a zone report, each with its
    position, in report order. -/
def swrEntries (rep : List zbd_zone) : List (Nat × zbd_zone) := swrEntriesFrom rep 0

/-- The entries of a list of report entries that are not Offline. -/
def notOffline (es : List (Nat × zbd_zone)) : List (Nat × zbd_zone) :=
  es.filter (fun e => !zbd_zone_offline e.2)

/-- What becomes of a partially written zone without live data when its
    `Reset` succeeds and the fresh report shows the zone Offline. -/
def offlineAfterReset : Zone :=
  (({ heldWrittenZone with open_for_write_ := false } : Zone).Reset 67108864
    { reset_ret := 0, report_ret := 0, report := 1, z := swrEntry 0 ZoneCond.Offline }).zone

/-- A device with three empty io zones of 64 MiB, no active and no open io
    zone, and room for `max_active` active io zones. -/
def deviceThreeEmpty (max_active : Nat) : ZonedBlockDevice :=
  { deviceWith [emptyZone 0 67108864, emptyZone 67108864 67108864,
      emptyZone 134217728 67108864] 0 0 with
    max_nr_active_io_zones_ := max_active }

/-- The device `deviceThreeEmpty max_active` after an `AllocateZone` for a
    file of lifetime Medium took its first zone: that zone is open for write
    with lifetime Medium, one io zone is active and one open. -/
def deviceFirstTaken (max_active : Nat) : ZonedBlockDevice :=
  { (deviceThreeEmpty max_active).setIOZone 0
      { emptyZone 0 67108864 with
        open_for_write_ := true, lifetime_ := WriteLifeTimeHint.WLTH_MEDIUM } with
    active_io_zones_ := 1, open_io_zones_ := 1 }

/-- The two ownership flags of a zone: `open_for_write_` and
    `bg_processing_`. -/
def Zone.flags (z : Zone) : Bool × Bool := (z.open_for_write_, z.bg_processing_)

/-- The ownership flags of the io zones, in pool order. -/
def ZonedBlockDevice.flags (d : ZonedBlockDevice) : List (Bool × Bool) :=
  d.io_zones_.map Zone.flags

/-- A conventional entry of a zone report: zone number `i` of a device with
    64 MiB zones. -/
def convEntry (i : Nat) : zbd_zone :=
  { start := i * 67108864, len := 67108864, capacity := 67108864, wp := i * 67108864
    type := ZoneType.Conventional, cond := ZoneCond.NotWp }

/-- A report of 32 zones: 25 conventional zones followed by 7 empty
    sequential-write-required zones (of which `Open` makes 2 op-log, 2
    snapshot and 3 io zones). -/
def reportSmall : List zbd_zone :=
  (List.range 25).map convEntry ++ (List.range 7).map (fun i => swrEntry (i + 25) ZoneCond.Empty)

/-- A run in which a zone is allocated, written, closed, found unused by the
    next pass of `AllocateZone` and reset in the background, while that pass
    allocates a second zone. -/
def runAllocWriteClose : List Op :=
  [Op.allocPass WriteLifeTimeHint.WLTH_MEDIUM false none,
   Op.append 0 4096 ⟨0, 0⟩ [4096],
   Op.closeWR 0 ⟨0, 0⟩ 0,
   Op.allocPass WriteLifeTimeHint.WLTH_SHORT false none,
   Op.runJob { reset := resetOk, finish_ret := 0 }]

/-- The state of the system after `Open` answered by `a` and the run `ops`,
    if `Open` succeeds. -/
def runAfterOpen (a : OpenAnswer) (ops : List Op) : Option Sys :=
  (ZonedBlockDevice.Open a false 0).toOption.map
    (fun r => ({ zbd := r.zbd, held := [] } : Sys).run ops)

/-- Number of io zones that are partially written: neither empty nor full. -/
def ZonedBlockDevice.partlyWrittenCount (d : ZonedBlockDevice) : Nat :=
  d.io_zones_.countP (fun z => !z.IsEmpty && !z.IsFull)

/-- A run in which a zone is allocated and closed without a byte written. -/
def runAllocClose : List Op :=
  [Op.allocPass WriteLifeTimeHint.WLTH_MEDIUM false none,
   Op.closeWR 0 ⟨0, 0⟩ 0]

/-- A run in which a zone is allocated, the first `pwrite` of the `Append`
    to it fails, and the zone is closed. -/
def runAllocFailedWriteClose : List Op :=
  [Op.allocPass WriteLifeTimeHint.WLTH_MEDIUM false none,
   Op.append 0 4096 ⟨0, 0⟩ [-1],
   Op.closeWR 0 ⟨0, 0⟩ 0]

/-- What a run leaves of the bookkeeping of active zones: the zones held, the
    jobs queued, `active_io_zones_` and the number of partially written io
    zones. -/
def Sys.activeView (s : Sys) : List Nat × List BgJob × Int × Nat :=
  (s.held, s.zbd.data_worker_jobs, s.zbd.active_io_zones_, s.zbd.partlyWrittenCount)

/-- The capacity bookkeeping of a zone: when the zone is not full,
    `capacity_ = max_capacity_ - (wp_ - start_)` and
    `start_ <= wp_ <= start_ + max_capacity_`. -/
def Zone.capacityOk (z : Zone) : Prop :=
  z.IsFull = false →
    z.capacity_ = z.max_capacity_ - (z.wp_ - z.start_) ∧ z.start_ ≤ z.wp_ ∧
      z.wp_ ≤ z.start_ + z.max_capacity_

instance Zone.capacityOk.decidable (z : Zone) : Decidable z.capacityOk := by
  unfold Zone.capacityOk
  infer_instance

/-- A 64 MiB zone at offset 0, held open for write, with 8 KiB left. -/
def heldLastBlocksZone : Zone :=
  { emptyZone 0 67108864 with open_for_write_ := true, capacity_ := 8192, wp_ := 67100672 }

/-- An 8 GiB zone at offset 0, held open for write, with 4 GiB written. -/
def heldBigHalfZone : Zone :=
  { emptyZone 0 8589934592 with
    open_for_write_ := true, capacity_ := 4294967296, wp_ := 4294967296 }

/-- The jobs that the first loop of a pass of `AllocateZone` submits. -/
def ZonedBlockDevice.reclaimJobs (d : ZonedBlockDevice) (is_wal : Bool) : List BgJob :=
  (reclaimLoop d.finish_threshold_ is_wal d.io_zones_ 0).2

/-- A device whose io pool is: a partially written zone without live data, a
    partially written zone with live data, an empty zone, and a zone held
    open for write; finish threshold 100 percent. -/
def deviceMixed : ZonedBlockDevice :=
  { deviceWith
      [{ heldWrittenZone with open_for_write_ := false },
       liveZone 67108864 WriteLifeTimeHint.WLTH_SHORT,
       emptyZone 134217728 67108864,
       { heldWrittenZone with start_ := 201326592, wp_ := 201330688 }] 3 1 with
    finish_threshold_ := 100 }

/-! ## Zone::Append -/

/-- C1 (code evaluation): `Zone::Append` of 8192 bytes whose first `pwrite`
    returns 4096 issues its second `pwrite` for 8192 bytes again (the full
    `size`, not the 4096 bytes that remain) at `wp + 4096`; and an `Append` of
    1 GiB on an 8 GiB zone whose first `pwrite` is short (512 MiB), whose
    next four `pwrite` calls each write the 1 GiB they are asked for and
    whose last writes 512 MiB returns OK with the write pointer advanced by
    5 GiB and the capacity reduced by 5 GiB. -/
theorem C1_Append_retry_requests_full_size :
    (heldZone.Append 8192 ⟨0, 0⟩ [4096, 4096]).map (fun r => (r.status, r.calls))
        = some (IOStatus.OK, [DevCall.pwrite 8192 0, DevCall.pwrite 8192 4096]) ∧
      (heldBigZone.Append 1073741824 ⟨0, 0⟩
          [536870912, 1073741824, 1073741824, 1073741824, 1073741824, 536870912]).map
          (fun r => (r.status, r.zone.wp_, r.zone.capacity_))
        = some (IOStatus.OK, heldBigZone.wp_ + 5368709120,
            heldBigZone.capacity_ - 5368709120) := by
  constructor <;> rfl

/-- C2: when `capacity_ < size`, `Zone::Append` returns NoSpace, leaves the
    zone as it was (every field) and issues no device call, neither a write
    nor the `io_getevents` of a `Sync`, also when an asynchronous write is in
    flight; in particular a zone with `capacity_ = 0` answers NoSpace to an
    `Append` of 4096 bytes with `wp_` unchanged. -/
theorem C2_Append_NoSpace (z : Zone) (size : Nat) (ev : AioCompletion) (results : List Int)
    (h : z.capacity_ < size) :
    z.Append size ev results
        = some { status := IOStatus.NoSpace, zone := z, calls := [] } ∧
      (z.capacity_ = 0 →
        z.Append 4096 ev results
          = some { status := IOStatus.NoSpace, zone := z, calls := [] }) := by
  refine ⟨?_, ?_⟩
  · simp [Zone.Append, h]
  · intro h0
    simp [Zone.Append, h0]

/-- Witness of C2 on a full zone with an asynchronous write in flight. -/
theorem C2_Append_NoSpace_witness :
    ({ heldFullZone with wr_ctx := { inflight := 4096, nbytes := 4096, offset := 0 } }
        : Zone).Append 4096 ⟨0, 0⟩ [4096]
      = some { status := IOStatus.NoSpace
               zone := { heldFullZone with
                          wr_ctx := { inflight := 4096, nbytes := 4096, offset := 0 } }
               calls := [] } :=
  (C2_Append_NoSpace
    { heldFullZone with wr_ctx := { inflight := 4096, nbytes := 4096, offset := 0 } }
    4096 ⟨0, 0⟩ [4096] (by decide)).1

/-! ## Zone::Sync and Zone::Append_async -/

/-- `Sync` never changes the write pointer, the capacity or any field other
    than `wr_ctx.inflight`. -/
theorem Sync_zone_fields (z : Zone) (ev : AioCompletion) :
    (z.Sync ev).zone.wp_ = z.wp_ ∧ (z.Sync ev).zone.capacity_ = z.capacity_ ∧
      (z.Sync ev).zone.start_ = z.start_ ∧
      (z.Sync ev).zone.max_capacity_ = z.max_capacity_ ∧
      (z.Sync ev).zone.open_for_write_ = z.open_for_write_ ∧
      (z.Sync ev).zone.lifetime_ = z.lifetime_ ∧
      (z.Sync ev).zone.used_capacity_ = z.used_capacity_ ∧
      (z.Sync ev).zone.bg_processing_ = z.bg_processing_ := by
  unfold Zone.Sync
  split_ifs <;> simp

/-- C3: for a block-aligned `size` with `capacity_ >= size`, when the
    `Sync` at the head of `Zone::Append_async` succeeds and `io_submit`
    succeeds, `Append_async` returns OK, has submitted exactly one write of
    `size` bytes at the old write pointer, sets `inflight = size`, advances
    `wp_` by `size` (in 64-bit arithmetic, hence exactly when `wp_ + size`
    fits) and reduces `capacity_` by exactly `size`.  Hence on an empty zone
    with nothing in flight and room for 32 KiB, two back-to-back calls of
    16 KiB, the completion of the first reporting 16384 bytes, both return
    OK, the second having reaped the first, and leave
    `wp_ = start_ + 32 KiB`. -/
theorem C3_Append_async_ok (block_sz : Nat) (z : Zone) (size : Nat) (ev : AioCompletion)
    (submit_ret : Int) (_h_align : size % block_sz = 0) (h_cap : z.capacity_ ≥ size)
    (h_sync : (z.Sync ev).status = IOStatus.OK) (h_submit : 0 ≤ submit_ret) :
    ((z.Append_async size ev submit_ret).status = IOStatus.OK ∧
      (z.Append_async size ev submit_ret).calls
        = (z.Sync ev).calls ++ [DevCall.io_submit size z.wp_] ∧
      (z.Append_async size ev submit_ret).zone.wr_ctx.inflight = size ∧
      (z.Append_async size ev submit_ret).zone.wp_ = (z.wp_ + size) % U64 ∧
      (z.wp_ + size < U64 → (z.Append_async size ev submit_ret).zone.wp_ = z.wp_ + size) ∧
      (z.Append_async size ev submit_ret).zone.capacity_ = z.capacity_ - size ∧
      (z.Append_async size ev submit_ret).zone.capacity_ + size = z.capacity_) ∧
    (∀ (z0 : Zone) (ev1 : AioCompletion) (s1 s2 : Int),
      z0.wp_ = z0.start_ → z0.wr_ctx.inflight = 0 → 32768 ≤ z0.capacity_ →
      z0.start_ + 32768 < U64 → 0 ≤ s1 → 0 ≤ s2 →
      (z0.Append_async 16384 ev1 s1).status = IOStatus.OK ∧
      ((z0.Append_async 16384 ev1 s1).zone.Append_async 16384 ⟨1, 16384⟩ s2).status
        = IOStatus.OK ∧
      ((z0.Append_async 16384 ev1 s1).zone.Append_async 16384 ⟨1, 16384⟩ s2).calls
        = [DevCall.io_getevents, DevCall.io_submit 16384 (z0.start_ + 16384)] ∧
      ((z0.Append_async 16384 ev1 s1).zone.Append_async 16384 ⟨1, 16384⟩ s2).zone.wp_
        = z0.start_ + 32768) := by
  have hf := Sync_zone_fields z ev
  have hlt : ¬ submit_ret < 0 := not_lt.mpr h_submit
  have hcap : ¬ z.capacity_ < size := not_lt.mpr h_cap
  refine ⟨⟨?_, ?_, ?_, ?_, ?_, ?_, ?_⟩, ?_⟩
  · simp [Zone.Append_async, h_sync, IOStatus.ok, hf.2.1, hcap, hlt]
  · simp [Zone.Append_async, h_sync, IOStatus.ok, hf.2.1, hcap, hlt, hf.1]
  · simp [Zone.Append_async, h_sync, IOStatus.ok, hf.2.1, hcap, hlt]
  · simp [Zone.Append_async, h_sync, IOStatus.ok, hf.2.1, hcap, hlt, hf.1]
  · intro hw
    simp [Zone.Append_async, h_sync, IOStatus.ok, hf.2.1, hcap, hlt, hf.1]
    exact Nat.mod_eq_of_lt hw
  · simp [Zone.Append_async, h_sync, IOStatus.ok, hf.2.1, hcap, hlt]
  · simp [Zone.Append_async, h_sync, IOStatus.ok, hf.2.1, hcap, hlt]
    omega
  · intro z0 ev1 s1 s2 hwp hin hc haddr hs1 hs2
    have h1 : ¬ s1 < 0 := not_lt.mpr hs1
    have h2 : ¬ s2 < 0 := not_lt.mpr hs2
    have hc1 : ¬ z0.capacity_ < 16384 := by omega
    have hc2 : ¬ z0.capacity_ - 16384 < 16384 := by omega
    have hm : (z0.start_ + 16384) % U64 = z0.start_ + 16384 :=
      Nat.mod_eq_of_lt (by omega)
    have hm2 : (z0.start_ + 16384 + 16384) % U64 = z0.start_ + 32768 := by
      rw [Nat.mod_eq_of_lt (by omega)]
    have ht : toInt32 16384 = 16384 := by decide
    simp [Zone.Append_async, Zone.Sync, IOStatus.ok, hin, hwp, h1, h2, hc1, hc2, hm, hm2, ht]

/-- Witness of C3: a second 16 KiB `Append_async` on a zone with 16 KiB in
    flight whose completion reports 16384 bytes. -/
theorem C3_Append_async_ok_witness :
    (heldAsyncZone.Append_async 16384 ⟨1, 16384⟩ 1).status = IOStatus.OK ∧
      (heldAsyncZone.Append_async 16384 ⟨1, 16384⟩ 1).zone.wr_ctx.inflight = 16384 ∧
      (heldAsyncZone.Append_async 16384 ⟨1, 16384⟩ 1).zone.wp_ = 32768 ∧
      (heldAsyncZone.Append_async 16384 ⟨1, 16384⟩ 1).zone.capacity_ = 67076096 := by
  have h := (C3_Append_async_ok 4096 heldAsyncZone 16384 ⟨1, 16384⟩ 1 (by decide) (by decide)
    (by decide) (by decide)).1
  exact ⟨h.1, h.2.2.1, h.2.2.2.2.1 (by decide), h.2.2.2.2.2.1⟩

/-- C4: `Zone::Sync` with `inflight = 0` returns OK, asks the device nothing
    and leaves the zone as it was.  With `inflight > 0` it calls
    `io_getevents` once and returns OK if and only if that call reaped exactly
    one completion (`ret = 1`) whose result equals the submitted byte count
    `nbytes` (read as an `int`, which is `nbytes` itself below `2^31`); on OK
    only `inflight` changes, to 0; in every other case (timeout or error of
    `io_getevents`, negative result, short completion) it returns IOError and
    leaves the whole zone, in particular `wp_`, `capacity_` and `inflight`,
    unchanged. -/
theorem C4_Sync (z : Zone) (ev : AioCompletion) :
    (z.wr_ctx.inflight = 0 →
      z.Sync ev = { status := IOStatus.OK, zone := z, calls := [] }) ∧
    (z.wr_ctx.inflight ≠ 0 →
      (z.Sync ev).calls = [DevCall.io_getevents] ∧
      ((z.Sync ev).status = IOStatus.OK ↔ ev.ret = 1 ∧ ev.res = toInt32 z.wr_ctx.nbytes) ∧
      ((z.Sync ev).status = IOStatus.OK →
        (z.Sync ev).zone = { z with wr_ctx := { z.wr_ctx with inflight := 0 } }) ∧
      ((z.Sync ev).status ≠ IOStatus.OK →
        (z.Sync ev).status = IOStatus.IOError ∧ (z.Sync ev).zone = z)) ∧
    (z.wr_ctx.nbytes < 2 ^ 31 → toInt32 z.wr_ctx.nbytes = (z.wr_ctx.nbytes : Int)) := by
  refine ⟨?_, ?_, ?_⟩
  · intro h
    simp [Zone.Sync, h]
  · intro h
    unfold Zone.Sync
    by_cases h1 : ev.ret = 1
    · by_cases h2 : ev.res = toInt32 z.wr_ctx.nbytes
      · simp [h, h1, h2]
      · simp [h, h1, h2]
    · simp [h, h1]
  · intro h
    have hlt : z.wr_ctx.nbytes < U32 := lt_trans h (by decide)
    unfold toInt32
    rw [Nat.mod_eq_of_lt hlt, if_pos h]

/-- Witness of C4: a completion reporting half of the 16384 submitted bytes
    makes `Sync` fail with IOError and leaves the zone, with its write pointer
    at the advanced value 16384, unchanged. -/
theorem C4_Sync_witness :
    (heldAsyncZone.Sync ⟨1, 8192⟩).status = IOStatus.IOError ∧
      (heldAsyncZone.Sync ⟨1, 8192⟩).zone = heldAsyncZone ∧
      (heldAsyncZone.Sync ⟨1, 8192⟩).zone.wp_ = 16384 := by
  have h := ((C4_Sync heldAsyncZone ⟨1, 8192⟩).2.1 (by decide)).2.2.2 (by decide)
  exact ⟨h.1, h.2, by rw [h.2]; rfl⟩

/-! ## Zone::Reset -/

/-- C5: when `zbd_reset_zones` succeeds and `zbd_report_zones` succeeds
    reporting one zone, `Zone::Reset` returns OK with `wp_ = start_` and
    `lifetime_ = WLTH_NOT_SET`; if the zone is not reported Offline,
    `capacity_` and `max_capacity_` both become the reported capacity; if it is
    reported Offline, `capacity_ = 0` (and `max_capacity_` stays);
    `start_`, `used_capacity_`, `open_for_write_`, `bg_processing_` and the
    write context are not modified. -/
theorem C5_Reset_ok (z : Zone) (zone_sz : Nat) (a : ResetAnswer)
    (h_reset : a.reset_ret = 0) (h_report : a.report_ret = 0) (h_one : a.report = 1) :
    (z.Reset zone_sz a).status = IOStatus.OK ∧
      (z.Reset zone_sz a).zone.wp_ = z.start_ ∧
      (z.Reset zone_sz a).zone.lifetime_ = WriteLifeTimeHint.WLTH_NOT_SET ∧
      (a.z.cond ≠ ZoneCond.Offline →
        (z.Reset zone_sz a).zone.capacity_ = a.z.capacity ∧
        (z.Reset zone_sz a).zone.max_capacity_ = a.z.capacity ∧
        (z.Reset zone_sz a).zone.capacity_ = (z.Reset zone_sz a).zone.max_capacity_) ∧
      (a.z.cond = ZoneCond.Offline →
        (z.Reset zone_sz a).zone.capacity_ = 0 ∧
        (z.Reset zone_sz a).zone.max_capacity_ = z.max_capacity_) ∧
      (z.Reset zone_sz a).zone.start_ = z.start_ ∧
      (z.Reset zone_sz a).zone.used_capacity_ = z.used_capacity_ ∧
      (z.Reset zone_sz a).zone.open_for_write_ = z.open_for_write_ ∧
      (z.Reset zone_sz a).zone.bg_processing_ = z.bg_processing_ ∧
      (z.Reset zone_sz a).zone.wr_ctx = z.wr_ctx := by
  by_cases hoff : a.z.cond = ZoneCond.Offline
  · simp [Zone.Reset, h_reset, h_report, h_one, zbd_zone_offline, hoff]
  · simp [Zone.Reset, h_reset, h_report, h_one, zbd_zone_offline, zbd_zone_capacity, hoff]

/-- Witness of C5: resetting a partially written zone holding live data whose
    fresh report shows an empty zone of 32 MiB capacity. -/
theorem C5_Reset_ok_witness :
    ((liveZone 0 WriteLifeTimeHint.WLTH_LONG).Reset 67108864
        ⟨0, 0, 1, ⟨0, 67108864, 33554432, 0, ZoneType.SequentialWriteRequired,
          ZoneCond.Empty⟩⟩).status = IOStatus.OK ∧
      ((liveZone 0 WriteLifeTimeHint.WLTH_LONG).Reset 67108864
        ⟨0, 0, 1, ⟨0, 67108864, 33554432, 0, ZoneType.SequentialWriteRequired,
          ZoneCond.Empty⟩⟩).zone.capacity_ = 33554432 := by
  have h := C5_Reset_ok (liveZone 0 WriteLifeTimeHint.WLTH_LONG) 67108864
    ⟨0, 0, 1, ⟨0, 67108864, 33554432, 0, ZoneType.SequentialWriteRequired, ZoneCond.Empty⟩⟩
    rfl rfl rfl
  exact ⟨h.1, (h.2.2.2.1 (by decide)).1⟩

/-! ## Zone::CloseWR -/

/-- `Close` changes no field of the zone other than `open_for_write_`. -/
theorem Close_capacity (z : Zone) (zone_sz : Nat) (close_ret : Int) :
    (z.Close zone_sz close_ret).zone.capacity_ = z.capacity_ := by
  unfold Zone.Close
  split_ifs <;> rfl

/-- C6: for a zone held open for write, `Zone::CloseWR` decrements
    `open_io_zones_` by exactly one and clears `open_for_write_` if the
    `Close` it calls (after `Sync`) succeeded, and leaves both unchanged if
    that `Close` failed; it decrements `active_io_zones_` by exactly one if
    and only if `capacity_ = 0`, and leaves it unchanged otherwise; when
    `capacity_ = 0` the `Close` asks the device nothing and succeeds, so the
    decrement of `active_io_zones_` comes with the decrement of
    `open_io_zones_`; likewise `Close` asks the device nothing and succeeds
    on an empty zone. -/
theorem C6_CloseWR (z : Zone) (zbd : ZonedBlockDevice) (ev : AioCompletion) (close_ret : Int)
    (h_open : z.open_for_write_ = true) :
    (((z.Sync ev).zone.Close zbd.zone_sz_ close_ret).status = IOStatus.OK →
      (z.CloseWR zbd ev close_ret).zbd.open_io_zones_ = zbd.open_io_zones_ - 1 ∧
      (z.CloseWR zbd ev close_ret).zone.open_for_write_ = false) ∧
    (((z.Sync ev).zone.Close zbd.zone_sz_ close_ret).status ≠ IOStatus.OK →
      (z.CloseWR zbd ev close_ret).zbd.open_io_zones_ = zbd.open_io_zones_ ∧
      (z.CloseWR zbd ev close_ret).zone.open_for_write_ = true) ∧
    ((z.CloseWR zbd ev close_ret).zbd.active_io_zones_ = zbd.active_io_zones_ - 1
      ↔ z.capacity_ = 0) ∧
    (z.capacity_ ≠ 0 →
      (z.CloseWR zbd ev close_ret).zbd.active_io_zones_ = zbd.active_io_zones_) ∧
    ((z.CloseWR zbd ev close_ret).zbd.active_io_zones_ = zbd.active_io_zones_ - 1 →
      (z.CloseWR zbd ev close_ret).zbd.open_io_zones_ = zbd.open_io_zones_ - 1) ∧
    (z.capacity_ = 0 ∨ z.wp_ = z.start_ →
      ((z.Sync ev).zone.Close zbd.zone_sz_ close_ret).status = IOStatus.OK ∧
      ((z.Sync ev).zone.Close zbd.zone_sz_ close_ret).calls = []) ∧
    (z.CloseWR zbd ev close_ret).zone.capacity_ = z.capacity_ := by
  have hf := Sync_zone_fields z ev
  have hcap := Close_capacity (z.Sync ev).zone zbd.zone_sz_ close_ret
  rw [hf.2.1] at hcap
  have hfull : z.capacity_ = 0 ∨ z.wp_ = z.start_ →
      ((z.Sync ev).zone.Close zbd.zone_sz_ close_ret).status = IOStatus.OK ∧
      ((z.Sync ev).zone.Close zbd.zone_sz_ close_ret).calls = [] := by
    intro h
    have : ((z.Sync ev).zone.IsEmpty || (z.Sync ev).zone.IsFull) = true := by
      simp only [Zone.IsEmpty, Zone.IsFull, hf.1, hf.2.1, hf.2.2.1, Bool.or_eq_true,
        decide_eq_true_eq]
      exact h.symm
    simp [Zone.Close, this]
  have hopen_ok : ((z.Sync ev).zone.Close zbd.zone_sz_ close_ret).status = IOStatus.OK →
      ((z.Sync ev).zone.Close zbd.zone_sz_ close_ret).zone.open_for_write_ = false := by
    unfold Zone.Close
    split_ifs <;> simp
  have hopen_ko : ((z.Sync ev).zone.Close zbd.zone_sz_ close_ret).status ≠ IOStatus.OK →
      ((z.Sync ev).zone.Close zbd.zone_sz_ close_ret).zone.open_for_write_ = true := by
    unfold Zone.Close
    split_ifs <;> simp [hf.2.2.2.2.1, h_open]
  have hact : (z.CloseWR zbd ev close_ret).zbd.active_io_zones_
      = if z.capacity_ = 0 then zbd.active_io_zones_ - 1 else zbd.active_io_zones_ := by
    simp only [Zone.CloseWR, hcap]
    split_ifs <;>
      simp [ZonedBlockDevice.NotifyIOZoneFull, ZonedBlockDevice.NotifyIOZoneClosed]
  have hopn : (z.CloseWR zbd ev close_ret).zbd.open_io_zones_
      = if ((z.Sync ev).zone.Close zbd.zone_sz_ close_ret).status = IOStatus.OK
        then zbd.open_io_zones_ - 1 else zbd.open_io_zones_ := by
    simp only [Zone.CloseWR, hcap]
    cases hst : ((z.Sync ev).zone.Close zbd.zone_sz_ close_ret).status <;>
      split_ifs <;>
      simp_all [ZonedBlockDevice.NotifyIOZoneFull, ZonedBlockDevice.NotifyIOZoneClosed,
        IOStatus.ok]
  have hact_iff : (z.CloseWR zbd ev close_ret).zbd.active_io_zones_
      = zbd.active_io_zones_ - 1 ↔ z.capacity_ = 0 := by
    rw [hact]
    by_cases h0 : z.capacity_ = 0
    · simp [h0]
    · simp only [h0, if_false, iff_false]
      omega
  refine ⟨?_, ?_, hact_iff, ?_, ?_, hfull, ?_⟩
  · intro h
    exact ⟨by rw [hopn, if_pos h], hopen_ok h⟩
  · intro h
    exact ⟨by rw [hopn, if_neg h], hopen_ko h⟩
  · intro h
    rw [hact, if_neg h]
  · intro h
    rw [hopn, if_pos (hfull (Or.inl (hact_iff.mp h))).1]
  · exact hcap

/-- Witness of C6: closing a full zone held open for write, with 3 active and
    2 open io zones, leaves 2 active and 1 open. -/
theorem C6_CloseWR_witness :
    (heldFullZone.CloseWR (deviceWith [] 3 2) ⟨0, 0⟩ (-1)).zbd.open_io_zones_ = 1 ∧
      (heldFullZone.CloseWR (deviceWith [] 3 2) ⟨0, 0⟩ (-1)).zbd.active_io_zones_ = 2 ∧
      (heldFullZone.CloseWR (deviceWith [] 3 2) ⟨0, 0⟩ (-1)).zone.open_for_write_ = false := by
  have h := C6_CloseWR heldFullZone (deviceWith [] 3 2) ⟨0, 0⟩ (-1) rfl
  have hc : heldFullZone.capacity_ = 0 := rfl
  have hok := (h.2.2.2.2.2.1 (Or.inl hc)).1
  exact ⟨(h.1 hok).1, h.2.2.1.mpr hc, (h.1 hok).2⟩

/-! ## GetLifeTimeDiff -/

/-- C7: `GetLifeTimeDiff` gives diff(NotSet, NotSet) = 0,
    diff(NotSet, Short) = 100, diff(Short, Short) = 2, diff(Long, Short) = 2
    and diff(Short, Long) = 100 (zone lifetime first); when both lifetimes
    are NotSet or None it is 0 if they are equal and 100 otherwise; and for a
    file lifetime among Short, Medium, Long, Extreme and any zone lifetime it
    is 2 if they are equal, `zone_lifetime - file_lifetime` if
    `zone_lifetime > file_lifetime`, and 100 if
    `zone_lifetime < file_lifetime`. -/
theorem C7_GetLifeTimeDiff_values :
    GetLifeTimeDiff WriteLifeTimeHint.WLTH_NOT_SET WriteLifeTimeHint.WLTH_NOT_SET = 0 ∧
    GetLifeTimeDiff WriteLifeTimeHint.WLTH_NOT_SET WriteLifeTimeHint.WLTH_SHORT = 100 ∧
    GetLifeTimeDiff WriteLifeTimeHint.WLTH_SHORT WriteLifeTimeHint.WLTH_SHORT = 2 ∧
    GetLifeTimeDiff WriteLifeTimeHint.WLTH_LONG WriteLifeTimeHint.WLTH_SHORT = 2 ∧
    GetLifeTimeDiff WriteLifeTimeHint.WLTH_SHORT WriteLifeTimeHint.WLTH_LONG = 100 ∧
    (∀ zone_lifetime file_lifetime : WriteLifeTimeHint,
      (zone_lifetime = WriteLifeTimeHint.WLTH_NOT_SET ∨
        zone_lifetime = WriteLifeTimeHint.WLTH_NONE) →
      (file_lifetime = WriteLifeTimeHint.WLTH_NOT_SET ∨
        file_lifetime = WriteLifeTimeHint.WLTH_NONE) →
      GetLifeTimeDiff zone_lifetime file_lifetime
        = if zone_lifetime = file_lifetime then 0 else 100) ∧
    (∀ zone_lifetime file_lifetime : WriteLifeTimeHint,
      (file_lifetime = WriteLifeTimeHint.WLTH_SHORT ∨
        file_lifetime = WriteLifeTimeHint.WLTH_MEDIUM ∨
        file_lifetime = WriteLifeTimeHint.WLTH_LONG ∨
        file_lifetime = WriteLifeTimeHint.WLTH_EXTREME) →
      (zone_lifetime = file_lifetime → GetLifeTimeDiff zone_lifetime file_lifetime = 2) ∧
      (zone_lifetime.val > file_lifetime.val →
        GetLifeTimeDiff zone_lifetime file_lifetime
          = zone_lifetime.val - file_lifetime.val) ∧
      (zone_lifetime.val < file_lifetime.val →
        GetLifeTimeDiff zone_lifetime file_lifetime = 100)) := by
  refine ⟨rfl, rfl, rfl, rfl, rfl, ?_, ?_⟩
  · intro zl fl _ _
    cases zl <;> cases fl <;> simp_all <;> rfl
  · intro zl fl _
    cases zl <;> cases fl <;> simp_all <;> decide

/-- Witness of C7: a Medium file against an Extreme zone is at distance 2,
    against a Short zone at distance 100. -/
theorem C7_GetLifeTimeDiff_values_witness :
    GetLifeTimeDiff WriteLifeTimeHint.WLTH_EXTREME WriteLifeTimeHint.WLTH_MEDIUM
        = WriteLifeTimeHint.WLTH_EXTREME.val - WriteLifeTimeHint.WLTH_MEDIUM.val ∧
      GetLifeTimeDiff WriteLifeTimeHint.WLTH_SHORT WriteLifeTimeHint.WLTH_MEDIUM = 100 :=
  ⟨((C7_GetLifeTimeDiff_values.2.2.2.2.2.2 WriteLifeTimeHint.WLTH_EXTREME
      WriteLifeTimeHint.WLTH_MEDIUM (Or.inr (Or.inl rfl))).2.1 (by decide)),
   ((C7_GetLifeTimeDiff_values.2.2.2.2.2.2 WriteLifeTimeHint.WLTH_SHORT
      WriteLifeTimeHint.WLTH_MEDIUM (Or.inr (Or.inl rfl))).2.2 (by decide))⟩

/-- C8 (counterexample): a Short zone against a NotSet file has
    `zone_lifetime > file_lifetime`, the two are not both NotSet or None, and
    yet `GetLifeTimeDiff` returns 100, not `zone_lifetime - file_lifetime`
    (which is 2). -/
theorem C8_counterexample :
    WriteLifeTimeHint.WLTH_SHORT.val > WriteLifeTimeHint.WLTH_NOT_SET.val ∧
    ¬ ((WriteLifeTimeHint.WLTH_SHORT = WriteLifeTimeHint.WLTH_NOT_SET ∨
          WriteLifeTimeHint.WLTH_SHORT = WriteLifeTimeHint.WLTH_NONE) ∧
        (WriteLifeTimeHint.WLTH_NOT_SET = WriteLifeTimeHint.WLTH_NOT_SET ∨
          WriteLifeTimeHint.WLTH_NOT_SET = WriteLifeTimeHint.WLTH_NONE)) ∧
    GetLifeTimeDiff WriteLifeTimeHint.WLTH_SHORT WriteLifeTimeHint.WLTH_NOT_SET = 100 ∧
    GetLifeTimeDiff WriteLifeTimeHint.WLTH_SHORT WriteLifeTimeHint.WLTH_NOT_SET
      ≠ WriteLifeTimeHint.WLTH_SHORT.val - WriteLifeTimeHint.WLTH_NOT_SET.val := by
  decide

/-- C8 (amended): for every pair of lifetimes with
    `zone_lifetime > file_lifetime`, if the file lifetime is among Short,
    Medium, Long, Extreme then `GetLifeTimeDiff` equals
    `zone_lifetime - file_lifetime` and is at least 1, and if the file
    lifetime is NotSet or None it equals 100. -/
theorem C8_GetLifeTimeDiff_zone_longer (zone_lifetime file_lifetime : WriteLifeTimeHint)
    (h : zone_lifetime.val > file_lifetime.val) :
    ((file_lifetime ≠ WriteLifeTimeHint.WLTH_NOT_SET ∧
        file_lifetime ≠ WriteLifeTimeHint.WLTH_NONE) →
      GetLifeTimeDiff zone_lifetime file_lifetime = zone_lifetime.val - file_lifetime.val ∧
      1 ≤ GetLifeTimeDiff zone_lifetime file_lifetime) ∧
    ((file_lifetime = WriteLifeTimeHint.WLTH_NOT_SET ∨
        file_lifetime = WriteLifeTimeHint.WLTH_NONE) →
      GetLifeTimeDiff zone_lifetime file_lifetime = LIFETIME_DIFF_NOT_GOOD) := by
  cases zone_lifetime <;> cases file_lifetime <;> revert h <;> decide

/-- Witness of C8 (amended): an Extreme zone against a Short file is at
    distance 3. -/
theorem C8_GetLifeTimeDiff_zone_longer_witness :
    GetLifeTimeDiff WriteLifeTimeHint.WLTH_EXTREME WriteLifeTimeHint.WLTH_SHORT = 3 ∧
      1 ≤ GetLifeTimeDiff WriteLifeTimeHint.WLTH_EXTREME WriteLifeTimeHint.WLTH_SHORT :=
  (C8_GetLifeTimeDiff_zone_longer WriteLifeTimeHint.WLTH_EXTREME WriteLifeTimeHint.WLTH_SHORT
    (by decide)).1 (by decide)

/-! ## AllocateZone: the best-fit pass -/

/-- One step of the best-fit loop on a candidate zone whose distance does not
    exceed the best so far: the zone is taken. -/
theorem bestFitLoop_cons_take (fl : WriteLifeTimeHint) (z : Zone) (rest : List Zone)
    (i : Nat) (a0 : Option Nat) (b0 : Nat) (hc : z.fitCandidate = true)
    (hd : GetLifeTimeDiff z.lifetime_ fl ≤ b0) :
    bestFitLoop fl (z :: rest) i a0 b0
      = bestFitLoop fl rest (i + 1) (some i) (GetLifeTimeDiff z.lifetime_ fl) := by
  simp only [Zone.fitCandidate, Bool.and_eq_true, Bool.not_eq_true'] at hc
  rw [bestFitLoop]
  simp [hc.1, hc.2, hd]

/-- One step of the best-fit loop on a zone that is no candidate, or whose
    distance exceeds the best so far: the locals are unchanged. -/
theorem bestFitLoop_cons_skip (fl : WriteLifeTimeHint) (z : Zone) (rest : List Zone)
    (i : Nat) (a0 : Option Nat) (b0 : Nat)
    (h : z.fitCandidate = false ∨ b0 < GetLifeTimeDiff z.lifetime_ fl) :
    bestFitLoop fl (z :: rest) i a0 b0 = bestFitLoop fl rest (i + 1) a0 b0 := by
  rw [bestFitLoop]
  rcases h with h | h
  · by_cases hb : z.bg_processing_ = true
    · simp [hb]
    · have hb' : z.bg_processing_ = false := by simpa using hb
      simp only [Zone.fitCandidate, hb', Bool.not_false, Bool.true_and] at h
      simp [hb', h]
  · have hd : ¬ GetLifeTimeDiff z.lifetime_ fl ≤ b0 := not_le.mpr h
    simp only [hd, if_false]
    split_ifs <;> rfl

/-- What the best-fit loop computes: `best_diff` never increases and ends no
    larger than the distance of any candidate; and either no candidate was
    within the initial `best_diff` and both locals are as on entry, or
    `allocated_zone` is a candidate at distance `best_diff`, and every
    candidate after it in scan order is at a strictly larger distance. -/
theorem bestFitLoop_spec (fl : WriteLifeTimeHint) :
    ∀ (zs : List Zone) (i : Nat) (a0 : Option Nat) (b0 : Nat),
      (bestFitLoop fl zs i a0 b0).2 ≤ b0 ∧
      (∀ (k : Nat) (z : Zone), zs[k]? = some z → z.fitCandidate = true →
        (bestFitLoop fl zs i a0 b0).2 ≤ GetLifeTimeDiff z.lifetime_ fl) ∧
      ((bestFitLoop fl zs i a0 b0 = (a0, b0) ∧
          ∀ (k : Nat) (z : Zone), zs[k]? = some z → z.fitCandidate = true →
            b0 < GetLifeTimeDiff z.lifetime_ fl) ∨
        (∃ (k : Nat) (z : Zone), zs[k]? = some z ∧ z.fitCandidate = true ∧
          (bestFitLoop fl zs i a0 b0).1 = some (i + k) ∧
          GetLifeTimeDiff z.lifetime_ fl = (bestFitLoop fl zs i a0 b0).2 ∧
          ∀ (k2 : Nat) (z2 : Zone), zs[k2]? = some z2 → z2.fitCandidate = true → k < k2 →
            (bestFitLoop fl zs i a0 b0).2 < GetLifeTimeDiff z2.lifetime_ fl)) := by
  intro zs
  induction zs with
  | nil =>
    intro i a0 b0
    refine ⟨le_refl _, ?_, Or.inl ⟨rfl, ?_⟩⟩ <;> intro k z hk <;> simp at hk
  | cons z rest ih =>
    intro i a0 b0
    by_cases hc : z.fitCandidate = true ∧ GetLifeTimeDiff z.lifetime_ fl ≤ b0
    · rw [bestFitLoop_cons_take fl z rest i a0 b0 hc.1 hc.2]
      obtain ⟨h1, h2, h3⟩ := ih (i + 1) (some i) (GetLifeTimeDiff z.lifetime_ fl)
      refine ⟨le_trans h1 hc.2, ?_, Or.inr ?_⟩
      · intro k zk hk hzk
        cases k with
        | zero =>
          simp only [List.getElem?_cons_zero, Option.some.injEq] at hk
          subst hk
          exact h1
        | succ k =>
          rw [List.getElem?_cons_succ] at hk
          exact h2 k zk hk hzk
      · rcases h3 with ⟨heq, hall⟩ | ⟨k, zk, hk, hzk, hsel, hdiff, hlater⟩
        · refine ⟨0, z, by simp, hc.1, by rw [heq]; rfl, by rw [heq], ?_⟩
          intro k2 z2 hk2 hz2 hlt
          cases k2 with
          | zero => exact absurd hlt (lt_irrefl 0)
          | succ k2 =>
            rw [List.getElem?_cons_succ] at hk2
            rw [heq]
            exact hall k2 z2 hk2 hz2
        · refine ⟨k + 1, zk, by rw [List.getElem?_cons_succ]; exact hk, hzk, ?_, hdiff, ?_⟩
          · rw [hsel]
            congr 1
            omega
          · intro k2 z2 hk2 hz2 hlt
            cases k2 with
            | zero => exact absurd hlt (Nat.not_lt_zero _)
            | succ k2 =>
              rw [List.getElem?_cons_succ] at hk2
              exact hlater k2 z2 hk2 hz2 (by omega)
    · have hskip : z.fitCandidate = false ∨ b0 < GetLifeTimeDiff z.lifetime_ fl := by
        by_cases hz : z.fitCandidate = true
        · exact Or.inr (not_le.mp (fun hle => hc ⟨hz, hle⟩))
        · exact Or.inl (by simpa using hz)
      rw [bestFitLoop_cons_skip fl z rest i a0 b0 hskip]
      obtain ⟨h1, h2, h3⟩ := ih (i + 1) a0 b0
      have hz_far : z.fitCandidate = true →
          (bestFitLoop fl rest (i + 1) a0 b0).2 < GetLifeTimeDiff z.lifetime_ fl := by
        intro hz
        rcases hskip with hs | hs
        · rw [hs] at hz
          exact absurd hz (by decide)
        · exact lt_of_le_of_lt h1 hs
      refine ⟨h1, ?_, ?_⟩
      · intro k zk hk hzk
        cases k with
        | zero =>
          simp only [List.getElem?_cons_zero, Option.some.injEq] at hk
          subst hk
          exact le_of_lt (hz_far hzk)
        | succ k =>
          rw [List.getElem?_cons_succ] at hk
          exact h2 k zk hk hzk
      · rcases h3 with ⟨heq, hall⟩ | ⟨k, zk, hk, hzk, hsel, hdiff, hlater⟩
        · refine Or.inl ⟨heq, ?_⟩
          intro k zk hk hzk
          cases k with
          | zero =>
            simp only [List.getElem?_cons_zero, Option.some.injEq] at hk
            subst hk
            have := hz_far hzk
            rw [heq] at this
            exact this
          | succ k =>
            rw [List.getElem?_cons_succ] at hk
            exact hall k zk hk hzk
        · refine Or.inr
            ⟨k + 1, zk, by rw [List.getElem?_cons_succ]; exact hk, hzk, ?_, hdiff, ?_⟩
          · rw [hsel]
            congr 1
            omega
          · intro k2 z2 hk2 hz2 hlt
            cases k2 with
            | zero => exact absurd hlt (Nat.not_lt_zero _)
            | succ k2 =>
              rw [List.getElem?_cons_succ] at hk2
              exact hlater k2 z2 hk2 hz2 (by omega)

/-- The best-fit attempt on a device that has a candidate zone at a distance
    below `LIFETIME_DIFF_NOT_GOOD`: it ends the pass, taking a candidate `j`
    at minimal distance, after which every candidate is strictly farther. -/
theorem bestFitPass_take (d : ZonedBlockDevice) (fl : WriteLifeTimeHint) (is_wal : Bool)
    (a0 : Option Nat)
    (h : ∃ (k : Nat) (z : Zone), d.io_zones_[k]? = some z ∧ z.fitCandidate = true ∧
      GetLifeTimeDiff z.lifetime_ fl < LIFETIME_DIFF_NOT_GOOD) :
    ∃ (j : Nat) (zj : Zone), d.io_zones_[j]? = some zj ∧ zj.fitCandidate = true ∧
      GetLifeTimeDiff zj.lifetime_ fl < LIFETIME_DIFF_NOT_GOOD ∧
      (∀ (k : Nat) (z : Zone), d.io_zones_[k]? = some z → z.fitCandidate = true →
        GetLifeTimeDiff zj.lifetime_ fl ≤ GetLifeTimeDiff z.lifetime_ fl) ∧
      (∀ (k : Nat) (z : Zone), d.io_zones_[k]? = some z → z.fitCandidate = true → j < k →
        GetLifeTimeDiff zj.lifetime_ fl < GetLifeTimeDiff z.lifetime_ fl) ∧
      d.bestFitPass fl is_wal a0
        = { zbd :=
              { d.setIOZone j { zj with open_for_write_ := true } with
                open_io_zones_ := d.open_io_zones_ + 1 }
            allocated_zone := some j, retry := false, new_zone := 0 } := by
  obtain ⟨k0, z0, hk0, hz0, hd0⟩ := h
  obtain ⟨_, h2, h3⟩ := bestFitLoop_spec fl d.io_zones_ 0 a0 LIFETIME_DIFF_NOT_GOOD
  have hbest : (bestFitLoop fl d.io_zones_ 0 a0 LIFETIME_DIFF_NOT_GOOD).2
      < LIFETIME_DIFF_NOT_GOOD := lt_of_le_of_lt (h2 k0 z0 hk0 hz0) hd0
  rcases h3 with ⟨_, hall⟩ | ⟨j, zj, hj, hzj, hsel, hdiff, hlater⟩
  · exact absurd hd0 (not_lt.mpr (le_of_lt (hall k0 z0 hk0 hz0)))
  · refine ⟨j, zj, hj, hzj, by rw [hdiff]; exact hbest, ?_, ?_, ?_⟩
    · intro k z hk hz
      rw [hdiff]
      exact h2 k z hk hz
    · intro k z hk hz hlt
      rw [hdiff]
      exact hlater k z hk hz hlt
    · have hopen : zj.open_for_write_ = false := by
        simp only [Zone.fitCandidate, Bool.and_eq_true, Bool.not_eq_true'] at hzj
        exact hzj.2.1.1
      rw [Nat.zero_add] at hsel
      simp only [ZonedBlockDevice.bestFitPass, hsel, hbest, if_true, hj, hopen,
        Bool.not_false]

/-- C10 (counterexample): on a device whose io pool is two candidate zones of
    lifetime Short, both at the minimal distance 2 from a Short file, the pass
    of `AllocateZone(Short, false)` selects the zone at position 1, not the
    first one. -/
theorem C10_counterexample :
    (∀ z ∈ (deviceShortShort.reclaimPass false).io_zones_,
      z.fitCandidate = true ∧
        GetLifeTimeDiff z.lifetime_ WriteLifeTimeHint.WLTH_SHORT = 2) ∧
    (deviceShortShort.AllocateZonePass WriteLifeTimeHint.WLTH_SHORT false none).allocated_zone
      = some 1 ∧
    (deviceShortShort.AllocateZonePass WriteLifeTimeHint.WLTH_SHORT false none).allocated_zone
      ≠ some 0 ∧
    (deviceShortShort.AllocateZone WriteLifeTimeHint.WLTH_SHORT false 1).map (fun r => r.2)
      = some (some 1) := by
  decide

/-- C10 (amended): when after the reclaim loop of a pass of `AllocateZone`
    some candidate of the best-fit loop is at a lifetime distance below 100,
    the zone the pass selects is the last, in io-pool scan order, of the
    candidates at the minimal distance: every candidate at the same distance
    as the selected zone is at the same or an earlier position, and every
    candidate at a later position is strictly farther. -/
theorem C10_AllocateZone_tie_last (d : ZonedBlockDevice) (file_lifetime : WriteLifeTimeHint)
    (is_wal : Bool) (allocated_zone : Option Nat)
    (h : ∃ (k : Nat) (z : Zone), (d.reclaimPass is_wal).io_zones_[k]? = some z ∧
      z.fitCandidate = true ∧
      GetLifeTimeDiff z.lifetime_ file_lifetime < LIFETIME_DIFF_NOT_GOOD) :
    ∃ (j : Nat) (zj : Zone),
      (d.AllocateZonePass file_lifetime is_wal allocated_zone).allocated_zone = some j ∧
      (d.reclaimPass is_wal).io_zones_[j]? = some zj ∧ zj.fitCandidate = true ∧
      (∀ (k : Nat) (z : Zone), (d.reclaimPass is_wal).io_zones_[k]? = some z →
        z.fitCandidate = true →
        GetLifeTimeDiff zj.lifetime_ file_lifetime ≤ GetLifeTimeDiff z.lifetime_ file_lifetime) ∧
      (∀ (k : Nat) (z : Zone), (d.reclaimPass is_wal).io_zones_[k]? = some z →
        z.fitCandidate = true →
        GetLifeTimeDiff z.lifetime_ file_lifetime = GetLifeTimeDiff zj.lifetime_ file_lifetime →
        k ≤ j) ∧
      (∀ (k : Nat) (z : Zone), (d.reclaimPass is_wal).io_zones_[k]? = some z →
        z.fitCandidate = true → j < k →
        GetLifeTimeDiff zj.lifetime_ file_lifetime < GetLifeTimeDiff z.lifetime_ file_lifetime) := by
  obtain ⟨j, zj, hj, hzj, _, hmin, hlast, hpass⟩ :=
    bestFitPass_take (d.reclaimPass is_wal) file_lifetime is_wal allocated_zone h
  refine ⟨j, zj, ?_, hj, hzj, hmin, ?_, hlast⟩
  · rw [ZonedBlockDevice.AllocateZonePass, hpass]
  · intro k z hk hz heq
    by_contra hgt
    have := hlast k z hk hz (not_le.mp hgt)
    omega

/-- Witness of C10 (amended): of two candidates at the same minimal distance,
    the pass selects position 1, and the candidate at position 0 is not after
    it. -/
theorem C10_AllocateZone_tie_last_witness :
    ∃ (j : Nat),
      (deviceShortShort.AllocateZonePass WriteLifeTimeHint.WLTH_SHORT false none).allocated_zone
        = some j ∧ 0 ≤ j ∧ j = 1 := by
  obtain ⟨j, zj, hsel, _, _, _, _, _⟩ :=
    C10_AllocateZone_tie_last deviceShortShort WriteLifeTimeHint.WLTH_SHORT false none
      ⟨0, liveZone 0 WriteLifeTimeHint.WLTH_SHORT, by decide, by decide, by decide⟩
  refine ⟨j, hsel, Nat.zero_le j, ?_⟩
  have h1 : (deviceShortShort.AllocateZonePass WriteLifeTimeHint.WLTH_SHORT false
      none).allocated_zone = some 1 := by decide
  rw [h1] at hsel
  exact (Option.some.inj hsel).symm

/-! ## ZonedBlockDevice::Open -/

/-- C15 (code evaluation): on a device that reports at most 10 open and 14
    active zones, `Open` succeeds and sets `max_nr_open_io_zones_` to 11, the
    active limit minus 3, not to 7, the open limit minus 3; in general a
    successful `Open` sets both `max_nr_active_io_zones_` and
    `max_nr_open_io_zones_` to `info.max_nr_active_zones - 3` (an
    `unsigned int` subtraction). -/
theorem C15_Open_max_open_from_active_limit :
    (ZonedBlockDevice.Open (openAnswer 10 14 reportAllEmpty) false 0).toOption.map
        (fun r => (r.zbd.max_nr_open_io_zones_, r.zbd.max_nr_active_io_zones_))
      = some (11, 11) ∧
    (∀ (a : OpenAnswer) (readonly : Bool) (finish_threshold : Nat) (r : OpenResult),
      ZonedBlockDevice.Open a readonly finish_threshold = Except.ok r →
      r.zbd.max_nr_open_io_zones_ = (a.info.max_nr_active_zones + U32 - 3) % U32 ∧
      r.zbd.max_nr_active_io_zones_ = (a.info.max_nr_active_zones + U32 - 3) % U32) := by
  refine ⟨by decide, ?_⟩
  intro a readonly ft r h
  unfold ZonedBlockDevice.Open at h
  split_ifs at h
  simp only [Except.ok.injEq] at h
  subst h
  exact ⟨rfl, rfl⟩

/-- An `Open` whose result, seen as an option, is present succeeded. -/
theorem Open_ok_of_isSome (a : OpenAnswer) (readonly : Bool) (finish_threshold : Nat)
    (h : (ZonedBlockDevice.Open a readonly finish_threshold).toOption.isSome = true) :
    ∃ r : OpenResult, ZonedBlockDevice.Open a readonly finish_threshold = Except.ok r := by
  cases hd : ZonedBlockDevice.Open a readonly finish_threshold with
  | error e =>
    rw [hd] at h
    exact absurd h (by simp [Except.toOption])
  | ok r => exact ⟨r, rfl⟩

/-- Witness of C15: `Open` succeeds on the device with limits 10 (open) and 14
    (active), and the general statement gives `max_nr_open_io_zones_ = 11`. -/
theorem C15_Open_max_open_from_active_limit_witness :
    ∃ r : OpenResult,
      ZonedBlockDevice.Open (openAnswer 10 14 reportAllEmpty) false 0 = Except.ok r ∧
      r.zbd.max_nr_open_io_zones_ = 11 := by
  obtain ⟨r, h⟩ := Open_ok_of_isSome (openAnswer 10 14 reportAllEmpty) false 0 (by decide)
  refine ⟨r, h, ?_⟩
  have := (C15_Open_max_open_from_active_limit.2 _ _ _ r h).1
  rw [this]
  decide

/-! ## JSON encoding -/

/-- C17 (code evaluation): for a device with empty pools `EncodeJson` writes
    an opening brace, `"meta":[]"meta snapshot":[],"io":[]` and a closing
    brace, with no comma between the value of `"meta"` and the member name
    `"meta snapshot"`; with one zone in the op-log pool the zone object is
    written with the members start, capacity, max_capacity, wp, lifetime and
    used_capacity in that order, again followed directly by
    `"meta snapshot"`. -/
theorem C17_EncodeJson_missing_comma :
    (deviceWith [] 0 0).EncodeJson
      = "\x7b\"meta\":[]\"meta snapshot\":[],\"io\":[]\x7d" ∧
    ({ deviceWith [] 0 0 with op_zones_ := [emptyZone 0 100] } : ZonedBlockDevice).EncodeJson
      = "\x7b\"meta\":[\x7b\"start\":0,\"capacity\":100,\"max_capacity\":100,\"wp\":0,\"lifetime\":0,\"used_capacity\":0\x7d]\"meta snapshot\":[],\"io\":[]\x7d" := by
  constructor <;> decide

/-! ## ZonedBlockDevice::ResetUnusedIOZones -/

/-- The first device call of `Zone::Reset` is the reset of the zone, and no
    other call of it is a reset. -/
theorem Reset_calls_reset (z : Zone) (zone_sz : Nat) (a : ResetAnswer) (st len : Nat) :
    DevCall.zbd_reset_zones st len ∈ (z.Reset zone_sz a).calls ↔
      st = z.start_ ∧ len = zone_sz := by
  unfold Zone.Reset
  split_ifs <;> simp

/-- What the loop of `ResetUnusedIOZones` computes, zone by zone. -/
theorem resetUnusedLoop_spec (zone_sz : Nat) (answers : Nat → ResetAnswer) :
    ∀ (zs : List Zone) (i : Nat) (active : Int),
      (resetUnusedLoop zone_sz answers zs i active).1.length = zs.length ∧
      (∀ (k : Nat) (z : Zone), zs[k]? = some z →
        (resetUnusedLoop zone_sz answers zs i active).1[k]?
          = some (if z.resetUnusedTarget then (z.Reset zone_sz (answers (i + k))).zone
              else z)) ∧
      (resetUnusedLoop zone_sz answers zs i active).2.1
        = active - (zs.countP (fun z => z.resetUnusedTarget && !z.IsFull) : Nat) ∧
      (∀ c : DevCall, c ∈ (resetUnusedLoop zone_sz answers zs i active).2.2 ↔
        ∃ (k : Nat) (z : Zone), zs[k]? = some z ∧ z.resetUnusedTarget = true ∧
          c ∈ (z.Reset zone_sz (answers (i + k))).calls) := by
  intro zs
  induction zs with
  | nil =>
    intro i active
    simp [resetUnusedLoop]
  | cons z rest ih =>
    intro i active
    have hidx : ∀ k : Nat, i + (k + 1) = i + 1 + k := fun k => by omega
    by_cases ht : z.resetUnusedTarget = true
    · have ht' : (!z.IsUsed && !z.IsEmpty) = true := ht
      have hstep : resetUnusedLoop zone_sz answers (z :: rest) i active
          = ((z.Reset zone_sz (answers i)).zone ::
              (resetUnusedLoop zone_sz answers rest (i + 1)
                (if z.IsFull then active else active - 1)).1,
             (resetUnusedLoop zone_sz answers rest (i + 1)
                (if z.IsFull then active else active - 1)).2.1,
             (z.Reset zone_sz (answers i)).calls ++
              (resetUnusedLoop zone_sz answers rest (i + 1)
                (if z.IsFull then active else active - 1)).2.2) := by
        rw [resetUnusedLoop]
        cases hfull : z.IsFull <;> simp [ht']
      obtain ⟨h1, h2, h3, h4⟩ := ih (i + 1) (if z.IsFull then active else active - 1)
      rw [hstep]
      refine ⟨by simp [h1], ?_, ?_, ?_⟩
      · intro k zk hk
        cases k with
        | zero =>
          simp only [List.getElem?_cons_zero, Option.some.injEq] at hk
          subst hk
          simp [ht]
        | succ k =>
          rw [List.getElem?_cons_succ] at hk
          rw [List.getElem?_cons_succ, h2 k zk hk, hidx k]
      · show (resetUnusedLoop zone_sz answers rest (i + 1)
            (if z.IsFull then active else active - 1)).2.1 = _
        rw [h3, List.countP_cons]
        cases hfull : z.IsFull
        · simp only [ht, Bool.not_false, Bool.and_self, if_true, Bool.false_eq_true, if_false]
          push_cast
          ring
        · simp
      · intro c
        show c ∈ (z.Reset zone_sz (answers i)).calls ++ _ ↔ _
        rw [List.mem_append, h4 c]
        constructor
        · rintro (hc | ⟨k, zk, hk, hzk, hc⟩)
          · exact ⟨0, z, by simp, ht, by simpa using hc⟩
          · refine ⟨k + 1, zk, by rw [List.getElem?_cons_succ]; exact hk, hzk, ?_⟩
            rw [hidx k]
            exact hc
        · rintro ⟨k, zk, hk, hzk, hc⟩
          cases k with
          | zero =>
            simp only [List.getElem?_cons_zero, Option.some.injEq] at hk
            subst hk
            exact Or.inl (by simpa using hc)
          | succ k =>
            rw [List.getElem?_cons_succ] at hk
            rw [hidx k] at hc
            exact Or.inr ⟨k, zk, hk, hzk, hc⟩
    · have hf : z.resetUnusedTarget = false := by simpa using ht
      have hf' : (!z.IsUsed && !z.IsEmpty) = false := hf
      have hstep : resetUnusedLoop zone_sz answers (z :: rest) i active
          = (z :: (resetUnusedLoop zone_sz answers rest (i + 1) active).1,
             (resetUnusedLoop zone_sz answers rest (i + 1) active).2.1,
             (resetUnusedLoop zone_sz answers rest (i + 1) active).2.2) := by
        rw [resetUnusedLoop]
        simp [hf']
      obtain ⟨h1, h2, h3, h4⟩ := ih (i + 1) active
      rw [hstep]
      refine ⟨by simp [h1], ?_, ?_, ?_⟩
      · intro k zk hk
        cases k with
        | zero =>
          simp only [List.getElem?_cons_zero, Option.some.injEq] at hk
          subst hk
          simp [hf]
        | succ k =>
          rw [List.getElem?_cons_succ] at hk
          rw [List.getElem?_cons_succ, h2 k zk hk, hidx k]
      · show (resetUnusedLoop zone_sz answers rest (i + 1) active).2.1 = _
        rw [h3, List.countP_cons]
        simp [hf]
      · intro c
        show c ∈ (resetUnusedLoop zone_sz answers rest (i + 1) active).2.2 ↔ _
        rw [h4 c]
        constructor
        · rintro ⟨k, zk, hk, hzk, hc⟩
          refine ⟨k + 1, zk, by rw [List.getElem?_cons_succ]; exact hk, hzk, ?_⟩
          rw [hidx k]
          exact hc
        · rintro ⟨k, zk, hk, hzk, hc⟩
          cases k with
          | zero =>
            simp only [List.getElem?_cons_zero, Option.some.injEq] at hk
            subst hk
            rw [hf] at hzk
            exact absurd hzk (by decide)
          | succ k =>
            rw [List.getElem?_cons_succ] at hk
            rw [hidx k] at hc
            exact ⟨k, zk, hk, hzk, hc⟩

/-- C16 (counterexample): an io zone that is non-empty (4 KiB written) and has
    `used_capacity_ = 0` but is held open for write is not reset by
    `ResetUnusedIOZones`: the device is left as it was and no device call is
    issued. -/
theorem C16_counterexample :
    heldWrittenZone.wp_ ≠ heldWrittenZone.start_ ∧ heldWrittenZone.used_capacity_ = 0 ∧
    (deviceWith [heldWrittenZone] 1 1).ResetUnusedIOZones (fun _ => resetOk)
      = (deviceWith [heldWrittenZone] 1 1, []) := by
  decide

/-- C16 (amended): `ResetUnusedIOZones` calls `Reset` on exactly the io zones
    that are non-empty, have no live data (`used_capacity_` not above 0) and
    are not open for write: each such zone becomes what `Reset` makes of it,
    every other zone is left as it was, a device reset is issued for exactly
    the start offsets of such zones, and `active_io_zones_` is decremented by
    exactly the number of such zones that were not full (whether or not their
    reset succeeds); nothing else of the device changes. -/
theorem C16_ResetUnusedIOZones (d : ZonedBlockDevice) (answers : Nat → ResetAnswer) :
    (∀ z : Zone, z.resetUnusedTarget = true ↔
      (z.used_capacity_ ≤ 0 ∧ z.open_for_write_ = false ∧ z.wp_ ≠ z.start_)) ∧
    (d.ResetUnusedIOZones answers).1.io_zones_.length = d.io_zones_.length ∧
    (∀ (k : Nat) (z : Zone), d.io_zones_[k]? = some z →
      (z.resetUnusedTarget = true →
        (d.ResetUnusedIOZones answers).1.io_zones_[k]?
          = some (z.Reset d.zone_sz_ (answers k)).zone) ∧
      (z.resetUnusedTarget = false →
        (d.ResetUnusedIOZones answers).1.io_zones_[k]? = some z)) ∧
    (∀ st : Nat, DevCall.zbd_reset_zones st d.zone_sz_ ∈ (d.ResetUnusedIOZones answers).2 ↔
      ∃ (k : Nat) (z : Zone), d.io_zones_[k]? = some z ∧ z.resetUnusedTarget = true ∧
        z.start_ = st) ∧
    (d.ResetUnusedIOZones answers).1.active_io_zones_
      = d.active_io_zones_
        - (d.io_zones_.countP (fun z => z.resetUnusedTarget && !z.IsFull) : Nat) ∧
    (d.ResetUnusedIOZones answers).1
      = { d with
          io_zones_ := (d.ResetUnusedIOZones answers).1.io_zones_
          active_io_zones_ := (d.ResetUnusedIOZones answers).1.active_io_zones_ } := by
  obtain ⟨h1, h2, h3, h4⟩ :=
    resetUnusedLoop_spec d.zone_sz_ answers d.io_zones_ 0 d.active_io_zones_
  refine ⟨?_, h1, ?_, ?_, h3, rfl⟩
  · intro z
    simp only [Zone.resetUnusedTarget, Zone.IsUsed, Zone.IsEmpty, Bool.and_eq_true,
      Bool.not_eq_true', Bool.or_eq_false_iff, decide_eq_false_iff_not, not_lt, ne_eq]
    tauto
  · intro k z hk
    have := h2 k z hk
    rw [Nat.zero_add] at this
    constructor
    · intro ht
      simpa [ZonedBlockDevice.ResetUnusedIOZones, ht] using this
    · intro ht
      simpa [ZonedBlockDevice.ResetUnusedIOZones, ht] using this
  · intro st
    show DevCall.zbd_reset_zones st d.zone_sz_
      ∈ (resetUnusedLoop d.zone_sz_ answers d.io_zones_ 0 d.active_io_zones_).2.2 ↔ _
    rw [h4]
    constructor
    · rintro ⟨k, z, hk, hz, hc⟩
      exact ⟨k, z, hk, hz, ((Reset_calls_reset z _ _ st _).mp hc).1.symm⟩
    · rintro ⟨k, z, hk, hz, hst⟩
      exact ⟨k, z, hk, hz, (Reset_calls_reset z _ _ st _).mpr ⟨hst.symm, rfl⟩⟩

/-- Witness of C16 (amended): a partially written zone with no live data that
    is not open for write is reset, and the count of active zones goes from 1
    to 0. -/
theorem C16_ResetUnusedIOZones_witness :
    ((deviceWith [{ heldWrittenZone with open_for_write_ := false }] 1 0).ResetUnusedIOZones
        (fun _ => resetOk)).1.io_zones_[0]?
      = some (({ heldWrittenZone with open_for_write_ := false } : Zone).Reset 67108864
          resetOk).zone ∧
    ((deviceWith [{ heldWrittenZone with open_for_write_ := false }] 1 0).ResetUnusedIOZones
        (fun _ => resetOk)).1.active_io_zones_ = 0 := by
  have h := C16_ResetUnusedIOZones
    (deviceWith [{ heldWrittenZone with open_for_write_ := false }] 1 0) (fun _ => resetOk)
  refine ⟨(h.2.2.1 0 _ rfl).1 (by decide), ?_⟩
  rw [h.2.2.2.2.1]
  decide

/-! ## ZonedBlockDevice::Open: the three pools -/

/-- What a meta-zone loop of `Open` computes: it pushes the entries that are
    not Offline among the first `limit - m` sequential-write-required entries,
    and leaves the sequential-write-required entries after those. -/
theorem metaZonesLoop_spec (limit : Nat) :
    ∀ (zs : List zbd_zone) (i m : Nat),
      (metaZonesLoop limit zs i m).1 = notOffline ((swrEntriesFrom zs i).take (limit - m)) ∧
      swrEntriesFrom (zs.drop (metaZonesLoop limit zs i m).2)
          (i + (metaZonesLoop limit zs i m).2)
        = (swrEntriesFrom zs i).drop (limit - m) := by
  intro zs
  induction zs with
  | nil =>
    intro i m
    simp [metaZonesLoop, swrEntriesFrom, notOffline]
  | cons z rest ih =>
    intro i m
    by_cases hm : m < limit
    · have hsub : limit - m = (limit - (m + 1)) + 1 := by omega
      by_cases hs : zbd_zone_swr z = true
      · obtain ⟨h1, h2⟩ := ih (i + 1) (m + 1)
        have hS : swrEntriesFrom (z :: rest) i = (i, z) :: swrEntriesFrom rest (i + 1) := by
          simp [swrEntriesFrom, List.filter_cons, hs]
        have hidx : i + ((metaZonesLoop limit rest (i + 1) (m + 1)).2 + 1)
            = i + 1 + (metaZonesLoop limit rest (i + 1) (m + 1)).2 := by omega
        by_cases ho : zbd_zone_offline z = true
        · have hstep : metaZonesLoop limit (z :: rest) i m
              = ((metaZonesLoop limit rest (i + 1) (m + 1)).1,
                  (metaZonesLoop limit rest (i + 1) (m + 1)).2 + 1) := by
            rw [metaZonesLoop]
            simp [hm, hs, ho]
          rw [hstep, hS, hsub]
          refine ⟨?_, ?_⟩
          · simp only [List.take_succ_cons, notOffline, List.filter_cons, ho, Bool.not_true,
              Bool.false_eq_true, if_false]
            exact h1
          · simp only [List.drop_succ_cons, hidx]
            exact h2
        · have ho' : zbd_zone_offline z = false := by simpa using ho
          have hstep : metaZonesLoop limit (z :: rest) i m
              = ((i, z) :: (metaZonesLoop limit rest (i + 1) (m + 1)).1,
                  (metaZonesLoop limit rest (i + 1) (m + 1)).2 + 1) := by
            rw [metaZonesLoop]
            simp [hm, hs, ho']
          rw [hstep, hS, hsub]
          refine ⟨?_, ?_⟩
          · simp only [List.take_succ_cons, notOffline, List.filter_cons, ho', Bool.not_false,
              if_true]
            congr 1
          · simp only [List.drop_succ_cons, hidx]
            exact h2
      · have hs' : zbd_zone_swr z = false := by simpa using hs
        obtain ⟨h1, h2⟩ := ih (i + 1) m
        have hS : swrEntriesFrom (z :: rest) i = swrEntriesFrom rest (i + 1) := by
          simp [swrEntriesFrom, List.filter_cons, hs']
        have hidx : i + ((metaZonesLoop limit rest (i + 1) m).2 + 1)
            = i + 1 + (metaZonesLoop limit rest (i + 1) m).2 := by omega
        have hstep : metaZonesLoop limit (z :: rest) i m
            = ((metaZonesLoop limit rest (i + 1) m).1,
                (metaZonesLoop limit rest (i + 1) m).2 + 1) := by
          rw [metaZonesLoop]
          simp [hm, hs']
        rw [hstep, hS]
        refine ⟨h1, ?_⟩
        simp only [List.drop_succ_cons, hidx]
        exact h2
    · have hstep : metaZonesLoop limit (z :: rest) i m = ([], 0) := by
        rw [metaZonesLoop]
        simp [hm]
      have h0 : limit - m = 0 := by omega
      rw [hstep, h0]
      simp [notOffline]

/-- What the io-zone loop of `Open` pushes: the sequential-write-required
    entries that are not Offline. -/
theorem ioZonesLoop_spec :
    ∀ (zs : List zbd_zone) (i : Nat),
      (ioZonesLoop zs i).1 = notOffline (swrEntriesFrom zs i) := by
  intro zs
  induction zs with
  | nil =>
    intro i
    simp [ioZonesLoop, swrEntriesFrom, notOffline]
  | cons z rest ih =>
    intro i
    rw [ioZonesLoop]
    by_cases hs : zbd_zone_swr z = true
    · by_cases ho : zbd_zone_offline z = true
      · simp [hs, ho, ih (i + 1), swrEntriesFrom, notOffline, List.filter_cons]
      · have ho' : zbd_zone_offline z = false := by simpa using ho
        simp [hs, ho', ih (i + 1), swrEntriesFrom, notOffline, List.filter_cons]
    · have hs' : zbd_zone_swr z = false := by simpa using hs
      simp [hs', ih (i + 1), swrEntriesFrom, notOffline, List.filter_cons]

/-- The zone object `Open` pushes to `io_zones_` has the state the
    constructor gave it: the `Close` called on an open zone changes no
    field. -/
theorem openIOZone_eq (readonly : Bool) (zone_sz : Nat) (close_ret : Nat → Int) (i : Nat)
    (z : zbd_zone) : openIOZone readonly zone_sz close_ret i z = Zone.mk_from_report z := by
  unfold openIOZone
  split_ifs
  · unfold Zone.Close
    split_ifs <;> rfl
  · rfl

/-- The positions of the sequential-write-required entries of a report are
    strictly increasing. -/
theorem swrEntries_pos_sorted (rep : List zbd_zone) :
    ((swrEntries rep).map Prod.fst).Pairwise (· < ·) := by
  have hsub : ((swrEntries rep).map Prod.fst).Sublist ((rep.enumFrom 0).map Prod.fst) :=
    List.Sublist.map _ (List.filter_sublist _)
  rw [List.enumFrom_map_fst] at hsub
  exact List.Pairwise.sublist hsub (List.pairwise_lt_range' 0 rep.length)

/-- The pools a successful `Open` builds, as segments of the
    sequential-write-required entries of the report. -/
theorem Open_pools (a : OpenAnswer) (readonly : Bool) (finish_threshold : Nat)
    (r : OpenResult) (h : ZonedBlockDevice.Open a readonly finish_threshold = Except.ok r) :
    r.op_pos = (notOffline ((swrEntries a.zone_rep).take 2)).map Prod.fst ∧
    r.zbd.op_zones_
      = (notOffline ((swrEntries a.zone_rep).take 2)).map (fun e => Zone.mk_from_report e.2) ∧
    r.snapshot_pos
      = (notOffline (((swrEntries a.zone_rep).drop 2).take 2)).map Prod.fst ∧
    r.zbd.snapshot_zones_
      = (notOffline (((swrEntries a.zone_rep).drop 2).take 2)).map
          (fun e => Zone.mk_from_report e.2) ∧
    r.io_pos = (notOffline ((swrEntries a.zone_rep).drop 4)).map Prod.fst ∧
    r.zbd.io_zones_
      = (notOffline ((swrEntries a.zone_rep).drop 4)).map (fun e => Zone.mk_from_report e.2) := by
  obtain ⟨hop, hrest1⟩ := metaZonesLoop_spec ZENFS_OP_LOG_ZONES a.zone_rep 0 0
  obtain ⟨hsnap, hrest2⟩ := metaZonesLoop_spec ZENFS_SNAPSHOT_ZONES
    (a.zone_rep.drop (metaZonesLoop ZENFS_OP_LOG_ZONES a.zone_rep 0 0).2)
    (metaZonesLoop ZENFS_OP_LOG_ZONES a.zone_rep 0 0).2 0
  have hio := ioZonesLoop_spec
    (a.zone_rep.drop ((metaZonesLoop ZENFS_OP_LOG_ZONES a.zone_rep 0 0).2
      + (metaZonesLoop ZENFS_SNAPSHOT_ZONES
          (a.zone_rep.drop (metaZonesLoop ZENFS_OP_LOG_ZONES a.zone_rep 0 0).2)
          (metaZonesLoop ZENFS_OP_LOG_ZONES a.zone_rep 0 0).2 0).2))
    ((metaZonesLoop ZENFS_OP_LOG_ZONES a.zone_rep 0 0).2
      + (metaZonesLoop ZENFS_SNAPSHOT_ZONES
          (a.zone_rep.drop (metaZonesLoop ZENFS_OP_LOG_ZONES a.zone_rep 0 0).2)
          (metaZonesLoop ZENFS_OP_LOG_ZONES a.zone_rep 0 0).2 0).2)
  rw [Nat.zero_add] at hrest1
  rw [hrest1] at hsnap hrest2
  have hdd : List.drop
      (metaZonesLoop ZENFS_SNAPSHOT_ZONES
        (a.zone_rep.drop (metaZonesLoop ZENFS_OP_LOG_ZONES a.zone_rep 0 0).2)
        (metaZonesLoop ZENFS_OP_LOG_ZONES a.zone_rep 0 0).2 0).2
      (a.zone_rep.drop (metaZonesLoop ZENFS_OP_LOG_ZONES a.zone_rep 0 0).2)
      = a.zone_rep.drop ((metaZonesLoop ZENFS_OP_LOG_ZONES a.zone_rep 0 0).2
          + (metaZonesLoop ZENFS_SNAPSHOT_ZONES
              (a.zone_rep.drop (metaZonesLoop ZENFS_OP_LOG_ZONES a.zone_rep 0 0).2)
              (metaZonesLoop ZENFS_OP_LOG_ZONES a.zone_rep 0 0).2 0).2) :=
    List.drop_drop _ _ _
  rw [hdd] at hrest2
  rw [hrest2] at hio
  simp only [ZENFS_OP_LOG_ZONES, ZENFS_SNAPSHOT_ZONES, Nat.sub_zero, List.drop_drop,
    Nat.reduceAdd] at hop hsnap hio
  unfold ZonedBlockDevice.Open at h
  split_ifs at h
  simp only [Except.ok.injEq] at h
  subst h
  simp only [ZENFS_OP_LOG_ZONES, ZENFS_SNAPSHOT_ZONES, swrEntries, hop, hsnap, hio,
    openIOZone_eq, and_self]

/-- C14 (code evaluation): on a report of 32 sequential-write-required zones
    of which the first is Offline and the other 31 are not (so at least four
    are not Offline), `Open` succeeds and builds an op-log pool of one zone
    only, report position 1, where two zones that are not Offline are needed
    (positions 1 and 2); the snapshot pool is made of positions 2 and 3 and
    the io pool starts at position 4.  In general a successful `Open` makes
    the op-log pool of the zones that are not Offline among the first two
    sequential-write-required zones of the report, the snapshot pool of the
    zones that are not Offline among the next two, and the io pool of all the
    zones that are not Offline among the remaining sequential-write-required
    zones, each pool in report order; the report positions of the three pools
    taken together are strictly increasing, so the pools are pairwise
    disjoint; and when the report has at least four sequential-write-required
    zones of which the first four are not Offline, the op-log pool and the
    snapshot pool have exactly 2 zones each, the first two and the next two
    of them. -/
theorem C14_Open_offline_zone_takes_meta_slot :
    (4 ≤ (notOffline (swrEntries reportFirstOffline)).length ∧
    (ZonedBlockDevice.Open (openAnswer 14 14 reportFirstOffline) false 0).toOption.map
        (fun r => (r.zbd.op_zones_.length, r.op_pos, r.snapshot_pos, r.io_pos.head?))
      = some (1, [1], [2, 3], some 4)) ∧
    ∀ (a : OpenAnswer) (readonly : Bool) (finish_threshold : Nat) (r : OpenResult),
    ZonedBlockDevice.Open a readonly finish_threshold = Except.ok r →
    (r.op_pos = (notOffline ((swrEntries a.zone_rep).take 2)).map Prod.fst ∧
      r.zbd.op_zones_
        = (notOffline ((swrEntries a.zone_rep).take 2)).map
            (fun e => Zone.mk_from_report e.2)) ∧
    (r.snapshot_pos
        = (notOffline (((swrEntries a.zone_rep).drop 2).take 2)).map Prod.fst ∧
      r.zbd.snapshot_zones_
        = (notOffline (((swrEntries a.zone_rep).drop 2).take 2)).map
            (fun e => Zone.mk_from_report e.2)) ∧
    (r.io_pos = (notOffline ((swrEntries a.zone_rep).drop 4)).map Prod.fst ∧
      r.zbd.io_zones_
        = (notOffline ((swrEntries a.zone_rep).drop 4)).map
            (fun e => Zone.mk_from_report e.2)) ∧
    (r.op_pos ++ r.snapshot_pos ++ r.io_pos).Pairwise (· < ·) ∧
    (List.Disjoint r.op_pos r.snapshot_pos ∧ List.Disjoint r.op_pos r.io_pos ∧
      List.Disjoint r.snapshot_pos r.io_pos) ∧
    (4 ≤ (swrEntries a.zone_rep).length →
      (∀ e ∈ (swrEntries a.zone_rep).take 4, zbd_zone_offline e.2 = false) →
      r.zbd.op_zones_.length = 2 ∧ r.zbd.snapshot_zones_.length = 2 ∧
      r.op_pos = ((swrEntries a.zone_rep).take 2).map Prod.fst ∧
      r.snapshot_pos = (((swrEntries a.zone_rep).drop 2).take 2).map Prod.fst) := by
  refine ⟨by decide, ?_⟩
  intro a readonly finish_threshold r h
  obtain ⟨h1, h2, h3, h4, h5, h6⟩ := Open_pools a readonly finish_threshold r h
  have hsorted : (r.op_pos ++ r.snapshot_pos ++ r.io_pos).Pairwise (· < ·) := by
    have hcat : r.op_pos ++ r.snapshot_pos ++ r.io_pos
        = (notOffline (swrEntries a.zone_rep)).map Prod.fst := by
      rw [h1, h3, h5, ← List.map_append, ← List.map_append]
      unfold notOffline
      rw [← List.filter_append, ← List.filter_append, List.append_assoc]
      have e1 : List.take 2 (List.drop 2 (swrEntries a.zone_rep))
          ++ List.drop 4 (swrEntries a.zone_rep) = List.drop 2 (swrEntries a.zone_rep) := by
        have := List.take_append_drop 2 (List.drop 2 (swrEntries a.zone_rep))
        rw [List.drop_drop] at this
        exact this
      rw [e1, List.take_append_drop]
    rw [hcat]
    exact List.Pairwise.sublist (List.Sublist.map _ (List.filter_sublist _))
      (swrEntries_pos_sorted a.zone_rep)
  have hpw := hsorted
  rw [List.append_assoc, List.pairwise_append] at hpw
  obtain ⟨_, hrest, hcross⟩ := hpw
  rw [List.pairwise_append] at hrest
  obtain ⟨_, _, hcross2⟩ := hrest
  refine ⟨⟨h1, h2⟩, ⟨h3, h4⟩, ⟨h5, h6⟩, hsorted, ⟨?_, ?_, ?_⟩, ?_⟩
  · intro x hx hy
    exact lt_irrefl x (hcross x hx x (List.mem_append_left _ hy))
  · intro x hx hy
    exact lt_irrefl x (hcross x hx x (List.mem_append_right _ hy))
  · intro x hx hy
    exact lt_irrefl x (hcross2 x hx x hy)
  · intro hlen hoff
    have h4s : (swrEntries a.zone_rep).take 4
        = (swrEntries a.zone_rep).take 2 ++ ((swrEntries a.zone_rep).drop 2).take 2 := by
      have := List.take_add (l := swrEntries a.zone_rep) (m := 2) (n := 2)
      simpa using this
    have hop : notOffline ((swrEntries a.zone_rep).take 2) = (swrEntries a.zone_rep).take 2 := by
      unfold notOffline
      rw [List.filter_eq_self]
      intro e he
      have hmem : e ∈ (swrEntries a.zone_rep).take 4 := by
        rw [h4s]
        exact List.mem_append_left _ he
      simp [hoff e hmem]
    have hsn : notOffline (((swrEntries a.zone_rep).drop 2).take 2)
        = ((swrEntries a.zone_rep).drop 2).take 2 := by
      unfold notOffline
      rw [List.filter_eq_self]
      intro e he
      have hmem : e ∈ (swrEntries a.zone_rep).take 4 := by
        rw [h4s]
        exact List.mem_append_right _ he
      simp [hoff e hmem]
    rw [h2, h4, h1, h3, hop, hsn]
    refine ⟨?_, ?_, rfl, rfl⟩
    · simp only [List.length_map, List.length_take]
      omega
    · simp only [List.length_map, List.length_take, List.length_drop]
      omega

/-- Witness of C14: the general part on a report of 32 empty
    sequential-write-required zones: the op-log pool is made of report
    positions 0 and 1 and the snapshot pool of positions 2 and 3. -/
theorem C14_Open_offline_zone_takes_meta_slot_witness :
    ∃ r : OpenResult,
      ZonedBlockDevice.Open (openAnswer 14 14 reportAllEmpty) false 0 = Except.ok r ∧
      r.op_pos = [0, 1] ∧ r.snapshot_pos = [2, 3] ∧ List.Disjoint r.op_pos r.snapshot_pos := by
  obtain ⟨r, h⟩ := Open_ok_of_isSome (openAnswer 14 14 reportAllEmpty) false 0 (by decide)
  have hc := C14_Open_offline_zone_takes_meta_slot.2 (openAnswer 14 14 reportAllEmpty) false 0 r h
  have h4 := hc.2.2.2.2.2 (by decide) (by decide)
  refine ⟨r, h, ?_, ?_, hc.2.2.2.2.1.1⟩
  · rw [h4.2.2.1]
    decide
  · rw [h4.2.2.2]
    decide

/-! ## AllocateZone: the three loops of a pass -/

/-- What the reclaim loop does with one zone: it leaves the zone alone and
    submits nothing; or the zone was not open for write, not in background
    processing, not empty and without live data, and it is marked (both
    flags set) with a reset job submitted; or the zone was not open for
    write, not in background processing, neither empty nor full, with live
    data, the request is not for a WAL file and the capacity left is below
    the finish threshold, and it is marked with a finish job submitted. -/
theorem reclaimZone_cases (ft : Nat) (is_wal : Bool) (i : Nat) (z : Zone) :
    reclaimZone ft is_wal i z = (z, []) ∨
    (z.open_for_write_ = false ∧ z.bg_processing_ = false ∧ z.IsEmpty = false ∧
      z.used_capacity_ ≤ 0 ∧
      reclaimZone ft is_wal i z
        = ({ z with bg_processing_ := true, open_for_write_ := true }, [BgJob.reset i])) ∨
    (z.open_for_write_ = false ∧ z.bg_processing_ = false ∧ z.IsEmpty = false ∧
      z.IsFull = false ∧ 0 < z.used_capacity_ ∧ is_wal = false ∧
      z.capacity_ < (z.max_capacity_ * ft % U64) / 100 ∧
      reclaimZone ft is_wal i z
        = ({ z with bg_processing_ := true, open_for_write_ := true }, [BgJob.finish i])) := by
  unfold reclaimZone
  by_cases h1 : (z.open_for_write_ || z.IsEmpty || (z.IsFull && z.IsUsed)) = true
  · left
    simp [h1]
  · have h1' : (z.open_for_write_ || z.IsEmpty || (z.IsFull && z.IsUsed)) = false := by
      simpa using h1
    have ho : z.open_for_write_ = false := by
      cases h : z.open_for_write_ <;> simp_all
    have he : z.IsEmpty = false := by
      cases h : z.IsEmpty <;> simp_all
    have hfu : (z.IsFull && z.IsUsed) = false := by
      cases h : (z.IsFull && z.IsUsed) <;> simp_all
    by_cases hb : z.bg_processing_ = true
    · left
      simp [h1, hb]
    · have hb' : z.bg_processing_ = false := by simpa using hb
      by_cases hu : 0 < z.used_capacity_
      · have hused : z.IsUsed = true := by simp [Zone.IsUsed, hu]
        have hfull : z.IsFull = false := by
          cases h : z.IsFull <;> simp_all
        by_cases hfin : is_wal = false ∧ z.capacity_ < (z.max_capacity_ * ft % U64) / 100
        · right; right
          refine ⟨ho, hb', he, hfull, hu, hfin.1, hfin.2, ?_⟩
          simp only [h1', hb', Bool.false_eq_true, if_false]
          simp [Zone.IsUsed, hu, hfin.1, hfin.2]
        · left
          have hcond : (!is_wal &&
              decide (z.capacity_ < (z.max_capacity_ * ft % U64) / 100)) = false := by
            cases is_wal <;> simp_all
          simp only [h1', Bool.false_eq_true, if_false, hb', Zone.IsUsed, hu, decide_True,
            Bool.true_or, Bool.not_true, hcond]
          cases z
          simp_all
      · right; left
        have hu' : z.used_capacity_ ≤ 0 := not_lt.mp hu
        refine ⟨ho, hb', he, hu', ?_⟩
        simp only [h1', hb', Bool.false_eq_true, if_false]
        simp [Zone.IsUsed, hu, ho]

/-- What the reclaim loop computes, zone by zone: the zone at each position
    becomes what `reclaimZone` makes of it, the jobs submitted are those
    `reclaimZone` submits, and their zones are strictly increasing positions
    from `i` on. -/
theorem reclaimLoop_spec (ft : Nat) (is_wal : Bool) :
    ∀ (zs : List Zone) (i : Nat),
      (reclaimLoop ft is_wal zs i).1.length = zs.length ∧
      (∀ (k : Nat) (z : Zone), zs[k]? = some z →
        (reclaimLoop ft is_wal zs i).1[k]? = some (reclaimZone ft is_wal (i + k) z).1) ∧
      (∀ job : BgJob, job ∈ (reclaimLoop ft is_wal zs i).2 ↔
        ∃ (k : Nat) (z : Zone), zs[k]? = some z ∧ job ∈ (reclaimZone ft is_wal (i + k) z).2) ∧
      ((reclaimLoop ft is_wal zs i).2.map BgJob.zone).Pairwise (· < ·) ∧
      (∀ t ∈ (reclaimLoop ft is_wal zs i).2.map BgJob.zone, i ≤ t) := by
  intro zs
  induction zs with
  | nil =>
    intro i
    simp [reclaimLoop]
  | cons z rest ih =>
    intro i
    have hidx : ∀ k : Nat, i + (k + 1) = i + 1 + k := fun k => by omega
    obtain ⟨h1, h2, h3, h4, h5⟩ := ih (i + 1)
    have hstep : reclaimLoop ft is_wal (z :: rest) i
        = ((reclaimZone ft is_wal i z).1 :: (reclaimLoop ft is_wal rest (i + 1)).1,
            (reclaimZone ft is_wal i z).2 ++ (reclaimLoop ft is_wal rest (i + 1)).2) := by
      rw [reclaimLoop]
    rw [hstep]
    have hhead : ∀ t ∈ (reclaimZone ft is_wal i z).2.map BgJob.zone, t = i := by
      intro t ht
      rcases reclaimZone_cases ft is_wal i z with h | ⟨_, _, _, _, h⟩ | ⟨_, _, _, _, _, _, _, h⟩
        <;> rw [h] at ht <;> simp [BgJob.zone] at ht <;> exact ht
    have hhead_pw : ((reclaimZone ft is_wal i z).2.map BgJob.zone).Pairwise (· < ·) := by
      rcases reclaimZone_cases ft is_wal i z with h | ⟨_, _, _, _, h⟩ | ⟨_, _, _, _, _, _, _, h⟩
        <;> rw [h] <;> simp
    refine ⟨by simp [h1], ?_, ?_, ?_, ?_⟩
    · intro k zk hk
      cases k with
      | zero =>
        simp only [List.getElem?_cons_zero, Option.some.injEq] at hk
        subst hk
        simp
      | succ k =>
        rw [List.getElem?_cons_succ] at hk
        rw [List.getElem?_cons_succ, h2 k zk hk, hidx k]
    · intro job
      show job ∈ (reclaimZone ft is_wal i z).2 ++ _ ↔ _
      rw [List.mem_append, h3 job]
      constructor
      · rintro (hj | ⟨k, zk, hk, hj⟩)
        · exact ⟨0, z, by simp, by simpa using hj⟩
        · refine ⟨k + 1, zk, by rw [List.getElem?_cons_succ]; exact hk, ?_⟩
          rw [hidx k]
          exact hj
      · rintro ⟨k, zk, hk, hj⟩
        cases k with
        | zero =>
          simp only [List.getElem?_cons_zero, Option.some.injEq] at hk
          subst hk
          exact Or.inl (by simpa using hj)
        | succ k =>
          rw [List.getElem?_cons_succ] at hk
          rw [hidx k] at hj
          exact Or.inr ⟨k, zk, hk, hj⟩
    · show (((reclaimZone ft is_wal i z).2 ++ (reclaimLoop ft is_wal rest (i + 1)).2).map
        BgJob.zone).Pairwise (· < ·)
      rw [List.map_append, List.pairwise_append]
      refine ⟨hhead_pw, h4, ?_⟩
      intro a ha b hb
      have := hhead a ha
      have := h5 b hb
      omega
    · intro t ht
      have ht' : t ∈ ((reclaimZone ft is_wal i z).2 ++ (reclaimLoop ft is_wal rest (i + 1)).2).map
          BgJob.zone := ht
      rw [List.map_append, List.mem_append] at ht'
      rcases ht' with h | h
      · exact le_of_eq (hhead t h).symm
      · have := h5 t h
        omega

/-- The zone the empty-zone loop stops at is not in background processing,
    not open for write and empty, and every zone before it fails that
    test. -/
theorem emptyLoop_some :
    ∀ (zs : List Zone) (i j : Nat), emptyLoop zs i = some j →
      ∃ (k : Nat) (z : Zone), j = i + k ∧ zs[k]? = some z ∧ z.bg_processing_ = false ∧
        z.open_for_write_ = false ∧ z.IsEmpty = true ∧
        ∀ (k2 : Nat) (z2 : Zone), k2 < k → zs[k2]? = some z2 →
          ¬ (z2.bg_processing_ = false ∧ z2.open_for_write_ = false ∧ z2.IsEmpty = true) := by
  intro zs
  induction zs with
  | nil =>
    intro i j h
    simp [emptyLoop] at h
  | cons z rest ih =>
    intro i j h
    rw [emptyLoop] at h
    by_cases hb : z.bg_processing_ = true
    · simp only [hb, if_true] at h
      obtain ⟨k, zk, hj, hk, h1, h2, h3, h4⟩ := ih (i + 1) j h
      refine ⟨k + 1, zk, by omega, by rw [List.getElem?_cons_succ]; exact hk, h1, h2, h3, ?_⟩
      intro k2 z2 hlt hk2
      cases k2 with
      | zero =>
        simp only [List.getElem?_cons_zero, Option.some.injEq] at hk2
        subst hk2
        simp [hb]
      | succ k2 =>
        rw [List.getElem?_cons_succ] at hk2
        exact h4 k2 z2 (by omega) hk2
    · have hb' : z.bg_processing_ = false := by simpa using hb
      simp only [hb', Bool.false_eq_true, if_false] at h
      by_cases he : (!z.open_for_write_ && z.IsEmpty) = true
      · simp only [he, if_true, Option.some.injEq] at h
        simp only [Bool.and_eq_true, Bool.not_eq_true'] at he
        exact ⟨0, z, by omega, by simp, hb', he.1, he.2, fun k2 _ hlt _ => absurd hlt (by omega)⟩
      · simp only [he, if_false] at h
        obtain ⟨k, zk, hj, hk, h1, h2, h3, h4⟩ := ih (i + 1) j h
        refine ⟨k + 1, zk, by omega, by rw [List.getElem?_cons_succ]; exact hk, h1, h2, h3, ?_⟩
        intro k2 z2 hlt hk2
        cases k2 with
        | zero =>
          simp only [List.getElem?_cons_zero, Option.some.injEq] at hk2
          subst hk2
          intro hc
          exact he (by simp [hc.2.1, hc.2.2])
        | succ k2 =>
          rw [List.getElem?_cons_succ] at hk2
          exact h4 k2 z2 (by omega) hk2

/-- The two ways the empty-zone part of a pass can end: nothing changes and
    the loop retries; or, the count of active zones being below the bound, an
    empty zone that was neither open for write nor in background processing is
    opened for write with the lifetime of the file, both counters are
    incremented and the retry loop ends. -/
theorem emptyPass_cases (d : ZonedBlockDevice) (fl : WriteLifeTimeHint) (is_wal : Bool)
    (az : Option Nat) :
    d.emptyPass fl is_wal az
      = { zbd := d, allocated_zone := az, retry := true, new_zone := 0 } ∨
    ∃ (j : Nat) (z : Zone), d.io_zones_[j]? = some z ∧ z.bg_processing_ = false ∧
      z.open_for_write_ = false ∧ z.wp_ = z.start_ ∧
      d.active_io_zones_ < d.activeBound is_wal ∧
      (∀ (k2 : Nat) (z2 : Zone), k2 < j → d.io_zones_[k2]? = some z2 →
        ¬ (z2.bg_processing_ = false ∧ z2.open_for_write_ = false ∧ z2.IsEmpty = true)) ∧
      d.emptyPass fl is_wal az
        = { zbd :=
              { d.setIOZone j { z with open_for_write_ := true, lifetime_ := fl } with
                active_io_zones_ := d.active_io_zones_ + 1
                open_io_zones_ := d.open_io_zones_ + 1 }
            allocated_zone := some j, retry := false, new_zone := 1 } := by
  by_cases hact : d.active_io_zones_ < d.activeBound is_wal
  · cases hloop : emptyLoop d.io_zones_ 0 with
    | none =>
      left
      simp only [ZonedBlockDevice.emptyPass, hact, if_true, hloop]
    | some j =>
      obtain ⟨k, z, hj, hk, hb, ho, he, hfirst⟩ := emptyLoop_some d.io_zones_ 0 j hloop
      rw [Nat.zero_add] at hj
      subst hj
      right
      refine ⟨j, z, hk, hb, ho, by simpa [Zone.IsEmpty] using he, hact, hfirst, ?_⟩
      have hnot : ¬ (d.setIOZone j { z with open_for_write_ := true, lifetime_ := fl }).active_io_zones_
          ≥ (d.setIOZone j { z with open_for_write_ := true, lifetime_ := fl }).activeBound is_wal :=
        not_le.mpr hact
      simp only [ZonedBlockDevice.emptyPass, hact, if_true, hloop, hk, hnot, if_false]
      rfl
  · left
    simp only [ZonedBlockDevice.emptyPass, hact, if_false]

/-- The two ways the best-fit attempt of a pass can go: a candidate zone at a
    distance below `LIFETIME_DIFF_NOT_GOOD` is opened for write,
    `open_io_zones_` is incremented and the retry loop ends; or the pass goes
    on with its empty-zone part. -/
theorem bestFitPass_cases (d : ZonedBlockDevice) (fl : WriteLifeTimeHint) (is_wal : Bool)
    (a0 : Option Nat) :
    (∃ (j : Nat) (zj : Zone), d.io_zones_[j]? = some zj ∧ zj.fitCandidate = true ∧
      d.bestFitPass fl is_wal a0
        = { zbd :=
              { d.setIOZone j { zj with open_for_write_ := true } with
                open_io_zones_ := d.open_io_zones_ + 1 }
            allocated_zone := some j, retry := false, new_zone := 0 }) ∨
    ∃ az : Option Nat, d.bestFitPass fl is_wal a0 = d.emptyPass fl is_wal az := by
  by_cases h : ∃ (k : Nat) (z : Zone), d.io_zones_[k]? = some z ∧ z.fitCandidate = true ∧
      GetLifeTimeDiff z.lifetime_ fl < LIFETIME_DIFF_NOT_GOOD
  · obtain ⟨j, zj, hj, hzj, _, _, _, hpass⟩ := bestFitPass_take d fl is_wal a0 h
    exact Or.inl ⟨j, zj, hj, hzj, hpass⟩
  · right
    obtain ⟨_, h2, h3⟩ := bestFitLoop_spec fl d.io_zones_ 0 a0 LIFETIME_DIFF_NOT_GOOD
    have hbest : ¬ (bestFitLoop fl d.io_zones_ 0 a0 LIFETIME_DIFF_NOT_GOOD).2
        < LIFETIME_DIFF_NOT_GOOD := by
      intro hlt
      rcases h3 with ⟨heq, _⟩ | ⟨k, z, hk, hz, _, hdiff, _⟩
      · rw [heq] at hlt
        exact lt_irrefl _ hlt
      · exact h ⟨k, z, hk, hz, by rw [hdiff]; exact hlt⟩
    cases hfit : (bestFitLoop fl d.io_zones_ 0 a0 LIFETIME_DIFF_NOT_GOOD).1 with
    | none =>
      refine ⟨none, ?_⟩
      simp only [ZonedBlockDevice.bestFitPass, hfit]
    | some j =>
      refine ⟨some j, ?_⟩
      simp only [ZonedBlockDevice.bestFitPass, hfit, hbest, if_false]

/-- The three ways a pass of `AllocateZone` can end, on the device as the
    reclaim loop left it: the loop retries with that device unchanged; a
    best-fit candidate is taken; or an empty zone is taken. -/
theorem AllocateZonePass_cases (d : ZonedBlockDevice) (fl : WriteLifeTimeHint)
    (is_wal : Bool) (a0 : Option Nat) :
    ((d.AllocateZonePass fl is_wal a0).retry = true ∧
      (d.AllocateZonePass fl is_wal a0).new_zone = 0 ∧
      (d.AllocateZonePass fl is_wal a0).zbd = d.reclaimPass is_wal) ∨
    (∃ (j : Nat) (zj : Zone), (d.reclaimPass is_wal).io_zones_[j]? = some zj ∧
      zj.fitCandidate = true ∧
      d.AllocateZonePass fl is_wal a0
        = { zbd :=
              { (d.reclaimPass is_wal).setIOZone j { zj with open_for_write_ := true } with
                open_io_zones_ := d.open_io_zones_ + 1 }
            allocated_zone := some j, retry := false, new_zone := 0 }) ∨
    (∃ (j : Nat) (z : Zone), (d.reclaimPass is_wal).io_zones_[j]? = some z ∧
      z.bg_processing_ = false ∧ z.open_for_write_ = false ∧ z.wp_ = z.start_ ∧
      d.active_io_zones_ < d.activeBound is_wal ∧
      d.AllocateZonePass fl is_wal a0
        = { zbd :=
              { (d.reclaimPass is_wal).setIOZone j
                  { z with open_for_write_ := true, lifetime_ := fl } with
                active_io_zones_ := d.active_io_zones_ + 1
                open_io_zones_ := d.open_io_zones_ + 1 }
            allocated_zone := some j, retry := false, new_zone := 1 }) := by
  unfold ZonedBlockDevice.AllocateZonePass
  rcases bestFitPass_cases (d.reclaimPass is_wal) fl is_wal a0 with
    ⟨j, zj, hj, hzj, hpass⟩ | ⟨az, hpass⟩
  · exact Or.inr (Or.inl ⟨j, zj, hj, hzj, hpass⟩)
  · rw [hpass]
    rcases emptyPass_cases (d.reclaimPass is_wal) fl is_wal az with
      he | ⟨j, z, hj, hb, ho, hwp, hact, _, he⟩
    · rw [he]
      exact Or.inl ⟨rfl, rfl, rfl⟩
    · exact Or.inr (Or.inr ⟨j, z, hj, hb, ho, hwp, hact, he⟩)

/-- A zone that the reclaim loop left not open for write is as it was before
    the loop. -/
theorem reclaimPass_zone (d : ZonedBlockDevice) (is_wal : Bool) (j : Nat) (z0 : Zone)
    (hj : (d.reclaimPass is_wal).io_zones_[j]? = some z0) (ho : z0.open_for_write_ = false) :
    d.io_zones_[j]? = some z0 := by
  obtain ⟨hlen, hget, _⟩ := reclaimLoop_spec d.finish_threshold_ is_wal d.io_zones_ 0
  have hjlt : j < d.io_zones_.length := by
    have := (List.getElem?_eq_some.mp hj).1
    simpa [ZonedBlockDevice.reclaimPass, hlen] using this
  obtain ⟨zd, hzd⟩ : ∃ zd, d.io_zones_[j]? = some zd :=
    ⟨d.io_zones_[j], List.getElem?_eq_getElem hjlt⟩
  have h := hget j zd hzd
  have hj' : (reclaimLoop d.finish_threshold_ is_wal d.io_zones_ 0).1[j]? = some z0 := hj
  rw [h, Option.some.injEq] at hj'
  rw [hzd]
  rcases reclaimZone_cases d.finish_threshold_ is_wal (0 + j) zd with
    hc | ⟨_, _, _, _, hc⟩ | ⟨_, _, _, _, _, _, _, hc⟩
  · rw [hc] at hj'
    rw [← hj']
  · rw [hc] at hj'
    rw [← hj'] at ho
    exact absurd ho (by simp)
  · rw [hc] at hj'
    rw [← hj'] at ho
    exact absurd ho (by simp)

/-- The bound for a WAL request is at most `max_nr_active_io_zones_`. -/
theorem activeBound_wal (d : ZonedBlockDevice) :
    d.activeBound true ≤ (d.max_nr_active_io_zones_ : Int) := by
  unfold ZonedBlockDevice.activeBound
  simp only [if_true, Nat.sub_zero]
  have h : (d.max_nr_active_io_zones_ + U32) % U32 ≤ d.max_nr_active_io_zones_ := by
    rw [Nat.add_mod_right]
    exact Nat.mod_le _ _
  exact_mod_cast h

/-- The bound for a request that is not for a WAL file is at most
    `max_nr_active_io_zones_ - 1` when `max_nr_active_io_zones_` is at
    least 1, that is when the subtraction of `reserved_zones` does not
    wrap. -/
theorem activeBound_not_wal (d : ZonedBlockDevice) (h : 1 ≤ d.max_nr_active_io_zones_) :
    d.activeBound false ≤ (d.max_nr_active_io_zones_ : Int) - 1 := by
  unfold ZonedBlockDevice.activeBound
  simp only [Bool.false_eq_true, if_false, reserved_zones]
  have h1 : (d.max_nr_active_io_zones_ + U32 - 1) % U32 ≤ d.max_nr_active_io_zones_ - 1 := by
    have e : d.max_nr_active_io_zones_ + U32 - 1 = (d.max_nr_active_io_zones_ - 1) + U32 := by
      omega
    rw [e, Nat.add_mod_right]
    exact Nat.mod_le _ _
  have h2 : ((d.max_nr_active_io_zones_ - 1 : Nat) : Int) = (d.max_nr_active_io_zones_ : Int) - 1 := by
    omega
  rw [← h2]
  exact_mod_cast h1

/-- With `max_nr_active_io_zones_ = 0` the bound for a request that is not for
    a WAL file is `2^32 - 1`: the `unsigned int` subtraction of
    `reserved_zones` wraps. -/
theorem activeBound_not_wal_zero (d : ZonedBlockDevice) (h : d.max_nr_active_io_zones_ = 0) :
    d.activeBound false = 4294967295 := by
  unfold ZonedBlockDevice.activeBound
  rw [h]
  decide

/-- C11 (counterexample): an io zone that was reset and then reported Offline
    has `wp_ = start_` and `capacity_ = 0`; the empty-zone part of a pass of
    `AllocateZone(Medium, false)` returns it, with `capacity_ = 0` and
    `max_capacity_ = 64 MiB`. -/
theorem C11_counterexample :
    (offlineAfterReset.wp_ = offlineAfterReset.start_ ∧ offlineAfterReset.capacity_ = 0) ∧
    ((deviceWith [offlineAfterReset] 0 0).AllocateZonePass WriteLifeTimeHint.WLTH_MEDIUM false
        none).retry = false ∧
    ((deviceWith [offlineAfterReset] 0 0).AllocateZonePass WriteLifeTimeHint.WLTH_MEDIUM false
        none).new_zone = 1 ∧
    ((deviceWith [offlineAfterReset] 0 0).AllocateZonePass WriteLifeTimeHint.WLTH_MEDIUM false
        none).allocated_zone = some 0 ∧
    (((deviceWith [offlineAfterReset] 0 0).AllocateZonePass WriteLifeTimeHint.WLTH_MEDIUM false
        none).zbd.io_zones_[0]?).map (fun z => (z.capacity_, z.max_capacity_))
      = some (0, 67108864) := by
  decide

/-- C11 (amended): when a pass of `AllocateZone(file_lifetime, is_wal)` ends
    the retry loop with a zone taken by its empty-zone part (`new_zone = 1`),
    that zone was, before the pass, empty (`wp_ = start_`), not open for write
    and not in background processing; the pass sets its `open_for_write_` and
    sets its `lifetime_` to `file_lifetime` and changes nothing else of it, so
    `capacity_` and `max_capacity_` are as they were and
    `capacity_ = max_capacity_` holds after the pass exactly if it held
    before; `open_io_zones_` and `active_io_zones_` are each incremented by
    exactly one; and the new `active_io_zones_` is at most
    `max_nr_active_io_zones_` for a WAL request and, when
    `max_nr_active_io_zones_` is at least 1, at most
    `max_nr_active_io_zones_ - 1` for a request that is not for a WAL file. -/
theorem C11_AllocateZone_empty_zone (d : ZonedBlockDevice) (file_lifetime : WriteLifeTimeHint)
    (is_wal : Bool) (allocated_zone : Option Nat)
    (h_done : (d.AllocateZonePass file_lifetime is_wal allocated_zone).retry = false)
    (h_new : (d.AllocateZonePass file_lifetime is_wal allocated_zone).new_zone = 1) :
    ∃ (j : Nat) (z0 : Zone),
      (d.AllocateZonePass file_lifetime is_wal allocated_zone).allocated_zone = some j ∧
      d.io_zones_[j]? = some z0 ∧
      (z0.wp_ = z0.start_ ∧ z0.open_for_write_ = false ∧ z0.bg_processing_ = false) ∧
      (d.AllocateZonePass file_lifetime is_wal allocated_zone).zbd.io_zones_[j]?
        = some { z0 with open_for_write_ := true, lifetime_ := file_lifetime } ∧
      (∀ z1 : Zone,
        (d.AllocateZonePass file_lifetime is_wal allocated_zone).zbd.io_zones_[j]? = some z1 →
        z1.wp_ = z1.start_ ∧ z1.open_for_write_ = true ∧ z1.bg_processing_ = false ∧
        z1.lifetime_ = file_lifetime ∧ z1.capacity_ = z0.capacity_ ∧
        z1.max_capacity_ = z0.max_capacity_ ∧
        (z1.capacity_ = z1.max_capacity_ ↔ z0.capacity_ = z0.max_capacity_)) ∧
      (d.AllocateZonePass file_lifetime is_wal allocated_zone).zbd.open_io_zones_
        = d.open_io_zones_ + 1 ∧
      (d.AllocateZonePass file_lifetime is_wal allocated_zone).zbd.active_io_zones_
        = d.active_io_zones_ + 1 ∧
      (is_wal = true →
        (d.AllocateZonePass file_lifetime is_wal allocated_zone).zbd.active_io_zones_
          ≤ (d.max_nr_active_io_zones_ : Int)) ∧
      (is_wal = false → 1 ≤ d.max_nr_active_io_zones_ →
        (d.AllocateZonePass file_lifetime is_wal allocated_zone).zbd.active_io_zones_
          ≤ (d.max_nr_active_io_zones_ : Int) - 1) := by
  rcases AllocateZonePass_cases d file_lifetime is_wal allocated_zone with
    ⟨hr, _, _⟩ | ⟨j, zj, _, _, hp⟩ | ⟨j, z, hj, hb, ho, hwp, hact, hp⟩
  · rw [hr] at h_done
    exact absurd h_done (by decide)
  · rw [hp] at h_new
    exact absurd h_new (by simp)
  · have hjlt : j < (d.reclaimPass is_wal).io_zones_.length := (List.getElem?_eq_some.mp hj).1
    have hget : (d.AllocateZonePass file_lifetime is_wal allocated_zone).zbd.io_zones_[j]?
        = some { z with open_for_write_ := true, lifetime_ := file_lifetime } := by
      rw [hp]
      show ((d.reclaimPass is_wal).io_zones_.set j _)[j]? = _
      rw [List.getElem?_set_self hjlt]
    refine ⟨j, z, by rw [hp], reclaimPass_zone d is_wal j z hj ho, ⟨hwp, ho, hb⟩, hget, ?_,
      by rw [hp], by rw [hp], ?_, ?_⟩
    · intro z1 hz1
      rw [hget, Option.some.injEq] at hz1
      subst hz1
      exact ⟨hwp, rfl, hb, rfl, rfl, rfl, Iff.rfl⟩
    · intro hw
      rw [hp]
      subst hw
      have := activeBound_wal d
      show d.active_io_zones_ + 1 ≤ _
      omega
    · intro hw hmax
      rw [hp]
      subst hw
      have := activeBound_not_wal d hmax
      show d.active_io_zones_ + 1 ≤ _
      omega

/-- Witness of C11 (amended): on a device with three empty io zones and room
    for 11 active io zones, the first pass of `AllocateZone(Medium, false)`
    takes the zone at position 0. -/
theorem C11_AllocateZone_empty_zone_witness :
    ∃ (j : Nat) (z0 : Zone),
      ((deviceThreeEmpty 11).AllocateZonePass WriteLifeTimeHint.WLTH_MEDIUM false
        none).allocated_zone = some j ∧
      (deviceThreeEmpty 11).io_zones_[j]? = some z0 ∧
      ((deviceThreeEmpty 11).AllocateZonePass WriteLifeTimeHint.WLTH_MEDIUM false
        none).zbd.active_io_zones_ = 1 := by
  obtain ⟨j, z0, h1, h2, _, _, _, _, h7, _⟩ :=
    C11_AllocateZone_empty_zone (deviceThreeEmpty 11) WriteLifeTimeHint.WLTH_MEDIUM false none
      (by decide) (by decide)
  exact ⟨j, z0, h1, h2, by rw [h7]; rfl⟩

/-! ## AllocateZone on a pool without reclaimable zones and without
best-fit candidates -/

/-- The reclaim loop leaves alone every zone that is open for write or
    empty. -/
theorem reclaimLoop_quiet (ft : Nat) (is_wal : Bool) :
    ∀ (zs : List Zone) (i : Nat),
      (∀ z ∈ zs, z.open_for_write_ = true ∨ z.IsEmpty = true) →
      reclaimLoop ft is_wal zs i = (zs, []) := by
  intro zs
  induction zs with
  | nil =>
    intro i _
    rfl
  | cons z rest ih =>
    intro i h
    have hz : reclaimZone ft is_wal i z = (z, []) := by
      unfold reclaimZone
      rcases h z (List.mem_cons_self _ _) with ho | he
      · simp [ho]
      · simp [he]
    rw [reclaimLoop, hz, ih (i + 1) (fun z hz => h z (List.mem_cons_of_mem _ hz))]
    rfl

/-- The best-fit loop leaves its locals alone when no zone is a candidate. -/
theorem bestFitLoop_quiet (fl : WriteLifeTimeHint) :
    ∀ (zs : List Zone) (i : Nat) (a0 : Option Nat) (b0 : Nat),
      (∀ z ∈ zs, z.fitCandidate = false) →
      bestFitLoop fl zs i a0 b0 = (a0, b0) := by
  intro zs
  induction zs with
  | nil =>
    intro i a0 b0 _
    rfl
  | cons z rest ih =>
    intro i a0 b0 h
    rw [bestFitLoop_cons_skip fl z rest i a0 b0 (Or.inl (h z (List.mem_cons_self _ _)))]
    exact ih (i + 1) a0 b0 (fun z hz => h z (List.mem_cons_of_mem _ hz))

/-- On a pool in which every zone is open for write or empty and none is a
    best-fit candidate, a pass of `AllocateZone` is its empty-zone part. -/
theorem AllocateZonePass_quiet (d : ZonedBlockDevice) (fl : WriteLifeTimeHint) (is_wal : Bool)
    (a0 : Option Nat)
    (hq : ∀ z ∈ d.io_zones_, z.open_for_write_ = true ∨ z.IsEmpty = true)
    (hc : ∀ z ∈ d.io_zones_, z.fitCandidate = false) :
    d.AllocateZonePass fl is_wal a0 = d.emptyPass fl is_wal a0 := by
  have hrec : d.reclaimPass is_wal = d := by
    unfold ZonedBlockDevice.reclaimPass
    rw [reclaimLoop_quiet d.finish_threshold_ is_wal d.io_zones_ 0 hq]
    simp
  unfold ZonedBlockDevice.AllocateZonePass
  rw [hrec]
  unfold ZonedBlockDevice.bestFitPass
  rw [bestFitLoop_quiet fl d.io_zones_ 0 a0 LIFETIME_DIFF_NOT_GOOD hc]
  cases a0 with
  | none => rfl
  | some j => simp [LIFETIME_DIFF_NOT_GOOD]

/-- On such a pool, when `active_io_zones_` is not below the bound of the
    request, `AllocateZone` obtains no zone however many passes it makes. -/
theorem AllocateZone_blocked (d : ZonedBlockDevice) (fl : WriteLifeTimeHint) (is_wal : Bool)
    (hq : ∀ z ∈ d.io_zones_, z.open_for_write_ = true ∨ z.IsEmpty = true)
    (hc : ∀ z ∈ d.io_zones_, z.fitCandidate = false)
    (hact : ¬ d.active_io_zones_ < d.activeBound is_wal) :
    ∀ (fuel : Nat) (a0 : Option Nat),
      ZonedBlockDevice.AllocateZoneLoop fl is_wal fuel d a0 = none := by
  intro fuel
  induction fuel with
  | zero =>
    intro a0
    rfl
  | succ n ih =>
    intro a0
    have hp : d.AllocateZonePass fl is_wal a0
        = { zbd := d, allocated_zone := a0, retry := true, new_zone := 0 } := by
      rw [AllocateZonePass_quiet d fl is_wal a0 hq hc]
      simp only [ZonedBlockDevice.emptyPass, hact, if_false]
    rw [ZonedBlockDevice.AllocateZoneLoop, hp]
    exact ih a0

/-- On such a pool, when `active_io_zones_` is below the bound of the request
    and the first zone that is empty, not open for write and not in
    background processing is at position `j`, `AllocateZone` returns that
    zone in its first pass. -/
theorem AllocateZone_takes_empty (d : ZonedBlockDevice) (fl : WriteLifeTimeHint) (is_wal : Bool)
    (j : Nat) (z : Zone)
    (hq : ∀ z ∈ d.io_zones_, z.open_for_write_ = true ∨ z.IsEmpty = true)
    (hc : ∀ z ∈ d.io_zones_, z.fitCandidate = false)
    (hact : d.active_io_zones_ < d.activeBound is_wal)
    (hloop : emptyLoop d.io_zones_ 0 = some j) (hj : d.io_zones_[j]? = some z) :
    ∀ fuel : Nat, d.AllocateZone fl is_wal (fuel + 1)
      = some ({ d.setIOZone j { z with open_for_write_ := true, lifetime_ := fl } with
                active_io_zones_ := d.active_io_zones_ + 1
                open_io_zones_ := d.open_io_zones_ + 1 }, some j) := by
  intro fuel
  have hnot : ¬ (d.setIOZone j { z with open_for_write_ := true, lifetime_ := fl }).active_io_zones_
      ≥ (d.setIOZone j { z with open_for_write_ := true, lifetime_ := fl }).activeBound is_wal :=
    not_le.mpr hact
  have hp : d.AllocateZonePass fl is_wal none
      = { zbd :=
            { d.setIOZone j { z with open_for_write_ := true, lifetime_ := fl } with
              active_io_zones_ := d.active_io_zones_ + 1
              open_io_zones_ := d.open_io_zones_ + 1 }
          allocated_zone := some j, retry := false, new_zone := 1 } := by
    rw [AllocateZonePass_quiet d fl is_wal none hq hc]
    simp only [ZonedBlockDevice.emptyPass, hact, if_true, hloop, hj, hnot, if_false]
    rfl
  rw [ZonedBlockDevice.AllocateZone, ZonedBlockDevice.AllocateZoneLoop, hp]
  rfl

/-- C12 (counterexample): with `max_nr_active_io_zones_ = 2`, no active io
    zone and three empty io zones without live data, the first
    `AllocateZone(Medium, false)` obtains the zone at position 0, and the
    second `AllocateZone(Medium, false)`, with no `CloseWR` in between,
    obtains no zone however many passes it makes. -/
theorem C12_counterexample :
    (deviceThreeEmpty 2).AllocateZone WriteLifeTimeHint.WLTH_MEDIUM false 1
      = some (deviceFirstTaken 2, some 0) ∧
    ∀ fuel : Nat,
      (deviceFirstTaken 2).AllocateZone WriteLifeTimeHint.WLTH_MEDIUM false fuel = none := by
  refine ⟨by decide, ?_⟩
  intro fuel
  exact AllocateZone_blocked (deviceFirstTaken 2) WriteLifeTimeHint.WLTH_MEDIUM false
    (by decide) (by decide) (by decide) fuel none

/-- C12 (amended): on a device with no active io zone whose io pool is made of
    at least two zones, all empty, without live data, not open for write and
    not in background processing: with `max_nr_active_io_zones_ = 2` the first
    `AllocateZone` that is not for a WAL file obtains the zone at position 0,
    after which (with no `CloseWR` in between) a second `AllocateZone` that is
    not for a WAL file obtains no zone however many passes it makes, while one
    for a WAL file obtains the zone at position 1; with
    `max_nr_active_io_zones_ = 3` two successive `AllocateZone` calls that are
    not for a WAL file obtain the zones at positions 0 and 1, after which a
    third obtains no zone however many passes it makes. -/
theorem C12_AllocateZone_reserved_slot (d : ZonedBlockDevice) (z0 z1 : Zone)
    (rest : List Zone) (fl : WriteLifeTimeHint)
    (hio : d.io_zones_ = z0 :: z1 :: rest)
    (hpool : ∀ z ∈ d.io_zones_, z.wp_ = z.start_ ∧ z.used_capacity_ = 0 ∧
      z.open_for_write_ = false ∧ z.bg_processing_ = false)
    (hact : d.active_io_zones_ = 0) :
    (d.max_nr_active_io_zones_ = 2 →
      ∃ d1 : ZonedBlockDevice,
        (∀ fuel : Nat, d.AllocateZone fl false (fuel + 1) = some (d1, some 0)) ∧
        d1.active_io_zones_ = 1 ∧
        (∀ (fl2 : WriteLifeTimeHint) (fuel : Nat), d1.AllocateZone fl2 false fuel = none) ∧
        (∀ (fl2 : WriteLifeTimeHint) (fuel : Nat),
          ∃ d2 : ZonedBlockDevice, d1.AllocateZone fl2 true (fuel + 1) = some (d2, some 1))) ∧
    (d.max_nr_active_io_zones_ = 3 →
      ∃ d1 : ZonedBlockDevice,
        (∀ fuel : Nat, d.AllocateZone fl false (fuel + 1) = some (d1, some 0)) ∧
        ∀ fl2 : WriteLifeTimeHint, ∃ d2 : ZonedBlockDevice,
          (∀ fuel : Nat, d1.AllocateZone fl2 false (fuel + 1) = some (d2, some 1)) ∧
          d2.active_io_zones_ = 2 ∧
          ∀ (fl3 : WriteLifeTimeHint) (fuel : Nat), d2.AllocateZone fl3 false fuel = none) := by
  have hz0 := hpool z0 (by rw [hio]; simp)
  have hz1 := hpool z1 (by rw [hio]; simp)
  have hrest : ∀ z ∈ rest, z.wp_ = z.start_ ∧ z.used_capacity_ = 0 ∧
      z.open_for_write_ = false ∧ z.bg_processing_ = false :=
    fun z hz => hpool z (by rw [hio]; simp [hz])
  -- the pool before the first call
  have hq : ∀ z ∈ d.io_zones_, z.open_for_write_ = true ∨ z.IsEmpty = true :=
    fun z hz => Or.inr (by simp [Zone.IsEmpty, (hpool z hz).1])
  have hc : ∀ z ∈ d.io_zones_, z.fitCandidate = false :=
    fun z hz => by simp [Zone.fitCandidate, (hpool z hz).2.1]
  have hloop : emptyLoop d.io_zones_ 0 = some 0 := by
    rw [hio]
    simp [emptyLoop, hz0.2.2.2, hz0.2.2.1, Zone.IsEmpty, hz0.1]
  have hj : d.io_zones_[0]? = some z0 := by rw [hio]; rfl
  -- the pool after the first call
  have hio1 : ∀ (a o : Int),
      ({ d.setIOZone 0 { z0 with open_for_write_ := true, lifetime_ := fl } with
          active_io_zones_ := a, open_io_zones_ := o } : ZonedBlockDevice).io_zones_
        = { z0 with open_for_write_ := true, lifetime_ := fl } :: z1 :: rest := by
    intro a o
    show d.io_zones_.set 0 _ = _
    rw [hio]
    rfl
  have hq1 : ∀ z ∈ ({ z0 with open_for_write_ := true, lifetime_ := fl } : Zone) :: z1 :: rest,
      z.open_for_write_ = true ∨ z.IsEmpty = true := by
    intro z hz
    rcases List.mem_cons.mp hz with h | h
    · exact Or.inl (by rw [h])
    · exact Or.inr (by
        rcases List.mem_cons.mp h with h | h
        · simp [Zone.IsEmpty, h, hz1.1]
        · simp [Zone.IsEmpty, (hrest z h).1])
  have hc1 : ∀ z ∈ ({ z0 with open_for_write_ := true, lifetime_ := fl } : Zone) :: z1 :: rest,
      z.fitCandidate = false := by
    intro z hz
    rcases List.mem_cons.mp hz with h | h
    · simp [Zone.fitCandidate, h]
    · rcases List.mem_cons.mp h with h | h
      · simp [Zone.fitCandidate, h, hz1.2.1]
      · simp [Zone.fitCandidate, (hrest z h).2.1]
  have hloop1 : emptyLoop
      (({ z0 with open_for_write_ := true, lifetime_ := fl } : Zone) :: z1 :: rest) 0
        = some 1 := by
    simp [emptyLoop, hz0.2.2.2, hz1.2.2.2, hz1.2.2.1, Zone.IsEmpty, hz1.1]
  constructor
  · intro hmax
    have hb : d.activeBound false = 1 := by
      unfold ZonedBlockDevice.activeBound
      rw [hmax]
      decide
    have hbw : d.activeBound true = 2 := by
      unfold ZonedBlockDevice.activeBound
      rw [hmax]
      decide
    refine ⟨_, AllocateZone_takes_empty d fl false 0 z0 hq hc (by rw [hact, hb]; decide)
      hloop hj, ?_, ?_, ?_⟩
    · show d.active_io_zones_ + 1 = 1
      rw [hact]
      rfl
    · intro fl2 fuel
      refine AllocateZone_blocked _ fl2 false ?_ ?_ ?_ fuel none
      · rw [hio1]; exact hq1
      · rw [hio1]; exact hc1
      · show ¬ d.active_io_zones_ + 1 < d.activeBound false
        rw [hact, hb]
        decide
    · intro fl2 fuel
      refine ⟨_, AllocateZone_takes_empty _ fl2 true 1 z1 ?_ ?_ ?_ ?_ ?_ fuel⟩
      · rw [hio1]; exact hq1
      · rw [hio1]; exact hc1
      · show d.active_io_zones_ + 1 < d.activeBound true
        rw [hact, hbw]
        decide
      · rw [hio1]; exact hloop1
      · rw [hio1]; simp
  · intro hmax
    have hb : d.activeBound false = 2 := by
      unfold ZonedBlockDevice.activeBound
      rw [hmax]
      decide
    refine ⟨_, AllocateZone_takes_empty d fl false 0 z0 hq hc (by rw [hact, hb]; decide)
      hloop hj, ?_⟩
    intro fl2
    refine ⟨_, AllocateZone_takes_empty _ fl2 false 1 z1 ?_ ?_ ?_ ?_ ?_, ?_, ?_⟩
    · rw [hio1]; exact hq1
    · rw [hio1]; exact hc1
    · show d.active_io_zones_ + 1 < d.activeBound false
      rw [hact, hb]
      decide
    · rw [hio1]; exact hloop1
    · rw [hio1]; simp
    · show d.active_io_zones_ + 1 + 1 = 2
      rw [hact]
      rfl
    · intro fl3 fuel
      have hio2 : ∀ z ∈ (({ d.setIOZone 0 { z0 with open_for_write_ := true, lifetime_ := fl } with
            active_io_zones_ := d.active_io_zones_ + 1
            open_io_zones_ := d.open_io_zones_ + 1 } : ZonedBlockDevice).setIOZone 1
            { z1 with open_for_write_ := true, lifetime_ := fl2 }).io_zones_,
          z = { z0 with open_for_write_ := true, lifetime_ := fl } ∨
          z = { z1 with open_for_write_ := true, lifetime_ := fl2 } ∨ z ∈ rest := by
        intro z hz
        have hz' : z ∈ (d.io_zones_.set 0
            { z0 with open_for_write_ := true, lifetime_ := fl }).set 1
            { z1 with open_for_write_ := true, lifetime_ := fl2 } := hz
        rw [hio] at hz'
        simpa using hz'
      refine AllocateZone_blocked _ fl3 false ?_ ?_ ?_ fuel none
      · intro z hz
        rcases hio2 z hz with h | h | h
        · exact Or.inl (by rw [h])
        · exact Or.inl (by rw [h])
        · exact Or.inr (by simp [Zone.IsEmpty, (hrest z h).1])
      · intro z hz
        rcases hio2 z hz with h | h | h
        · simp [Zone.fitCandidate, h]
        · simp [Zone.fitCandidate, h]
        · simp [Zone.fitCandidate, (hrest z h).2.1]
      · show ¬ d.active_io_zones_ + 1 + 1 < d.activeBound false
        rw [hact, hb]
        decide

/-- Witness of C12 (amended): the device with three empty io zones and
    `max_nr_active_io_zones_ = 2`. -/
theorem C12_AllocateZone_reserved_slot_witness :
    ∃ d1 : ZonedBlockDevice,
      (∀ fuel : Nat, (deviceThreeEmpty 2).AllocateZone WriteLifeTimeHint.WLTH_MEDIUM false
        (fuel + 1) = some (d1, some 0)) ∧
      ∀ (fl2 : WriteLifeTimeHint) (fuel : Nat), d1.AllocateZone fl2 false fuel = none := by
  obtain ⟨d1, h1, _, h3, _⟩ :=
    (C12_AllocateZone_reserved_slot (deviceThreeEmpty 2) (emptyZone 0 67108864)
      (emptyZone 67108864 67108864) [emptyZone 134217728 67108864]
      WriteLifeTimeHint.WLTH_MEDIUM rfl (by decide) rfl).1 rfl
  exact ⟨d1, h1, h3⟩

/-! ## Ownership bookkeeping on the flags of the io zones -/

/-- `Finish` leaves the ownership flags alone. -/
theorem Finish_flags (z : Zone) (zone_sz : Nat) (finish_ret : Int) :
    (z.Finish zone_sz finish_ret).zone.flags = z.flags := by
  unfold Zone.Finish
  simp only [Zone.flags]
  split_ifs <;> rfl

/-- A job that the reclaim loop submits for the zone at position `i` is a job
    on zone `i`. -/
theorem reclaimZone_job_zone (ft : Nat) (is_wal : Bool) (i : Nat) (z : Zone) (job : BgJob)
    (h : job ∈ (reclaimZone ft is_wal i z).2) : job.zone = i := by
  rcases reclaimZone_cases ft is_wal i z with
    hc | ⟨_, _, _, _, hc⟩ | ⟨_, _, _, _, _, _, _, hc⟩
  · rw [hc] at h
    simp at h
  · rw [hc] at h
    simp only [List.mem_singleton] at h
    rw [h]
    rfl
  · rw [hc] at h
    simp only [List.mem_singleton] at h
    rw [h]
    rfl

/-- What `CloseWR` does to the flags of its zone and to the device: the pools,
    the queue and the limits are untouched; either `open_for_write_` is
    cleared and `open_io_zones_` decremented, or the flags and
    `open_io_zones_` stay; `active_io_zones_` does not grow. -/
theorem CloseWR_effect (z : Zone) (zbd : ZonedBlockDevice) (ev : AioCompletion)
    (close_ret : Int) :
    (z.CloseWR zbd ev close_ret).zbd.io_zones_ = zbd.io_zones_ ∧
    (z.CloseWR zbd ev close_ret).zbd.data_worker_jobs = zbd.data_worker_jobs ∧
    (z.CloseWR zbd ev close_ret).zbd.max_nr_active_io_zones_ = zbd.max_nr_active_io_zones_ ∧
    (z.CloseWR zbd ev close_ret).zbd.max_nr_open_io_zones_ = zbd.max_nr_open_io_zones_ ∧
    (z.CloseWR zbd ev close_ret).zbd.active_io_zones_ ≤ zbd.active_io_zones_ ∧
    (((z.CloseWR zbd ev close_ret).zone.flags = (false, z.bg_processing_) ∧
        (z.CloseWR zbd ev close_ret).zbd.open_io_zones_ = zbd.open_io_zones_ - 1) ∨
      ((z.CloseWR zbd ev close_ret).zone.flags = z.flags ∧
        (z.CloseWR zbd ev close_ret).zbd.open_io_zones_ = zbd.open_io_zones_)) := by
  have hf := Sync_zone_fields z ev
  unfold Zone.CloseWR Zone.Close
  simp only [ZonedBlockDevice.NotifyIOZoneClosed, ZonedBlockDevice.NotifyIOZoneFull, Zone.flags]
  split_ifs <;> simp_all [IOStatus.ok]

/-- What a reset job does to the device, apart from its zone: its zone gets
    both flags cleared, the queue, the counter of open io zones and the
    limits are untouched, and `active_io_zones_` does not grow. -/
theorem runResetJob_effect (d : ZonedBlockDevice) (j : Nat) (a : ResetAnswer) :
    (d.runResetJob j a).data_worker_jobs = d.data_worker_jobs ∧
    (d.runResetJob j a).open_io_zones_ = d.open_io_zones_ ∧
    (d.runResetJob j a).max_nr_active_io_zones_ = d.max_nr_active_io_zones_ ∧
    (d.runResetJob j a).max_nr_open_io_zones_ = d.max_nr_open_io_zones_ ∧
    (d.runResetJob j a).active_io_zones_ ≤ d.active_io_zones_ ∧
    (∀ z : Zone, d.io_zones_[j]? = some z →
      (d.runResetJob j a).flags = d.flags.set j (false, false)) := by
  unfold ZonedBlockDevice.runResetJob
  cases hz : d.io_zones_[j]? with
  | none => simp
  | some z =>
    simp only [ZonedBlockDevice.setIOZone, ZonedBlockDevice.flags]
    split_ifs <;> simp [Zone.flags]

/-- What a finish job does to the device, apart from its zone: its zone gets
    both flags cleared, the queue, the counter of open io zones and the
    limits are untouched, and `active_io_zones_` does not grow. -/
theorem runFinishJob_effect (d : ZonedBlockDevice) (j : Nat) (finish_ret : Int) :
    (d.runFinishJob j finish_ret).data_worker_jobs = d.data_worker_jobs ∧
    (d.runFinishJob j finish_ret).open_io_zones_ = d.open_io_zones_ ∧
    (d.runFinishJob j finish_ret).max_nr_active_io_zones_ = d.max_nr_active_io_zones_ ∧
    (d.runFinishJob j finish_ret).max_nr_open_io_zones_ = d.max_nr_open_io_zones_ ∧
    (d.runFinishJob j finish_ret).active_io_zones_ ≤ d.active_io_zones_ ∧
    (∀ z : Zone, d.io_zones_[j]? = some z →
      (d.runFinishJob j finish_ret).flags = d.flags.set j (false, false)) := by
  unfold ZonedBlockDevice.runFinishJob
  cases hz : d.io_zones_[j]? with
  | none => simp
  | some z =>
    simp [ZonedBlockDevice.setIOZone, ZonedBlockDevice.flags, Zone.flags]

/-- `Append`, `Append_async`, `Sync` and a live-data update on a zone of the
    io pool change neither `active_io_zones_` nor the two limits. -/
theorem zone_ops_counters (d : ZonedBlockDevice) (j : Nat) (size : Nat) (ev : AioCompletion)
    (results : List Int) (submit_ret : Int) (used : Int) :
    ((d.AppendAt j size ev results).active_io_zones_ = d.active_io_zones_ ∧
      (d.AppendAt j size ev results).max_nr_active_io_zones_ = d.max_nr_active_io_zones_ ∧
      (d.AppendAt j size ev results).max_nr_open_io_zones_ = d.max_nr_open_io_zones_) ∧
    ((d.AppendAsyncAt j size ev submit_ret).active_io_zones_ = d.active_io_zones_ ∧
      (d.AppendAsyncAt j size ev submit_ret).max_nr_active_io_zones_
        = d.max_nr_active_io_zones_ ∧
      (d.AppendAsyncAt j size ev submit_ret).max_nr_open_io_zones_
        = d.max_nr_open_io_zones_) ∧
    ((d.SyncAt j ev).active_io_zones_ = d.active_io_zones_ ∧
      (d.SyncAt j ev).max_nr_active_io_zones_ = d.max_nr_active_io_zones_ ∧
      (d.SyncAt j ev).max_nr_open_io_zones_ = d.max_nr_open_io_zones_) ∧
    ((d.setUsedCapacity j used).active_io_zones_ = d.active_io_zones_ ∧
      (d.setUsedCapacity j used).max_nr_active_io_zones_ = d.max_nr_active_io_zones_ ∧
      (d.setUsedCapacity j used).max_nr_open_io_zones_ = d.max_nr_open_io_zones_) := by
  unfold ZonedBlockDevice.AppendAt ZonedBlockDevice.AppendAsyncAt ZonedBlockDevice.SyncAt
    ZonedBlockDevice.setUsedCapacity
  cases d.io_zones_[j]? with
  | none => exact ⟨⟨rfl, rfl, rfl⟩, ⟨rfl, rfl, rfl⟩, ⟨rfl, rfl, rfl⟩, ⟨rfl, rfl, rfl⟩⟩
  | some z =>
    refine ⟨?_, ⟨rfl, rfl, rfl⟩, ⟨rfl, rfl, rfl⟩, ⟨rfl, rfl, rfl⟩⟩
    cases hr : z.Append size ev results with
    | none => simp only [hr, and_self]
    | some r =>
      simp only [hr]
      exact ⟨rfl, rfl, rfl⟩

/-- No operation changes the two limits, and the only operation that
    increments `active_io_zones_` is a pass of `AllocateZone` that takes an
    empty zone, which increments it by one after finding it below the bound
    of the request. -/
theorem step_active (s : Sys) (op : Op) :
    (s.step op).zbd.max_nr_active_io_zones_ = s.zbd.max_nr_active_io_zones_ ∧
    (s.step op).zbd.max_nr_open_io_zones_ = s.zbd.max_nr_open_io_zones_ ∧
    ((s.step op).zbd.active_io_zones_ ≤ s.zbd.active_io_zones_ ∨
      ∃ (fl : WriteLifeTimeHint) (is_wal : Bool) (az : Option Nat),
        op = Op.allocPass fl is_wal az ∧
        (s.zbd.AllocateZonePass fl is_wal az).new_zone = 1 ∧
        s.zbd.active_io_zones_ < s.zbd.activeBound is_wal ∧
        (s.step op).zbd.active_io_zones_ = s.zbd.active_io_zones_ + 1) := by
  cases op with
  | allocPass fl wal az =>
    rcases AllocateZonePass_cases s.zbd fl wal az with
      ⟨_, _, hz⟩ | ⟨j, zj, _, _, hp⟩ | ⟨j, z, _, _, _, _, hact, hp⟩
    · simp only [Sys.step, hz]
      exact ⟨rfl, rfl, Or.inl (le_refl _)⟩
    · simp only [Sys.step, hp]
      exact ⟨rfl, rfl, Or.inl (le_refl _)⟩
    · refine ⟨by simp only [Sys.step, hp]; rfl, by simp only [Sys.step, hp]; rfl,
        Or.inr ⟨fl, wal, az, rfl, by rw [hp], hact, by simp only [Sys.step, hp]⟩⟩
  | append j size ev results =>
    obtain ⟨⟨e1, e2, e3⟩, _⟩ := zone_ops_counters s.zbd j size ev results 0 0
    simp only [Sys.step]
    split_ifs
    · exact ⟨e2, e3, Or.inl (le_of_eq e1)⟩
    · exact ⟨rfl, rfl, Or.inl (le_refl _)⟩
  | appendAsync j size ev submit_ret =>
    obtain ⟨_, ⟨e1, e2, e3⟩, _⟩ := zone_ops_counters s.zbd j size ev [] submit_ret 0
    simp only [Sys.step]
    split_ifs
    · exact ⟨e2, e3, Or.inl (le_of_eq e1)⟩
    · exact ⟨rfl, rfl, Or.inl (le_refl _)⟩
  | sync j ev =>
    obtain ⟨_, _, ⟨e1, e2, e3⟩, _⟩ := zone_ops_counters s.zbd j 0 ev [] 0 0
    simp only [Sys.step]
    split_ifs
    · exact ⟨e2, e3, Or.inl (le_of_eq e1)⟩
    · exact ⟨rfl, rfl, Or.inl (le_refl _)⟩
  | closeWR j ev close_ret =>
    simp only [Sys.step]
    split_ifs
    · unfold ZonedBlockDevice.CloseWRAt
      cases s.zbd.io_zones_[j]? with
      | none => exact ⟨rfl, rfl, Or.inl (le_refl _)⟩
      | some z =>
        obtain ⟨_, _, e3, e4, e5, _⟩ := CloseWR_effect z s.zbd ev close_ret
        exact ⟨e3, e4, Or.inl e5⟩
    · exact ⟨rfl, rfl, Or.inl (le_refl _)⟩
  | resetUnused answers =>
    refine ⟨rfl, rfl, Or.inl ?_⟩
    have h3 := (resetUnusedLoop_spec s.zbd.zone_sz_ answers s.zbd.io_zones_ 0
      s.zbd.active_io_zones_).2.2.1
    show (resetUnusedLoop s.zbd.zone_sz_ answers s.zbd.io_zones_ 0 s.zbd.active_io_zones_).2.1
      ≤ s.zbd.active_io_zones_
    rw [h3]
    omega
  | runJob a =>
    simp only [Sys.step, ZonedBlockDevice.runJob]
    cases hjobs : s.zbd.data_worker_jobs with
    | nil => exact ⟨rfl, rfl, Or.inl (le_refl _)⟩
    | cons job rest =>
      cases job with
      | reset j =>
        obtain ⟨_, _, e3, e4, e5, _⟩ :=
          runResetJob_effect { s.zbd with data_worker_jobs := rest } j a.reset
        exact ⟨e3, e4, Or.inl e5⟩
      | finish j =>
        obtain ⟨_, _, e3, e4, e5, _⟩ :=
          runFinishJob_effect { s.zbd with data_worker_jobs := rest } j a.finish_ret
        exact ⟨e3, e4, Or.inl e5⟩
  | liveData j used =>
    obtain ⟨_, _, _, ⟨e1, e2, e3⟩⟩ := zone_ops_counters s.zbd j 0 ⟨0, 0⟩ [] 0 used
    exact ⟨e2, e3, Or.inl (le_of_eq e1)⟩

/-! ## Claims on the reachable states -/

/-- C18 (code evaluation): `Open` on a device that reports 3 active zones
    sets `max_nr_active_io_zones_ = 0` with `active_io_zones_ = 0`; on that
    device a pass of `AllocateZone` for a WAL file retries, but a pass for a
    file that is not a WAL file returns io zone 0 and leaves
    `active_io_zones_ = 1 > 0`, and two more such passes leave it at 3 (the
    bound `max_nr_active_io_zones_ - reserved_zones` wraps to `2^32 - 1`).
    Every operation other than a pass of `AllocateZone` for a file that is
    not a WAL file preserves `active_io_zones_ <= max_nr_active_io_zones_`
    on every device; and on a device with `max_nr_active_io_zones_` at least
    1 every operation preserves it (a pass of `AllocateZone`, the zone
    operations, `CloseWR`, `ResetUnusedIOZones`, a background reset or finish
    job, a live-data update), so it holds in every state reachable from a
    state in which it holds, and the only operation that increments
    `active_io_zones_` is a pass of `AllocateZone` that takes an empty zone,
    which increments it by exactly one after finding it below the bound of
    the request. -/
theorem C18_active_exceeds_max_zero :
    ((runAfterOpen (openAnswer 3 3 reportSmall) []).map
        (fun s => (s.zbd.active_io_zones_, s.zbd.max_nr_active_io_zones_, s.held,
          (s.zbd.AllocateZonePass WriteLifeTimeHint.WLTH_MEDIUM true none).retry))
      = some (0, 0, [], true) ∧
    (runAfterOpen (openAnswer 3 3 reportSmall)
        [Op.allocPass WriteLifeTimeHint.WLTH_MEDIUM false none]).map
        (fun s => (s.zbd.active_io_zones_, s.zbd.max_nr_active_io_zones_, s.held))
      = some (1, 0, [0]) ∧
    (runAfterOpen (openAnswer 3 3 reportSmall)
        [Op.allocPass WriteLifeTimeHint.WLTH_MEDIUM false none,
         Op.allocPass WriteLifeTimeHint.WLTH_MEDIUM false none,
         Op.allocPass WriteLifeTimeHint.WLTH_MEDIUM false none]).map
        (fun s => (s.zbd.active_io_zones_, s.zbd.max_nr_active_io_zones_, s.held))
      = some (3, 0, [2, 1, 0])) ∧
    (∀ (s0 : Sys) (op : Op),
      s0.zbd.active_io_zones_ ≤ (s0.zbd.max_nr_active_io_zones_ : Int) →
      (∀ (fl : WriteLifeTimeHint) (az : Option Nat), op ≠ Op.allocPass fl false az) →
      (s0.step op).zbd.active_io_zones_ ≤ ((s0.step op).zbd.max_nr_active_io_zones_ : Int)) ∧
    (∀ s0 : Sys, 1 ≤ s0.zbd.max_nr_active_io_zones_ →
    s0.zbd.active_io_zones_ ≤ (s0.zbd.max_nr_active_io_zones_ : Int) →
    (∀ op : Op,
      (s0.step op).zbd.active_io_zones_ ≤ ((s0.step op).zbd.max_nr_active_io_zones_ : Int)) ∧
    (∀ s : Sys, Reachable s0 s →
      s.zbd.active_io_zones_ ≤ (s.zbd.max_nr_active_io_zones_ : Int) ∧
      s.zbd.max_nr_active_io_zones_ = s0.zbd.max_nr_active_io_zones_) ∧
    (∀ op : Op, s0.zbd.active_io_zones_ < (s0.step op).zbd.active_io_zones_ →
      ∃ (fl : WriteLifeTimeHint) (is_wal : Bool) (az : Option Nat),
        op = Op.allocPass fl is_wal az ∧
        (s0.zbd.AllocateZonePass fl is_wal az).new_zone = 1 ∧
        s0.zbd.active_io_zones_ < s0.zbd.activeBound is_wal ∧
        (s0.step op).zbd.active_io_zones_ = s0.zbd.active_io_zones_ + 1)) := by
  refine ⟨⟨by decide, by decide, by decide⟩, ?_, ?_⟩
  · intro s op hle hop
    obtain ⟨e1, _, e3⟩ := step_active s op
    rw [e1]
    rcases e3 with hdec | ⟨fl, is_wal, az, hopeq, _, hlt, hinc⟩
    · exact le_trans hdec hle
    · rw [hinc]
      cases is_wal with
      | true =>
        have := activeBound_wal s.zbd
        omega
      | false => exact absurd hopeq (hop fl az)
  intro s0 hmax h0
  have hstep : ∀ (s : Sys) (op : Op), 1 ≤ s.zbd.max_nr_active_io_zones_ →
      s.zbd.active_io_zones_ ≤ (s.zbd.max_nr_active_io_zones_ : Int) →
      (s.step op).zbd.active_io_zones_ ≤ ((s.step op).zbd.max_nr_active_io_zones_ : Int) := by
    intro s op hm hle
    obtain ⟨e1, _, e3⟩ := step_active s op
    rw [e1]
    rcases e3 with hdec | ⟨fl, is_wal, az, _, _, hlt, hinc⟩
    · exact le_trans hdec hle
    · rw [hinc]
      cases is_wal with
      | true =>
        have := activeBound_wal s.zbd
        omega
      | false =>
        have := activeBound_not_wal s.zbd hm
        omega
  have hrun : ∀ (ops : List Op) (s : Sys), 1 ≤ s.zbd.max_nr_active_io_zones_ →
      s.zbd.active_io_zones_ ≤ (s.zbd.max_nr_active_io_zones_ : Int) →
      (s.run ops).zbd.active_io_zones_ ≤ ((s.run ops).zbd.max_nr_active_io_zones_ : Int) ∧
      (s.run ops).zbd.max_nr_active_io_zones_ = s.zbd.max_nr_active_io_zones_ := by
    intro ops
    induction ops with
    | nil =>
      intro s _ hle
      exact ⟨hle, rfl⟩
    | cons op rest ih =>
      intro s hm hle
      have e1 := (step_active s op).1
      have := ih (s.step op) (by rw [e1]; exact hm) (hstep s op hm hle)
      exact ⟨this.1, by rw [← e1]; exact this.2⟩
  refine ⟨fun op => hstep s0 op hmax h0, ?_, ?_⟩
  · intro s hreach
    obtain ⟨ops, hops⟩ := hreach
    rw [← hops]
    exact hrun ops s0 hmax h0
  · intro op hgt
    rcases (step_active s0 op).2.2 with hdec | hinc
    · exact absurd hgt (not_lt.mpr hdec)
    · exact hinc

/-- Witness of C18: the general part on the device with three empty io zones
    and room for 11 active io zones: the state reached by a run keeps
    `active_io_zones_ <= 11`. -/
theorem C18_active_exceeds_max_zero_witness :
    (({ zbd := deviceThreeEmpty 11, held := [] } : Sys).run runAllocWriteClose
      ).zbd.active_io_zones_ ≤ 11 := by
  have h := ((C18_active_exceeds_max_zero.2.2 { zbd := deviceThreeEmpty 11, held := [] }
    (by decide) (by decide)).2.1 _ ⟨runAllocWriteClose, rfl⟩)
  rw [h.2] at h
  exact h.1

/-- C21 (code evaluation): on a freshly opened device with three empty io
    zones, after `AllocateZone` returned a zone and `CloseWR` gave it back
    with no byte written, no zone is held, no background job is queued,
    `active_io_zones_` is 1 and no io zone is partially written; after the
    same two steps once more `active_io_zones_` is 2; and the same holds when
    the zone is closed after an `Append` whose first `pwrite` failed.  In
    general `CloseWR` of a zone that is empty and not full leaves
    `active_io_zones_` as it was and the zone empty, and the first loop of a
    later pass of `AllocateZone` leaves an empty zone alone and submits no job
    for it. -/
theorem C21_active_count_after_empty_close :
    (runAfterOpen (openAnswer 14 14 reportSmall) runAllocClose).map Sys.activeView
        = some ([], [], 1, 0) ∧
    (runAfterOpen (openAnswer 14 14 reportSmall) (runAllocClose ++ runAllocClose)).map
        Sys.activeView = some ([], [], 2, 0) ∧
    (runAfterOpen (openAnswer 14 14 reportSmall) runAllocFailedWriteClose).map Sys.activeView
        = some ([], [], 1, 0) ∧
    (∀ (z : Zone) (zbd : ZonedBlockDevice) (ev : AioCompletion) (close_ret : Int),
      z.IsEmpty = true → z.IsFull = false →
      (z.CloseWR zbd ev close_ret).zbd.active_io_zones_ = zbd.active_io_zones_ ∧
      (z.CloseWR zbd ev close_ret).zone.IsEmpty = true ∧
      (z.CloseWR zbd ev close_ret).zone.IsFull = false ∧
      (z.CloseWR zbd ev close_ret).zone.open_for_write_ = false) ∧
    (∀ (ft : Nat) (is_wal : Bool) (i : Nat) (z : Zone),
      z.IsEmpty = true → reclaimZone ft is_wal i z = (z, [])) := by
  refine ⟨by decide, by decide, by decide, ?_, ?_⟩
  · intro z zbd ev close_ret he hf
    have hs := Sync_zone_fields z ev
    have he2 : (z.Sync ev).zone.IsEmpty = true := by
      simp only [Zone.IsEmpty, hs.1, hs.2.2.1] at he ⊢
      exact he
    have hf2 : (z.Sync ev).zone.capacity_ ≠ 0 := by
      rw [hs.2.1]
      simpa [Zone.IsFull] using hf
    have hc : (z.Sync ev).zone.Close zbd.zone_sz_ close_ret
        = { status := IOStatus.OK, zone := { (z.Sync ev).zone with open_for_write_ := false }
            calls := [] } := by
      unfold Zone.Close
      simp [he2]
    unfold Zone.CloseWR
    simp only [hc, IOStatus.ok, if_true, if_neg hf2, ZonedBlockDevice.NotifyIOZoneClosed]
    refine ⟨trivial, ?_, ?_, trivial⟩
    · simpa [Zone.IsEmpty] using he2
    · simpa [Zone.IsFull] using hf2
  · intro ft is_wal i z he
    unfold reclaimZone
    simp [he]

/-! ## The zones that the first loop of AllocateZone hands to the background -/

/-- The job submitted for the zone at position `j` is found by running the
    body of the loop on that zone. -/
theorem reclaimJobs_mem (d : ZonedBlockDevice) (is_wal : Bool) (job : BgJob) :
    job ∈ d.reclaimJobs is_wal ↔
      ∃ z : Zone, d.io_zones_[job.zone]? = some z ∧
        job ∈ (reclaimZone d.finish_threshold_ is_wal job.zone z).2 := by
  unfold ZonedBlockDevice.reclaimJobs
  rw [(reclaimLoop_spec d.finish_threshold_ is_wal d.io_zones_ 0).2.2.1 job]
  constructor
  · rintro ⟨k, z, hk, hjob⟩
    have hz := reclaimZone_job_zone d.finish_threshold_ is_wal (0 + k) z job hjob
    rw [Nat.zero_add] at hz hjob
    rw [hz]
    exact ⟨z, hk, hjob⟩
  · rintro ⟨z, hk, hjob⟩
    exact ⟨job.zone, z, hk, by rw [Nat.zero_add]; exact hjob⟩

/-- C22: in a pass of `AllocateZone` on a device whose zones have no negative
    `used_capacity_`, the first loop appends its jobs to the queue of
    `data_worker_`; every job is for a zone of the io pool; a zone for which a
    reset job is submitted is not empty, has `used_capacity_ = 0` and was
    neither open for write nor in background processing; a zone for which a
    finish job is submitted has `used_capacity_ > 0`, is neither empty nor
    full, was neither open for write nor in background processing, the request
    is not for a WAL file and `capacity_ < max_capacity_ * finish_threshold_ /
    100` (in `uint64_t` arithmetic, which is the plain product when that is
    below `2^64`); and a zone for which no job is submitted is left as it
    was. -/
theorem C22_reclaim_targets (d : ZonedBlockDevice) (is_wal : Bool)
    (hused : ∀ z ∈ d.io_zones_, 0 ≤ z.used_capacity_) :
    (d.reclaimPass is_wal).data_worker_jobs = d.data_worker_jobs ++ d.reclaimJobs is_wal ∧
    (∀ job ∈ d.reclaimJobs is_wal, ∃ z : Zone, d.io_zones_[job.zone]? = some z) ∧
    (∀ (j : Nat) (z : Zone), d.io_zones_[j]? = some z →
      (BgJob.reset j ∈ d.reclaimJobs is_wal →
        z.IsEmpty = false ∧ z.used_capacity_ = 0 ∧ z.open_for_write_ = false ∧
          z.bg_processing_ = false) ∧
      (BgJob.finish j ∈ d.reclaimJobs is_wal →
        0 < z.used_capacity_ ∧ z.IsEmpty = false ∧ z.IsFull = false ∧
          z.open_for_write_ = false ∧ z.bg_processing_ = false ∧ is_wal = false ∧
          z.capacity_ < (z.max_capacity_ * d.finish_threshold_ % U64) / 100 ∧
          (z.max_capacity_ * d.finish_threshold_ < U64 →
            z.capacity_ < z.max_capacity_ * d.finish_threshold_ / 100)) ∧
      (BgJob.reset j ∉ d.reclaimJobs is_wal → BgJob.finish j ∉ d.reclaimJobs is_wal →
        (d.reclaimPass is_wal).io_zones_[j]? = some z)) := by
  refine ⟨rfl, ?_, ?_⟩
  · intro job hjob
    obtain ⟨z, hz, _⟩ := (reclaimJobs_mem d is_wal job).mp hjob
    exact ⟨z, hz⟩
  · intro j z hz
    have hcases := reclaimZone_cases d.finish_threshold_ is_wal j z
    have hmem : ∀ job : BgJob, job.zone = j →
        (job ∈ d.reclaimJobs is_wal ↔
          job ∈ (reclaimZone d.finish_threshold_ is_wal j z).2) := by
      intro job hj
      rw [reclaimJobs_mem d is_wal job, hj]
      constructor
      · rintro ⟨z1, hz1, hjob⟩
        rw [hz, Option.some.injEq] at hz1
        rw [hz1]
        exact hjob
      · intro hjob
        exact ⟨z, hz, hjob⟩
    have hafter : (d.reclaimPass is_wal).io_zones_[j]?
        = some (reclaimZone d.finish_threshold_ is_wal j z).1 := by
      have := (reclaimLoop_spec d.finish_threshold_ is_wal d.io_zones_ 0).2.1 j z hz
      rw [Nat.zero_add] at this
      exact this
    have hnn : 0 ≤ z.used_capacity_ := hused z (List.getElem?_mem hz)
    refine ⟨?_, ?_, ?_⟩
    · intro hjob
      rw [hmem (BgJob.reset j) rfl] at hjob
      rcases hcases with h | ⟨ho, hb, he, hu, _⟩ | ⟨_, _, _, _, _, _, _, h⟩
      · rw [h] at hjob
        exact absurd hjob (List.not_mem_nil _)
      · exact ⟨he, le_antisymm hu hnn, ho, hb⟩
      · rw [h] at hjob
        simp at hjob
    · intro hjob
      rw [hmem (BgJob.finish j) rfl] at hjob
      rcases hcases with h | ⟨_, _, _, _, h⟩ | ⟨ho, hb, he, hf, hu, hw, hc, _⟩
      · rw [h] at hjob
        exact absurd hjob (List.not_mem_nil _)
      · rw [h] at hjob
        simp at hjob
      · refine ⟨hu, he, hf, ho, hb, hw, hc, ?_⟩
        intro hlt
        rw [Nat.mod_eq_of_lt hlt] at hc
        exact hc
    · intro hr hf
      rw [hmem (BgJob.reset j) rfl] at hr
      rw [hmem (BgJob.finish j) rfl] at hf
      rw [hafter]
      rcases hcases with h | ⟨_, _, _, _, h⟩ | ⟨_, _, _, _, _, _, _, h⟩
      · rw [h]
      · rw [h] at hr
        simp at hr
      · rw [h] at hf
        simp at hf

/-- Witness of C22: on a device whose io pool is a partially written zone
    without live data, a partially written zone with live data under the
    finish threshold, an empty zone and a held zone, the first loop of a pass
    for a file that is not a WAL file submits a reset of the first and a
    finish of the second, and leaves the other two as they were. -/
theorem C22_reclaim_targets_witness :
    deviceMixed.reclaimJobs false = [BgJob.reset 0, BgJob.finish 1] ∧
    (deviceMixed.reclaimPass false).io_zones_[2]? = deviceMixed.io_zones_[2]? ∧
    (deviceMixed.reclaimPass false).io_zones_[3]? = deviceMixed.io_zones_[3]? ∧
    (({ heldWrittenZone with open_for_write_ := false } : Zone).IsEmpty = false ∧
      ({ heldWrittenZone with open_for_write_ := false } : Zone).used_capacity_ = 0 ∧
      ({ heldWrittenZone with open_for_write_ := false } : Zone).open_for_write_ = false ∧
      ({ heldWrittenZone with open_for_write_ := false } : Zone).bg_processing_ = false) := by
  have h := C22_reclaim_targets deviceMixed false (by decide)
  have hj : deviceMixed.reclaimJobs false = [BgJob.reset 0, BgJob.finish 1] := by decide
  refine ⟨hj, ?_, ?_, ?_⟩
  · exact (h.2.2 2 _ rfl).2.2 (by rw [hj]; decide) (by rw [hj]; decide)
  · exact (h.2.2 3 _ rfl).2.2 (by rw [hj]; decide) (by rw [hj]; decide)
  · exact (h.2.2 0 _ rfl).1 (by rw [hj]; decide)

/-! ## The capacity bookkeeping of a zone -/

/-- The capacity bookkeeping in terms of the fields. -/
theorem capacityOk_iff (z : Zone) :
    z.capacityOk ↔
      (z.capacity_ ≠ 0 →
        z.capacity_ = z.max_capacity_ - (z.wp_ - z.start_) ∧ z.start_ ≤ z.wp_ ∧
          z.wp_ ≤ z.start_ + z.max_capacity_) := by
  unfold Zone.capacityOk Zone.IsFull
  simp only [decide_eq_false_iff_not]

/-- The value of `U64`. -/
theorem U64_eq : U64 = 18446744073709551616 := by
  decide

/-- The constructor establishes the capacity bookkeeping from a report entry
    whose write pointer lies within the zone, and gives capacity 0 to a zone
    reported Full, Offline or ReadOnly. -/
theorem capacityOk_mk_from_report (z : zbd_zone) (h1 : z.start ≤ z.wp)
    (h2 : z.wp ≤ z.start + z.capacity) (h3 : z.start + z.capacity < U64) :
    (Zone.mk_from_report z).capacityOk ∧
    (z.cond = ZoneCond.Full ∨ z.cond = ZoneCond.Offline ∨ z.cond = ZoneCond.ReadOnly →
      (Zone.mk_from_report z).capacity_ = 0) ∧
    (¬ (z.cond = ZoneCond.Full ∨ z.cond = ZoneCond.Offline ∨ z.cond = ZoneCond.ReadOnly) →
      (Zone.mk_from_report z).capacity_ = z.capacity - (z.wp - z.start)) := by
  rw [U64_eq] at h3
  have hcap : (z.capacity + U64 - (z.wp + U64 - z.start) % U64) % U64
      = z.capacity - (z.wp - z.start) := by
    rw [U64_eq]
    omega
  refine ⟨?_, ?_, ?_⟩
  · rw [capacityOk_iff]
    intro hne
    simp only [Zone.mk_from_report, zbd_zone_start, zbd_zone_capacity, zbd_zone_wp] at hne ⊢
    split_ifs at hne ⊢ with hc
    · rw [hcap]
      omega
    · exact absurd rfl hne
  · intro hc
    simp only [Zone.mk_from_report, zbd_zone_full, zbd_zone_offline, zbd_zone_rdonly]
    rcases hc with hc | hc | hc <;> simp [hc]
  · intro hc
    simp only [Zone.mk_from_report, zbd_zone_full, zbd_zone_offline, zbd_zone_rdonly,
      zbd_zone_start, zbd_zone_capacity, zbd_zone_wp]
    simp only [not_or] at hc
    obtain ⟨hc1, hc2, hc3⟩ := hc
    rw [if_pos (by simp [hc1, hc2, hc3])]
    exact hcap

/-- A zone with the same `start_`, `capacity_`, `max_capacity_` and `wp_` as a
    zone whose capacity bookkeeping holds has it too. -/
theorem capacityOk_of_fields (z z1 : Zone) (h : z.capacityOk) (hs : z1.start_ = z.start_)
    (hc : z1.capacity_ = z.capacity_) (hm : z1.max_capacity_ = z.max_capacity_)
    (hw : z1.wp_ = z.wp_) : z1.capacityOk := by
  rw [capacityOk_iff] at h ⊢
  rw [hs, hc, hm, hw]
  exact h

/-- `Sync` preserves the capacity bookkeeping. -/
theorem capacityOk_Sync (z : Zone) (ev : AioCompletion) (h : z.capacityOk) :
    (z.Sync ev).zone.capacityOk := by
  have hf := Sync_zone_fields z ev
  exact capacityOk_of_fields z _ h hf.2.2.1 hf.2.1 hf.2.2.2.1 hf.1

/-- `Close` preserves the capacity bookkeeping. -/
theorem capacityOk_Close (z : Zone) (zone_sz : Nat) (close_ret : Int) (h : z.capacityOk) :
    (z.Close zone_sz close_ret).zone.capacityOk := by
  unfold Zone.Close
  split_ifs <;> exact h

/-- `Finish` preserves the capacity bookkeeping. -/
theorem capacityOk_Finish (z : Zone) (zone_sz : Nat) (finish_ret : Int) (h : z.capacityOk) :
    (z.Finish zone_sz finish_ret).zone.capacityOk := by
  unfold Zone.Finish
  split_ifs
  · exact h
  · rw [capacityOk_iff]
    intro hne
    exact absurd rfl hne

/-- `Reset` preserves the capacity bookkeeping, and establishes it when it
    succeeds. -/
theorem capacityOk_Reset (z : Zone) (zone_sz : Nat) (a : ResetAnswer) :
    (z.capacityOk → (z.Reset zone_sz a).zone.capacityOk) ∧
    ((z.Reset zone_sz a).status = IOStatus.OK → (z.Reset zone_sz a).zone.capacityOk) := by
  unfold Zone.Reset
  split_ifs with h1 h2 h3
  · exact ⟨fun h => h, fun h => absurd h (by decide)⟩
  · exact ⟨fun h => h, fun h => absurd h (by decide)⟩
  · have : Zone.capacityOk
        { ({ z with capacity_ := 0 } : Zone) with
          wp_ := z.start_, lifetime_ := WriteLifeTimeHint.WLTH_NOT_SET } := by
      rw [capacityOk_iff]
      intro hne
      exact absurd rfl hne
    exact ⟨fun _ => this, fun _ => this⟩
  · have : Zone.capacityOk
        { ({ z with max_capacity_ := zbd_zone_capacity a.z,
                    capacity_ := zbd_zone_capacity a.z } : Zone) with
          wp_ := z.start_, lifetime_ := WriteLifeTimeHint.WLTH_NOT_SET } := by
      rw [capacityOk_iff]
      intro _
      simp
    exact ⟨fun _ => this, fun _ => this⟩

/-- `Append_async` preserves the capacity bookkeeping of a zone that ends
    below `2^64`. -/
theorem capacityOk_Append_async (z : Zone) (size : Nat) (ev : AioCompletion)
    (submit_ret : Int) (h : z.capacityOk) (hrange : z.start_ + z.max_capacity_ < U64) :
    (z.Append_async size ev submit_ret).zone.capacityOk := by
  have hs := capacityOk_Sync z ev h
  have hf := Sync_zone_fields z ev
  have hr : (z.Sync ev).zone.start_ + (z.Sync ev).zone.max_capacity_ < U64 := by
    rw [hf.2.2.1, hf.2.2.2.1]
    exact hrange
  rw [capacityOk_iff] at hs
  rw [U64_eq] at hr
  unfold Zone.Append_async
  simp only []
  split_ifs with h1 h2 h3
  · rw [capacityOk_iff]
    exact hs
  · rw [capacityOk_iff]
    exact hs
  · rw [capacityOk_iff]
    exact hs
  · rw [capacityOk_iff]
    simp only [U64_eq]
    intro hne
    have hne0 : (z.Sync ev).zone.capacity_ ≠ 0 := by
      intro h0
      rw [h0] at hne
      exact hne (Nat.zero_sub _)
    have := hs hne0
    omega

/-- The write loop of `Append` preserves the capacity bookkeeping of a zone
    that ends below `2^64` when the `pwrite` calls together write no more than
    the capacity left. -/
theorem capacityOk_AppendLoop (size : Nat) :
    ∀ (results : List Int) (z : Zone) (left : Nat) (calls : List DevCall) (r : ZoneResult),
      Zone.AppendLoop size results z left calls = some r →
      z.capacityOk → z.start_ + z.max_capacity_ < U64 →
      (results.map Int.toNat).sum ≤ z.capacity_ → r.zone.capacityOk := by
  intro results
  induction results with
  | nil =>
    intro z left calls r h hz _ _
    rw [Zone.AppendLoop] at h
    by_cases hl : left = 0
    · simp only [hl, if_true, Option.some.injEq] at h
      rw [← h]
      exact hz
    · simp [hl] at h
  | cons ret rest ih =>
    intro z left calls r h hz hrange hsum
    rw [Zone.AppendLoop] at h
    by_cases hl : left = 0
    · simp only [hl, if_true, Option.some.injEq] at h
      rw [← h]
      exact hz
    · simp only [hl, if_false] at h
      by_cases hr : ret < 0
      · simp only [hr, if_true, Option.some.injEq] at h
        rw [← h]
        exact hz
      · simp only [hr, if_false] at h
        simp only [List.map_cons, List.sum_cons] at hsum
        rw [capacityOk_iff] at hz
        have hU := U64_eq
        have hret : intToU64 ret = ret.toNat := by
          unfold intToU64
          rw [Int.emod_eq_of_lt (by omega) (by
            have : (ret.toNat : Int) = ret := Int.toNat_of_nonneg (by omega)
            by_cases hc0 : z.capacity_ = 0
            · omega
            · have := hz hc0
              omega)]
        have hcap : (z.capacity_ + U64 - intToU64 ret) % U64 = z.capacity_ - ret.toNat := by
          rw [hret]
          by_cases hc0 : z.capacity_ = 0
          · have : ret.toNat = 0 := by omega
            rw [hc0, this, hU]
          · have := hz hc0
            rw [hU]
            omega
        refine ih _ _ _ r h ?_ hrange ?_
        · rw [capacityOk_iff]
          show (z.capacity_ + U64 - intToU64 ret) % U64 ≠ 0 → _
          simp only []
          rw [hcap, hret]
          intro hne
          have hc0 : z.capacity_ ≠ 0 := by omega
          have := hz hc0
          rw [hU] at hrange ⊢
          omega
        · show _ ≤ (z.capacity_ + U64 - intToU64 ret) % U64
          rw [hcap]
          omega

/-- `Append` preserves the capacity bookkeeping of a zone that ends below
    `2^64` when the `pwrite` calls together write no more than the capacity
    left. -/
theorem capacityOk_Append (z : Zone) (size : Nat) (ev : AioCompletion) (results : List Int)
    (r : ZoneResult) (h : z.Append size ev results = some r) (hz : z.capacityOk)
    (hrange : z.start_ + z.max_capacity_ < U64)
    (hsum : (results.map Int.toNat).sum ≤ z.capacity_) : r.zone.capacityOk := by
  have hf := Sync_zone_fields z ev
  unfold Zone.Append at h
  by_cases hc : z.capacity_ < size
  · simp only [hc, if_true, Option.some.injEq] at h
    rw [← h]
    exact hz
  · simp only [hc, if_false] at h
    by_cases hs : (!(z.Sync ev).status.ok) = true
    · simp only [hs, if_true, Option.some.injEq] at h
      rw [← h]
      exact capacityOk_Sync z ev hz
    · simp only [hs, if_false] at h
      refine capacityOk_AppendLoop size results _ _ _ r h (capacityOk_Sync z ev hz) ?_ ?_
      · rw [hf.2.2.1, hf.2.2.2.1]
        exact hrange
      · rw [hf.2.1]
        exact hsum

/-- C23 (code evaluation): the capacity bookkeeping holds for a 64 MiB zone
    with 8 KiB left, and an `Append` of 8192 bytes to it whose first `pwrite`
    writes 4096 bytes, whose second (asked for 8192 bytes again) writes 8192
    and whose third fails returns IOError with `wp_` 4096 bytes past the end
    of the zone and `capacity_` wrapped to `2^64 - 4096`; it holds for an 8 GiB
    zone with 4 GiB left, and an `Append` of 1 GiB to it whose `pwrite` calls
    write 512 MiB, four times 1 GiB and 512 MiB returns OK with `wp_` 1 GiB
    past the end of the zone and `capacity_` wrapped to `2^64 - 2^30`.  The
    constructor establishes the bookkeeping from a report entry whose write
    pointer lies within the zone, with capacity 0 for a zone reported Full,
    Offline or ReadOnly; `Sync`, `Close`, `Finish`, `Reset` and
    `Append_async` preserve it, whether they succeed or fail; and `Append`
    preserves it when its `pwrite` calls together write no more than the
    capacity left. -/
theorem C23_Append_breaks_capacity_bookkeeping :
    heldLastBlocksZone.capacityOk ∧
    (heldLastBlocksZone.Append 8192 ⟨0, 0⟩ [4096, 8192, -1]).map
        (fun r => (r.status, r.calls, r.zone.wp_, r.zone.capacity_, decide r.zone.capacityOk))
      = some (IOStatus.IOError,
          [DevCall.pwrite 8192 67100672, DevCall.pwrite 8192 67104768,
           DevCall.pwrite 8192 67112960],
          67112960, 18446744073709547520, false) ∧
    heldBigHalfZone.capacityOk ∧
    (heldBigHalfZone.Append 1073741824 ⟨0, 0⟩
        [536870912, 1073741824, 1073741824, 1073741824, 1073741824, 536870912]).map
        (fun r => (r.status, r.zone.wp_, r.zone.capacity_, decide r.zone.capacityOk))
      = some (IOStatus.OK, 9663676416, 18446744072635809792, false) ∧
    (∀ e : zbd_zone, e.start ≤ e.wp → e.wp ≤ e.start + e.capacity →
      e.start + e.capacity < U64 →
      (Zone.mk_from_report e).capacityOk ∧
      (e.cond = ZoneCond.Full ∨ e.cond = ZoneCond.Offline ∨ e.cond = ZoneCond.ReadOnly →
        (Zone.mk_from_report e).capacity_ = 0)) ∧
    (∀ z : Zone, z.capacityOk →
      (∀ ev : AioCompletion, (z.Sync ev).zone.capacityOk) ∧
      (∀ (zone_sz : Nat) (close_ret : Int), (z.Close zone_sz close_ret).zone.capacityOk) ∧
      (∀ (zone_sz : Nat) (finish_ret : Int), (z.Finish zone_sz finish_ret).zone.capacityOk) ∧
      (∀ (zone_sz : Nat) (a : ResetAnswer), (z.Reset zone_sz a).zone.capacityOk) ∧
      (z.start_ + z.max_capacity_ < U64 →
        (∀ (size : Nat) (ev : AioCompletion) (submit_ret : Int),
          (z.Append_async size ev submit_ret).zone.capacityOk) ∧
        (∀ (size : Nat) (ev : AioCompletion) (results : List Int) (r : ZoneResult),
          z.Append size ev results = some r →
          (results.map Int.toNat).sum ≤ z.capacity_ → r.zone.capacityOk))) := by
  refine ⟨by decide, by decide, by decide, by decide, ?_, ?_⟩
  · intro e h1 h2 h3
    exact ⟨(capacityOk_mk_from_report e h1 h2 h3).1, (capacityOk_mk_from_report e h1 h2 h3).2.1⟩
  · intro z hz
    refine ⟨fun ev => capacityOk_Sync z ev hz,
      fun zone_sz close_ret => capacityOk_Close z zone_sz close_ret hz,
      fun zone_sz finish_ret => capacityOk_Finish z zone_sz finish_ret hz,
      fun zone_sz a => (capacityOk_Reset z zone_sz a).1 hz, ?_⟩
    intro hrange
    exact ⟨fun size ev submit_ret => capacityOk_Append_async z size ev submit_ret hz hrange,
      fun size ev results r h hsum => capacityOk_Append z size ev results r h hz hrange hsum⟩

/-- Witness of C23: the general part at the 64 MiB zone with 8 KiB left: an
    `Append` of 8192 bytes whose two `pwrite` calls write 4096 bytes each
    returns OK with the zone full, and the bookkeeping holds. -/
theorem C23_Append_breaks_capacity_bookkeeping_witness :
    ∃ r : ZoneResult, heldLastBlocksZone.Append 8192 ⟨0, 0⟩ [4096, 4096] = some r ∧
      r.status = IOStatus.OK ∧ r.zone.capacity_ = 0 ∧ r.zone.capacityOk := by
  refine ⟨_, rfl, rfl, rfl, ?_⟩
  exact ((C23_Append_breaks_capacity_bookkeeping.2.2.2.2.2 heldLastBlocksZone
    (by decide)).2.2.2.2 (by decide)).2 8192 ⟨0, 0⟩ [4096, 4096] _ rfl (by decide)

/-- Witness of C21: the general part at the empty 64 MiB zone held open for
    write on the device with three empty io zones of which one is taken:
    `CloseWR` leaves `active_io_zones_ = 1`. -/
theorem C21_active_count_after_empty_close_witness :
    (({ emptyZone 0 67108864 with
          open_for_write_ := true, lifetime_ := WriteLifeTimeHint.WLTH_MEDIUM } : Zone).CloseWR
        (deviceFirstTaken 11) ⟨0, 0⟩ 0).zbd.active_io_zones_ = 1 := by
  exact (C21_active_count_after_empty_close.2.2.2.1 _ (deviceFirstTaken 11) ⟨0, 0⟩ 0
    (by decide) (by decide)).1

end ZenFS
